import Mathlib

/-!
# MiniSynth: a shallow embedding of the per-voice DSP engine

The C++ sources embedded here are `Source/dsp/PolyBLEPOsc.h`, `Source/dsp/PulseOsc.h`,
`Source/dsp/Noise.h` and `Source/dsp/SynthVoice.{h,cpp}`.

Conventions of the embedding.

* `float` and `double` values are elements of a linearly ordered field `α` and arithmetic is
  exact (no rounding, no NaN, no infinities); the casts `(float)` and `(double)` are the
  identity.  The definitions are computable and are evaluated at `α = ℚ`; statements that
  involve transcendental functions are made at `α = ℝ`.
* A C++ object is a structure, a `void` member function is a function from the old object to
  the new object, and a member function that returns a value returns the pair
  `(value, new object)`.
* The classes of the JUCE library (`juce::dsp::Oscillator`, `juce::ADSR`,
  `juce::dsp::StateVariableTPTFilter`, `juce::AudioBuffer`, `juce::Random`) and the functions of
  `<cmath>` are not part of the repository.  Elementary functions are taken as parameters
  (the structure `Lib`); the stateful classes are modelled from the specification.
-/

namespace MiniSynth

/-! ## `juce::jlimit`, `juce::jmin`, `juce::jmax` -/

/-- The clamp `juce::jlimit (lo, hi, v)`:
`v < lo ? lo : (hi < v ? hi : v)`. -/
def jlimit {α : Type} [LinearOrder α] (lo hi v : α) : α :=
  if v < lo then lo else if hi < v then hi else v

/-- The function `juce::jmax (a, b)`: `a < b ? b : a`. -/
def jmax {α : Type} [LinearOrder α] (a b : α) : α := if a < b then b else a

/-- The function `juce::jmin (a, b)`: `b < a ? b : a`. -/
def jmin {α : Type} [LinearOrder α] (a b : α) : α := if b < a then b else a

/-! ## `PolyBLEPOsc.h` -/

/-- The enumeration `PolyBLEPOsc::Mode`. -/
inductive Mode where
  | SawUp
  | SawDown
  deriving DecidableEq, Repr

/-- The data members of `class PolyBLEPOsc`, with their default member initialisers. -/
structure PolyBLEPOsc (α : Type) [LinearOrderedField α] where
  sampleRate : α := 44100
  freq : α := 0
  incr : α := 0
  phase : α := 0
  mode : Mode := Mode.SawUp

namespace PolyBLEPOsc

variable {α : Type} [LinearOrderedField α]

/-- Member `void reset() { phase = 0.0; incr = 0.0; }`. -/
def reset (o : PolyBLEPOsc α) : PolyBLEPOsc α := { o with phase := 0, incr := 0 }

/-- Member `void prepare (spec) { sampleRate = spec.sampleRate; reset(); }`. -/
def prepare (sr : α) (o : PolyBLEPOsc α) : PolyBLEPOsc α := reset { o with sampleRate := sr }

/-- Member `void forceReset() { phase = 0.0; }`. -/
def forceReset (o : PolyBLEPOsc α) : PolyBLEPOsc α := { o with phase := 0 }

/-- Member `double getPhase() const { return phase; }`. -/
def getPhase (o : PolyBLEPOsc α) : α := o.phase

/-- Member `void setFrequency (double f)`:
`freq = juce::jlimit (0.0, sampleRate * 0.45, f); incr = freq / sampleRate;` -/
def setFrequency (f : α) (o : PolyBLEPOsc α) : PolyBLEPOsc α :=
  let freq := jlimit 0 (o.sampleRate * (45 / 100)) f
  { o with freq := freq, incr := freq / o.sampleRate }

/-- Member `void setMode (Mode m) { mode = m; }`. -/
def setMode (m : Mode) (o : PolyBLEPOsc α) : PolyBLEPOsc α := { o with mode := m }

/-- The private helper `polyBLEP (t, dt)`:
```
if (t < dt)       { double x = t / dt;         return x + x - x * x - 1.0; }
if (t > 1.0 - dt) { double x = (t - 1.0) / dt; return x * x + x + x + 1.0; }
return 0.0f;
``` -/
def polyBLEP (t dt : α) : α :=
  if t < dt then
    let x := t / dt
    x + x - x * x - 1
  else if t > 1 - dt then
    let x := (t - 1) / dt
    x * x + x + x + 1
  else 0

/-- The phase accumulation that opens `processSample`:
`phase += incr; if (phase >= 1.0) phase -= 1.0;` -/
def advance (phase incr : α) : α :=
  let p := phase + incr
  if p ≥ 1 then p - 1 else p

/-- Member `float processSample()`:
```
phase += incr; if (phase >= 1.0) phase -= 1.0;
float x = (mode == SawUp ? (2.0 * phase - 1.0) : (1.0 - 2.0 * phase));
const double dt = incr;
x -= polyBLEP (phase, dt);
return x;
``` -/
def processSample (o : PolyBLEPOsc α) : α × PolyBLEPOsc α :=
  let phase := advance o.phase o.incr
  let x := if o.mode = Mode.SawUp then 2 * phase - 1 else 1 - 2 * phase
  let dt := o.incr
  let x := x - polyBLEP phase dt
  (x, { o with phase := phase })

end PolyBLEPOsc

/-! ## `PulseOsc.h` -/

/-- The data members of `class PulseOsc`, with their default member initialisers. -/
structure PulseOsc (α : Type) [LinearOrderedField α] where
  sampleRate : α := 44100
  freq : α := 0
  incr : α := 0
  phase : α := 0
  pw : α := 1 / 2
  roundedEdges : Bool := true

namespace PulseOsc

variable {α : Type} [LinearOrderedField α]

/-- Member `void reset() { phase = 0.0; incr = 0.0; }`. -/
def reset (o : PulseOsc α) : PulseOsc α := { o with phase := 0, incr := 0 }

/-- Member `void prepare (spec) { sampleRate = spec.sampleRate; reset(); }`. -/
def prepare (sr : α) (o : PulseOsc α) : PulseOsc α := reset { o with sampleRate := sr }

/-- Member `void forceReset() { phase = 0.0; }`. -/
def forceReset (o : PulseOsc α) : PulseOsc α := { o with phase := 0 }

/-- Member `void setFrequency (double f)`:
`freq = juce::jlimit (0.0, sampleRate * 0.45, f); incr = freq / sampleRate;` -/
def setFrequency (f : α) (o : PulseOsc α) : PulseOsc α :=
  let freq := jlimit 0 (o.sampleRate * (45 / 100)) f
  { o with freq := freq, incr := freq / o.sampleRate }

/-- Member `void setPulseWidth (float pw01) { pw = juce::jlimit (0.01f, 0.99f, pw01); }`. -/
def setPulseWidth (pw01 : α) (o : PulseOsc α) : PulseOsc α :=
  { o with pw := jlimit (1 / 100) (99 / 100) pw01 }

/-- Member `void setRoundedEdges (bool b) { roundedEdges = b; }`. -/
def setRoundedEdges (b : Bool) (o : PulseOsc α) : PulseOsc α := { o with roundedEdges := b }

/-- The private helper `polyBLEP (t, dt)` of `PulseOsc`, textually the one of `PolyBLEPOsc`. -/
def polyBLEP (t dt : α) : α :=
  if t < dt then
    let x := t / dt
    x + x - x * x - 1
  else if t > 1 - dt then
    let x := (t - 1) / dt
    x * x + x + x + 1
  else 0

/-- The phase accumulation that opens `processSample`:
`phase += incr; if (phase >= 1.0) phase -= 1.0;` -/
def advance (phase incr : α) : α :=
  let p := phase + incr
  if p ≥ 1 then p - 1 else p

/-- The value of `x` in `processSample` just before the `roundedEdges` test, as a function of
the phase after the increment:
```
float x = (phase < pw ?  1.0f : -1.0f);
const double dt = incr;
x += polyBLEP (phase, dt);
double t2 = phase - pw; if (t2 < 0.0) t2 += 1.0;
x -= polyBLEP (t2, dt);
``` -/
def rawSample (phase pw dt : α) : α :=
  let x : α := if phase < pw then 1 else -1
  let x := x + polyBLEP phase dt
  let t2 := phase - pw
  let t2 := if t2 < 0 then t2 + 1 else t2
  x - polyBLEP t2 dt

/-- Member `float processSample()`; `tanh` stands for `std::tanh`:
```
phase += incr; if (phase >= 1.0) phase -= 1.0;
... (see rawSample)
if (roundedEdges) x = std::tanh (x * 1.5f);
return x;
``` -/
def processSample (tanh : α → α) (o : PulseOsc α) : α × PulseOsc α :=
  let phase := advance o.phase o.incr
  let x := rawSample phase o.pw o.incr
  let x := if o.roundedEdges then tanh (x * (3 / 2)) else x
  (x, { o with phase := phase })

end PulseOsc


/-! ## Library functions taken as parameters -/

/-- The three generator functions with which `SynthVoice` constructs or initialises a
`juce::dsp::Oscillator`: `initialise (sin, 128)` (a 128-point lookup table of `std::sin`, used
by `osc1`, `osc2`, `osc3`), the plain `std::sin` (used by `subSine` and the five LFOs), and
`(2/pi) * asin (sin x)` (used by `subTri`). -/
inductive Generator where
  | sineTable
  | sine
  | triangle
  deriving DecidableEq, Repr

/-- The enumeration `juce::dsp::StateVariableTPTFilterType`. -/
inductive FilterType where
  | lowpass
  | bandpass
  | highpass
  deriving DecidableEq, Repr

/-- The functions of `<cmath>` and of the JUCE library that the voice calls and whose code is
not part of the repository.  Every theorem about the voice holds for every value of this
structure. -/
structure Lib (α : Type) where
  /-- The constant `juce::MathConstants<float>::pi`. -/
  pi : α
  /-- The function `std::asin`. -/
  asin : α → α
  /-- The function `std::tanh`. -/
  tanh : α → α
  /-- The function `x ↦ std::pow (2.0f, x)`. -/
  pow2 : α → α
  /-- The function `juce::Decibels::decibelsToGain`. -/
  decibelsToGain : α → α
  /-- The conversion `(int) x` of a `float`. -/
  toInt : α → Int
  /-- The function `juce::MidiMessage::getMidiNoteInHertz`. -/
  getMidiNoteInHertz : Int → α
  /-- One call of `juce::Random::nextFloat` on a generator whose seed is the argument: the
  value drawn and the next seed. -/
  nextFloat : Nat → α × Nat
  /-- One call of `juce::dsp::Oscillator::processSample (0.0f)` for a generator function, a
  sample rate, a frequency and a phase: the sample produced and the next phase. -/
  oscillator : Generator → α → α → α → α × α
  /-- One call of `juce::dsp::StateVariableTPTFilter::processSample` on one channel, for a
  filter type, a sample rate, a cutoff frequency, a resonance, the two state values of the
  channel and an input sample: the output sample and the next two state values. -/
  svf : FilterType → α → α → α → α × α → α → α × (α × α)
  /-- The number of bytes `juce::AudioBuffer<float>::setSize` needs for a number of channels
  and a number of samples. -/
  bufferBytes : Nat → Nat → Nat

/-! ## `Noise.h` -/

/-- The data members of `struct NoiseBus`; `rng` is the seed of the `juce::Random` (a value of
the model's choice at construction: the library seeds a new generator at random). -/
structure NoiseBus (α : Type) [LinearOrderedField α] where
  rng : Nat := 1
  pinkState : α := 0
  brownState : α := 0
  hpX : α := 0
  hpY : α := 0

namespace NoiseBus

variable {α : Type} [LinearOrderedField α]

/-- Member `void prepare (const juce::dsp::ProcessSpec&) {}`. -/
def prepare (nb : NoiseBus α) : NoiseBus α := nb

/-- Member `float white() { return rng.nextFloat() * 2.0f - 1.0f; }`. -/
def white (J : Lib α) (nb : NoiseBus α) : α × NoiseBus α :=
  let d := J.nextFloat nb.rng
  (d.1 * 2 - 1, { nb with rng := d.2 })

/-- Member `float pink()`:
`pinkState = 0.98f * pinkState + 0.02f * white(); return pinkState;` -/
def pink (J : Lib α) (nb : NoiseBus α) : α × NoiseBus α :=
  let w := white J nb
  let p := 98 / 100 * nb.pinkState + 2 / 100 * w.1
  (p, { w.2 with pinkState := p })

/-- Member `float brown()`:
`brownState = juce::jlimit (-1.0f, 1.0f, brownState + 0.02f * white()); return brownState;` -/
def brown (J : Lib α) (nb : NoiseBus α) : α × NoiseBus α :=
  let w := white J nb
  let b := jlimit (-1) 1 (nb.brownState + 2 / 100 * w.1)
  (b, { w.2 with brownState := b })

/-- Member `float highpass (float x, float alpha)`:
`float y = alpha * (hpY + x - hpX); hpX = x; hpY = y; return y;` -/
def highpass (x alpha : α) (nb : NoiseBus α) : α × NoiseBus α :=
  let y := alpha * (nb.hpY + x - nb.hpX)
  (y, { nb with hpX := x, hpY := y })

end NoiseBus

/-! ## JUCE classes owned by the voice -/

/-- Modelled from the spec: `juce::dsp::Oscillator<float>` is library code outside the
repository.  The spec (Data model, "Oscillator Unit" and "LFO") gives it a frequency and a
phase; `prepare` stores the sample rate and resets the phase, `setFrequency` stores the
frequency as given (no clamp), and `processSample` is the library function `Lib.oscillator`. -/
structure Oscillator (α : Type) [LinearOrderedField α] where
  sampleRate : α := 0
  frequency : α := 440
  phase : α := 0

namespace Oscillator

variable {α : Type} [LinearOrderedField α]

/-- Modelled from the spec: `Oscillator::prepare (spec)`, "resets all phase state". -/
def prepare (sr : α) (o : Oscillator α) : Oscillator α :=
  { o with sampleRate := sr, phase := 0 }

/-- Modelled from the spec: `Oscillator::setFrequency (f)`. -/
def setFrequency (f : α) (o : Oscillator α) : Oscillator α := { o with frequency := f }

/-- Modelled from the spec: `Oscillator::processSample (0.0f)` with generator `g`. -/
def processSample (J : Lib α) (g : Generator) (o : Oscillator α) : α × Oscillator α :=
  let r := J.oscillator g o.sampleRate o.frequency o.phase
  (r.1, { o with phase := r.2 })

end Oscillator

/-- The states of the envelope generator (spec, Data model: Idle, Attack, Decay, Sustain,
Release). -/
inductive EnvState where
  | idle
  | attack
  | decay
  | sustain
  | release
  deriving DecidableEq, Repr

/-- The structure `juce::ADSR::Parameters`: stage durations in seconds and sustain level. -/
structure ADSRParameters (α : Type) where
  attack : α
  decay : α
  sustain : α
  release : α
  deriving DecidableEq

/-- Modelled from the spec: `juce::ADSR` is library code outside the repository.  The model
follows section 4.3 of the spec: a state machine Idle, Attack, Decay, Sustain, Release with
linear ramps whose per-sample rates are `distance / (seconds * sampleRate)`. -/
structure ADSR (α : Type) [LinearOrderedField α] where
  state : EnvState := EnvState.idle
  parameters : ADSRParameters α := ⟨1 / 10, 1 / 10, 1, 1 / 10⟩
  sampleRate : α := 44100
  envelopeVal : α := 0
  attackRate : α := 0
  decayRate : α := 0
  releaseRate : α := 0

namespace ADSR

variable {α : Type} [LinearOrderedField α]

/-- Modelled from the spec: the per-sample rate of a ramp over `distance` lasting
`timeInSeconds`; a non-positive duration gives the rate `-1` ("no such stage"). -/
def getRate (distance timeInSeconds sr : α) : α :=
  if timeInSeconds > 0 then distance / (timeInSeconds * sr) else -1

/-- Modelled from the spec: `ADSR::reset`, back to Idle at level 0. -/
def reset (e : ADSR α) : ADSR α := { e with envelopeVal := 0, state := EnvState.idle }

/-- Modelled from the spec: the stage that follows the current one: Attack is followed by
Decay (by Sustain when there is no decay stage), Decay by Sustain, Release by Idle. -/
def goToNextState (e : ADSR α) : ADSR α :=
  match e.state with
  | EnvState.attack =>
      { e with state := if e.decayRate > 0 then EnvState.decay else EnvState.sustain }
  | EnvState.decay => { e with state := EnvState.sustain }
  | EnvState.release => reset e
  | _ => e

/-- Modelled from the spec: the three rates are recomputed from the parameters, and a stage
that has become empty is left at once. -/
def recalculateRates (e : ADSR α) : ADSR α :=
  let e1 : ADSR α :=
    { e with
      attackRate := getRate 1 e.parameters.attack e.sampleRate
      decayRate := getRate (1 - e.parameters.sustain) e.parameters.decay e.sampleRate
      releaseRate := getRate e.parameters.sustain e.parameters.release e.sampleRate }
  if (e1.state = EnvState.attack ∧ e1.attackRate ≤ 0)
      ∨ (e1.state = EnvState.decay ∧ (e1.decayRate ≤ 0 ∨ e1.envelopeVal ≤ e1.parameters.sustain))
      ∨ (e1.state = EnvState.release ∧ e1.releaseRate ≤ 0) then
    goToNextState e1
  else e1

/-- Modelled from the spec: `ADSR::setSampleRate`. -/
def setSampleRate (sr : α) (e : ADSR α) : ADSR α := { e with sampleRate := sr }

/-- Modelled from the spec: `ADSR::setParameters` stores the parameters and recomputes the
rates. -/
def setParameters (p : ADSRParameters α) (e : ADSR α) : ADSR α :=
  recalculateRates { e with parameters := p }

/-- Modelled from the spec: `ADSR::isActive`, "true whenever state is not Idle". -/
def isActive (e : ADSR α) : Bool := decide (e.state ≠ EnvState.idle)

/-- Modelled from the spec: `ADSR::noteOn` "forces Attack from current level (no hard
reset)"; without an attack stage the envelope starts in Decay or Sustain. -/
def noteOn (e : ADSR α) : ADSR α :=
  if e.attackRate > 0 then { e with state := EnvState.attack }
  else if e.decayRate > 0 then { e with envelopeVal := 1, state := EnvState.decay }
  else { e with envelopeVal := e.parameters.sustain, state := EnvState.sustain }

/-- Modelled from the spec: `ADSR::noteOff` "forces Release from current level regardless of
prior stage"; an Idle envelope stays Idle, and without a release stage the envelope is reset. -/
def noteOff (e : ADSR α) : ADSR α :=
  if e.state ≠ EnvState.idle then
    if e.parameters.release > 0 then
      { e with
        releaseRate := e.envelopeVal / (e.parameters.release * e.sampleRate)
        state := EnvState.release }
    else reset e
  else e

/-- Modelled from the spec: `ADSR::getNextSample`, the per-sample update of section 4.3. -/
def getNextSample (e : ADSR α) : α × ADSR α :=
  match e.state with
  | EnvState.idle => (0, e)
  | EnvState.attack =>
      let v := e.envelopeVal + e.attackRate
      if v ≥ 1 then (1, goToNextState { e with envelopeVal := 1 })
      else (v, { e with envelopeVal := v })
  | EnvState.decay =>
      let v := e.envelopeVal - e.decayRate
      if v ≤ e.parameters.sustain then
        (e.parameters.sustain, goToNextState { e with envelopeVal := e.parameters.sustain })
      else (v, { e with envelopeVal := v })
  | EnvState.sustain =>
      (e.parameters.sustain, { e with envelopeVal := e.parameters.sustain })
  | EnvState.release =>
      let v := e.envelopeVal - e.releaseRate
      if v ≤ 0 then (0, goToNextState { e with envelopeVal := v })
      else (v, { e with envelopeVal := v })

end ADSR

/-- Modelled from the spec: `juce::dsp::StateVariableTPTFilter<float>` is library code outside
the repository.  The spec (Data model, "Filter State") gives it a mode, a cutoff frequency and
a resonance; `mem ch` is the pair of state values of channel `ch`. -/
structure SVFilter (α : Type) [LinearOrderedField α] where
  sampleRate : α := 44100
  filterType : FilterType := FilterType.lowpass
  cutoffFrequency : α := 1000
  resonance : α := 1
  mem : Nat → α × α := fun _ => (0, 0)

namespace SVFilter

variable {α : Type} [LinearOrderedField α]

/-- Modelled from the spec: `prepare (spec)` stores the sample rate and "resets all filter
state". -/
def prepare (sr : α) (f : SVFilter α) : SVFilter α :=
  { f with sampleRate := sr, mem := fun _ => (0, 0) }

/-- Modelled from the spec: `setType` stores the mode. -/
def setType (t : FilterType) (f : SVFilter α) : SVFilter α := { f with filterType := t }

/-- Modelled from the spec: `setCutoffFrequency` stores the cutoff frequency as given. -/
def setCutoffFrequency (c : α) (f : SVFilter α) : SVFilter α := { f with cutoffFrequency := c }

/-- Modelled from the spec: `setResonance` stores the resonance as given. -/
def setResonance (q : α) (f : SVFilter α) : SVFilter α := { f with resonance := q }

/-- Modelled from the spec: `processSample (channel, x)` runs the library function `Lib.svf`
on the state of that channel and stores the new state of that channel. -/
def processSample (J : Lib α) (ch : Nat) (x : α) (f : SVFilter α) : α × SVFilter α :=
  let r := J.svf f.filterType f.sampleRate f.cutoffFrequency f.resonance (f.mem ch) x
  (r.1, { f with mem := Function.update f.mem ch r.2 })

end SVFilter

/-- Modelled from the spec: `juce::AudioBuffer<float>` is library code outside the repository.
Sample memory is a total map from channel and sample index to a value, `numChannels` and
`numSamples` are the current dimensions, and `allocatedBytes` is the size of the heap block
the buffer owns. -/
structure AudioBuffer (α : Type) [LinearOrderedField α] where
  numChannels : Nat := 0
  numSamples : Nat := 0
  allocatedBytes : Nat := 0
  data : Nat → Nat → α := fun _ _ => 0

namespace AudioBuffer

variable {α : Type} [LinearOrderedField α]

/-- Modelled from the spec: `setSize (ch, n, false, false, true)`, the call of the render
function (no content kept, `avoidReallocating = true`): the dimensions are updated, and the
heap block is replaced only when it is smaller than what the new dimensions need. -/
def setSize (J : Lib α) (ch n : Nat) (b : AudioBuffer α) : AudioBuffer α :=
  if n ≠ b.numSamples ∨ ch ≠ b.numChannels then
    { b with
      numChannels := ch
      numSamples := n
      allocatedBytes :=
        if b.allocatedBytes ≥ J.bufferBytes ch n then b.allocatedBytes else J.bufferBytes ch n }
  else b

/-- Modelled from the spec: `clear()` sets every sample to zero. -/
def clear (b : AudioBuffer α) : AudioBuffer α := { b with data := fun _ _ => 0 }

/-- The statement `p[i] += x` for `p = b.getWritePointer (ch)`. -/
def addSample (ch i : Nat) (x : α) (b : AudioBuffer α) : AudioBuffer α :=
  { b with data := Function.update b.data ch (Function.update (b.data ch) i (b.data ch i + x)) }

end AudioBuffer

/-! ## The parameter snapshot -/

/-- The values `state.getRawParameterValue (id)->load()` of the parameters that `SynthVoice`
reads, one field per identifier of `namespace ids` it uses. -/
structure Params (α : Type) where
  osc1Wave : α
  osc2Wave : α
  osc3Wave : α
  mix1 : α
  mix2 : α
  mix3 : α
  detune1 : α
  detune2 : α
  detune3 : α
  stereoSpread : α
  uniOn : α
  uniDetune : α
  pwm1 : α
  pwm2 : α
  pwm3 : α
  pwmDepth1 : α
  pwmDepth2 : α
  pwmDepth3 : α
  pwmRate1 : α
  pwmRate2 : α
  pwmRate3 : α
  subOn : α
  subWave : α
  subOct : α
  subLevel : α
  mixNoiseW : α
  mixNoiseP : α
  mixNoiseB : α
  noiseHPFOn : α
  noiseHPF : α
  attack : α
  decay : α
  sustain : α
  release : α
  filterType : α
  cutoff : α
  resonance : α
  fA : α
  fD : α
  fS : α
  fR : α
  fAmt : α
  lfoRate : α
  lfoDepth : α
  lfoTarget : α
  lfo2Rate : α
  lfo2Depth : α
  lfo2Target : α
  gain : α
  bendRange : α

/-! ## `SynthVoice.h` and `SynthVoice.cpp` -/

/-- The data members of `class SynthVoice`.  An array `x[unisonVoices]` of two objects is the
pair `(x[0], x[1])`.  The reference `state` to the parameter tree is not a field: every
function that reads it takes the snapshot `Params` as an argument.  `noteActive` is modelled
from the spec (Data model, Voice: "active/inactive flag"): it is the value of
`isVoiceActive()` of the base class `juce::SynthesiserVoice`, set when the synthesiser starts
a note on the voice and cleared by `clearCurrentNote()`. -/
structure SynthVoice (α : Type) [LinearOrderedField α] where
  noteActive : Bool := false
  osc1 : Oscillator α × Oscillator α := ({}, {})
  osc2 : Oscillator α × Oscillator α := ({}, {})
  osc3 : Oscillator α × Oscillator α := ({}, {})
  pulse1 : PulseOsc α × PulseOsc α := ({}, {})
  pulse2 : PulseOsc α × PulseOsc α := ({}, {})
  pulse3 : PulseOsc α × PulseOsc α := ({}, {})
  blep1 : PolyBLEPOsc α × PolyBLEPOsc α := ({}, {})
  blep2 : PolyBLEPOsc α × PolyBLEPOsc α := ({}, {})
  blep3 : PolyBLEPOsc α × PolyBLEPOsc α := ({}, {})
  subSine : Oscillator α := {}
  subTri : Oscillator α := {}
  subPulse : PulseOsc α := {}
  noise : NoiseBus α := {}
  filterL : SVFilter α := {}
  filterR : SVFilter α := {}
  ampEnv : ADSR α := {}
  filtEnv : ADSR α := {}
  lfo1 : Oscillator α := {}
  lfo2 : Oscillator α := {}
  pwmLfo1 : Oscillator α := {}
  pwmLfo2 : Oscillator α := {}
  pwmLfo3 : Oscillator α := {}
  temp : AudioBuffer α := {}
  sampleRate : α := 44100
  baseFreqHz : α := 440
  curVelocity : α := 1
  pitchBendSemitones : α := 0
  aftertouch : α := 0
  channelPressure : α := 0

namespace SynthVoice

variable {α : Type} [LinearOrderedField α]

/-- The helper `noteHz (midi)`: `(float) MidiMessage::getMidiNoteInHertz (midi)`. -/
def noteHz (J : Lib α) (midi : Int) : α := J.getMidiNoteInHertz midi

/-- Modelled from the spec: `isVoiceActive()` of the base class, the active/inactive flag. -/
def isVoiceActive (v : SynthVoice α) : Bool := v.noteActive

/-- Modelled from the spec: `clearCurrentNote()` of the base class makes the voice inactive. -/
def clearCurrentNote (v : SynthVoice α) : SynthVoice α := { v with noteActive := false }

/-- Member `updateStaticParams()`: both envelopes receive their four parameters from the
snapshot. -/
def updateStaticParams (P : Params α) (v : SynthVoice α) : SynthVoice α :=
  { v with
    ampEnv := v.ampEnv.setParameters ⟨P.attack, P.decay, P.sustain, P.release⟩
    filtEnv := v.filtEnv.setParameters ⟨P.fA, P.fD, P.fS, P.fR⟩ }

/-- Member `updateDynamicParams()`: the five low-frequency oscillators receive their rates
from the snapshot. -/
def updateDynamicParams (P : Params α) (v : SynthVoice α) : SynthVoice α :=
  { v with
    lfo1 := v.lfo1.setFrequency P.lfoRate
    lfo2 := v.lfo2.setFrequency P.lfo2Rate
    pwmLfo1 := v.pwmLfo1.setFrequency P.pwmRate1
    pwmLfo2 := v.pwmLfo2.setFrequency P.pwmRate2
    pwmLfo3 := v.pwmLfo3.setFrequency P.pwmRate3 }

/-- Member `prepare (sr, spb, numCh)`: the sample rate is stored, every oscillator, the noise
bus and both filters are prepared, both envelopes receive the sample rate, the five
low-frequency oscillators are prepared, and `updateStaticParams()` is called.  The block size
`spb` and the channel count `numCh` only enter the `ProcessSpec`, of which the model of the
prepared objects uses the sample rate. -/
def prepare (P : Params α) (sr : α) (_spb : Nat) (_numCh : Nat) (v : SynthVoice α) :
    SynthVoice α :=
  let v : SynthVoice α :=
    { v with
      sampleRate := sr
      osc1 := (v.osc1.1.prepare sr, v.osc1.2.prepare sr)
      osc2 := (v.osc2.1.prepare sr, v.osc2.2.prepare sr)
      osc3 := (v.osc3.1.prepare sr, v.osc3.2.prepare sr)
      pulse1 := (v.pulse1.1.prepare sr, v.pulse1.2.prepare sr)
      pulse2 := (v.pulse2.1.prepare sr, v.pulse2.2.prepare sr)
      pulse3 := (v.pulse3.1.prepare sr, v.pulse3.2.prepare sr)
      blep1 := (v.blep1.1.prepare sr, v.blep1.2.prepare sr)
      blep2 := (v.blep2.1.prepare sr, v.blep2.2.prepare sr)
      blep3 := (v.blep3.1.prepare sr, v.blep3.2.prepare sr)
      subSine := v.subSine.prepare sr
      subTri := v.subTri.prepare sr
      subPulse := v.subPulse.prepare sr
      noise := v.noise.prepare
      filterL := v.filterL.prepare sr
      filterR := v.filterR.prepare sr
      ampEnv := v.ampEnv.setSampleRate sr
      filtEnv := v.filtEnv.setSampleRate sr
      lfo1 := v.lfo1.prepare sr
      lfo2 := v.lfo2.prepare sr
      pwmLfo1 := v.pwmLfo1.prepare sr
      pwmLfo2 := v.pwmLfo2.prepare sr
      pwmLfo3 := v.pwmLfo3.prepare sr }
  updateStaticParams P v

/-- Member `startNote (midi, vel, sound, int)`:
```
baseFreqHz = noteHz (midi);
curVelocity = jlimit (0.0f, 1.0f, vel);
pitchBendSemitones = 0.0f; aftertouch = 0.0f; channelPressure = 0.0f;
ampEnv.noteOn(); filtEnv.noteOn();
``` -/
def startNote (J : Lib α) (midi : Int) (vel : α) (v : SynthVoice α) : SynthVoice α :=
  { v with
    baseFreqHz := noteHz J midi
    curVelocity := jlimit 0 1 vel
    pitchBendSemitones := 0
    aftertouch := 0
    channelPressure := 0
    ampEnv := v.ampEnv.noteOn
    filtEnv := v.filtEnv.noteOn }

/-- Modelled from the spec: the synthesiser that owns the voice starts a note on it: it calls
`startNote` and records the note as sounding, after which `isVoiceActive()` is true. -/
def startVoice (J : Lib α) (midi : Int) (vel : α) (v : SynthVoice α) : SynthVoice α :=
  { startNote J midi vel v with noteActive := true }

/-- Member `stopNote (velocity, tail)`:
```
ampEnv.noteOff(); filtEnv.noteOff();
if (! tail || ! ampEnv.isActive()) clearCurrentNote();
``` -/
def stopNote (tail : Bool) (v : SynthVoice α) : SynthVoice α :=
  let v : SynthVoice α := { v with ampEnv := v.ampEnv.noteOff, filtEnv := v.filtEnv.noteOff }
  if !tail || !v.ampEnv.isActive then clearCurrentNote v else v

/-- Member `pitchWheelMoved (v)`:
```
const float range = state.getRawParameterValue (ids::bendRange)->load();
const float norm = (v - 8192) / 8192.0f;
pitchBendSemitones = norm * range;
``` -/
def pitchWheelMoved (P : Params α) (value : Int) (v : SynthVoice α) : SynthVoice α :=
  let range := P.bendRange
  let norm : α := ((value - 8192 : Int) : α) / 8192
  { v with pitchBendSemitones := norm * range }

/-- Member `channelPressureChanged (v)`: `channelPressure = jlimit (0.0f, 1.0f, v / 127.0f)`. -/
def channelPressureChanged (value : Int) (v : SynthVoice α) : SynthVoice α :=
  { v with channelPressure := jlimit 0 1 ((value : α) / 127) }

/-- Member `aftertouchChanged (v)`: `aftertouch = jlimit (0.0f, 1.0f, v / 127.0f)`. -/
def aftertouchChanged (value : Int) (v : SynthVoice α) : SynthVoice α :=
  { v with aftertouch := jlimit 0 1 ((value : α) / 127) }

/-- Member `controllerMoved`: "No-op for now". -/
def controllerMoved (_controllerNumber _newControllerValue : Int) (v : SynthVoice α) :
    SynthVoice α := v

/-- The objects a call of the lambda `oscSample` may modify: the three arguments passed by
reference and the captured noise bus. -/
structure OscRefs (α : Type) [LinearOrderedField α] where
  pulse : PulseOsc α
  blep : PolyBLEPOsc α
  sinGen : Oscillator α
  noise : NoiseBus α

/-- The lambda `oscSample (wave, freq, pw, pulse, blep, sinGen)` of `renderNextBlock`, a
`switch` on `wave` with cases 0, 1, 5, 2, 3, 4, 6, 7 and `default`.  The generator of the
three main oscillators and their companions is the 128-point sine table. -/
def oscSample (J : Lib α) (wave : Int) (freq pw : α) (r : OscRefs α) : α × OscRefs α :=
  if wave = 0 then
    let o := (r.sinGen.setFrequency freq).processSample J Generator.sineTable
    (o.1, { r with sinGen := o.2 })
  else if wave = 1 then
    let o := ((r.blep.setMode Mode.SawUp).setFrequency freq).processSample
    (o.1, { r with blep := o.2 })
  else if wave = 5 then
    let o := ((r.blep.setMode Mode.SawDown).setFrequency freq).processSample
    (o.1, { r with blep := o.2 })
  else if wave = 2 then
    let o := ((r.pulse.setFrequency freq).setPulseWidth pw).processSample J.tanh
    (o.1, { r with pulse := o.2 })
  else if wave = 3 then
    let o := (r.sinGen.setFrequency freq).processSample J Generator.sineTable
    (2 / J.pi * J.asin o.1, { r with sinGen := o.2 })
  else if wave = 4 then
    let o := r.noise.white J
    (o.1, { r with noise := o.2 })
  else if wave = 6 then
    let o := (r.sinGen.setFrequency freq).processSample J Generator.sineTable
    (J.tanh (2 * o.1), { r with sinGen := o.2 })
  else if wave = 7 then
    let o := (r.sinGen.setFrequency freq).processSample J Generator.sineTable
    (jlimit (-1) 1 (o.1 * (1 / 2) + 1 / 2), { r with sinGen := o.2 })
  else
    let o := (r.sinGen.setFrequency freq).processSample J Generator.sineTable
    (o.1, { r with sinGen := o.2 })

/-- The values that `renderNextBlock` reads once, before its sample loop: the parameters of
the snapshot (with their conversions to `int` and `bool`), `bendRatio` and `gLin`. -/
structure BlockConsts (α : Type) where
  wave1i : Int
  wave2i : Int
  wave3i : Int
  mix1v : α
  mix2v : α
  mix3v : α
  det1 : α
  det2 : α
  det3 : α
  uniOn : Bool
  uniDet : α
  spread : α
  pwm1B : α
  pwm2B : α
  pwm3B : α
  pwmD1 : α
  pwmD2 : α
  pwmD3 : α
  subWave : Int
  subOct : Int
  subOn : Bool
  subLvl : α
  nW : α
  nP : α
  nB : α
  nHPFon : Bool
  nHPFhz : α
  fType : Int
  cutoff : α
  q : α
  fAmt : α
  lfo1Dp : α
  lfo1Tg : Int
  lfo2Dp : α
  lfo2Tg : Int
  bendRatio : α
  gLin : α

/-- The declarations of `renderNextBlock` between `temp.clear()` and the sample loop. -/
def blockConsts (J : Lib α) (P : Params α) (v : SynthVoice α) : BlockConsts α :=
  { wave1i := J.toInt P.osc1Wave
    wave2i := J.toInt P.osc2Wave
    wave3i := J.toInt P.osc3Wave
    mix1v := P.mix1
    mix2v := P.mix2
    mix3v := P.mix3
    det1 := P.detune1
    det2 := P.detune2
    det3 := P.detune3
    uniOn := decide (P.uniOn > 1 / 2)
    uniDet := P.uniDetune
    spread := P.stereoSpread
    pwm1B := P.pwm1
    pwm2B := P.pwm2
    pwm3B := P.pwm3
    pwmD1 := P.pwmDepth1
    pwmD2 := P.pwmDepth2
    pwmD3 := P.pwmDepth3
    subWave := J.toInt P.subWave
    subOct := J.toInt P.subOct
    subOn := decide (P.subOn > 1 / 2)
    subLvl := P.subLevel
    nW := P.mixNoiseW
    nP := P.mixNoiseP
    nB := P.mixNoiseB
    nHPFon := decide (P.noiseHPFOn > 1 / 2)
    nHPFhz := P.noiseHPF
    fType := J.toInt P.filterType
    cutoff := P.cutoff
    q := P.resonance
    fAmt := P.fAmt
    lfo1Dp := P.lfoDepth
    lfo1Tg := J.toInt P.lfoTarget
    lfo2Dp := P.lfo2Depth
    lfo2Tg := J.toInt P.lfo2Target
    bendRatio := J.pow2 (v.pitchBendSemitones / 12)
    gLin := J.decibelsToGain P.gain }

/-- The multiplication of one oscillator frequency by the pitch modulation of the two LFOs:
```
if (lfo1Tg == 1) { f *= std::pow (2.0f, 0.1f  * lfo1Dp * lfo1v); }
if (lfo2Tg == 1) { f *= std::pow (2.0f, 0.05f * lfo2Dp * lfo2v); }
``` -/
def lfoPitch (J : Lib α) (c : BlockConsts α) (lfo1v lfo2v f : α) : α :=
  let f := if c.lfo1Tg = 1 then f * J.pow2 (1 / 10 * c.lfo1Dp * lfo1v) else f
  if c.lfo2Tg = 1 then f * J.pow2 (5 / 100 * c.lfo2Dp * lfo2v) else f

/-- The amplitude modulation of the two LFOs:
```
if (lfo1Tg == 2) amp *= juce::jlimit (0.0f, 2.0f, 1.0f + lfo1Dp * 0.5f * lfo1v);
if (lfo2Tg == 2) amp *= juce::jlimit (0.0f, 2.0f, 1.0f + lfo2Dp * 0.5f * lfo2v);
``` -/
def lfoAmp (c : BlockConsts α) (lfo1v lfo2v amp : α) : α :=
  let amp := if c.lfo1Tg = 2 then amp * jlimit 0 2 (1 + c.lfo1Dp * (1 / 2) * lfo1v) else amp
  if c.lfo2Tg = 2 then amp * jlimit 0 2 (1 + c.lfo2Dp * (1 / 2) * lfo2v) else amp

/-- The values computed from the five low-frequency oscillators at the top of the loop body. -/
structure Mods (α : Type) where
  lfo1v : α
  lfo2v : α
  pw1 : α
  pw2 : α
  pw3 : α

/-- The frequency of main oscillator 1, 2 or 3 with detune `det`:
```
float f = baseFreqHz * bendRatio * std::pow (2.0f, det / 12.0f);
if (lfo1Tg == 1) ...; if (lfo2Tg == 1) ...;   (see lfoPitch)
``` -/
def mainFreq (J : Lib α) (c : BlockConsts α) (v : SynthVoice α) (m : Mods α) (det : α) : α :=
  lfoPitch J c m.lfo1v m.lfo2v (v.baseFreqHz * c.bendRatio * J.pow2 (det / 12))

/-- Loop body, part 1: the two LFOs and the three PWM LFOs are advanced once.
```
const float lfo1v = lfo1.processSample (0.0f);
const float lfo2v = lfo2.processSample (0.0f);
... (f1, f2, f3: see mainFreq)
const float pw1 = juce::jlimit (0.05f, 0.95f, pwm1B + pwmD1 * pwmLfo1.processSample (0.0f));
const float pw2 = ...; const float pw3 = ...;
``` -/
def modStage (J : Lib α) (c : BlockConsts α) (v : SynthVoice α) : Mods α × SynthVoice α :=
  let o1 := v.lfo1.processSample J Generator.sine
  let o2 := v.lfo2.processSample J Generator.sine
  let p1 := v.pwmLfo1.processSample J Generator.sine
  let p2 := v.pwmLfo2.processSample J Generator.sine
  let p3 := v.pwmLfo3.processSample J Generator.sine
  ({ lfo1v := o1.1
     lfo2v := o2.1
     pw1 := jlimit (5 / 100) (95 / 100) (c.pwm1B + c.pwmD1 * p1.1)
     pw2 := jlimit (5 / 100) (95 / 100) (c.pwm2B + c.pwmD2 * p2.1)
     pw3 := jlimit (5 / 100) (95 / 100) (c.pwm3B + c.pwmD3 * p3.1) },
   { v with lfo1 := o1.2, lfo2 := o2.2, pwmLfo1 := p1.2, pwmLfo2 := p2.2, pwmLfo3 := p3.2 })

/-- The call `oscSample (wave1i, f, pw, pulse1[0], blep1[0], osc1[0])`. -/
def slot1Main (J : Lib α) (c : BlockConsts α) (f pw : α) (v : SynthVoice α) :
    α × SynthVoice α :=
  let o := oscSample J c.wave1i f pw ⟨v.pulse1.1, v.blep1.1, v.osc1.1, v.noise⟩
  (o.1, { v with pulse1 := (o.2.pulse, v.pulse1.2), blep1 := (o.2.blep, v.blep1.2),
                 osc1 := (o.2.sinGen, v.osc1.2), noise := o.2.noise })

/-- The call `oscSample (wave2i, f, pw, pulse2[0], blep2[0], osc2[0])`. -/
def slot2Main (J : Lib α) (c : BlockConsts α) (f pw : α) (v : SynthVoice α) :
    α × SynthVoice α :=
  let o := oscSample J c.wave2i f pw ⟨v.pulse2.1, v.blep2.1, v.osc2.1, v.noise⟩
  (o.1, { v with pulse2 := (o.2.pulse, v.pulse2.2), blep2 := (o.2.blep, v.blep2.2),
                 osc2 := (o.2.sinGen, v.osc2.2), noise := o.2.noise })

/-- The call `oscSample (wave3i, f, pw, pulse3[0], blep3[0], osc3[0])`. -/
def slot3Main (J : Lib α) (c : BlockConsts α) (f pw : α) (v : SynthVoice α) :
    α × SynthVoice α :=
  let o := oscSample J c.wave3i f pw ⟨v.pulse3.1, v.blep3.1, v.osc3.1, v.noise⟩
  (o.1, { v with pulse3 := (o.2.pulse, v.pulse3.2), blep3 := (o.2.blep, v.blep3.2),
                 osc3 := (o.2.sinGen, v.osc3.2), noise := o.2.noise })

/-- The call `oscSample (wave1i, f, pw, pulse1[1], blep1[1], osc1[1])`. -/
def slot1Uni (J : Lib α) (c : BlockConsts α) (f pw : α) (v : SynthVoice α) :
    α × SynthVoice α :=
  let o := oscSample J c.wave1i f pw ⟨v.pulse1.2, v.blep1.2, v.osc1.2, v.noise⟩
  (o.1, { v with pulse1 := (v.pulse1.1, o.2.pulse), blep1 := (v.blep1.1, o.2.blep),
                 osc1 := (v.osc1.1, o.2.sinGen), noise := o.2.noise })

/-- The call `oscSample (wave2i, f, pw, pulse2[1], blep2[1], osc2[1])`. -/
def slot2Uni (J : Lib α) (c : BlockConsts α) (f pw : α) (v : SynthVoice α) :
    α × SynthVoice α :=
  let o := oscSample J c.wave2i f pw ⟨v.pulse2.2, v.blep2.2, v.osc2.2, v.noise⟩
  (o.1, { v with pulse2 := (v.pulse2.1, o.2.pulse), blep2 := (v.blep2.1, o.2.blep),
                 osc2 := (v.osc2.1, o.2.sinGen), noise := o.2.noise })

/-- The call `oscSample (wave3i, f, pw, pulse3[1], blep3[1], osc3[1])`. -/
def slot3Uni (J : Lib α) (c : BlockConsts α) (f pw : α) (v : SynthVoice α) :
    α × SynthVoice α :=
  let o := oscSample J c.wave3i f pw ⟨v.pulse3.2, v.blep3.2, v.osc3.2, v.noise⟩
  (o.1, { v with pulse3 := (v.pulse3.1, o.2.pulse), blep3 := (v.blep3.1, o.2.blep),
                 osc3 := (v.osc3.1, o.2.sinGen), noise := o.2.noise })

/-- Loop body, part 2: the three main oscillator samples.
```
float s1 = oscSample (wave1i, f1, pw1, pulse1[0], blep1[0], osc1[0]);
float s2 = oscSample (wave2i, f2, pw2, pulse2[0], blep2[0], osc2[0]);
float s3 = oscSample (wave3i, f3, pw3, pulse3[0], blep3[0], osc3[0]);
``` -/
def mainStage (J : Lib α) (c : BlockConsts α) (m : Mods α) (v : SynthVoice α) :
    (α × α × α) × SynthVoice α :=
  let a := slot1Main J c (mainFreq J c v m c.det1) m.pw1 v
  let b := slot2Main J c (mainFreq J c v m c.det2) m.pw2 a.2
  let d := slot3Main J c (mainFreq J c v m c.det3) m.pw3 b.2
  ((a.1, b.1, d.1), d.2)

/-- Loop body, part 3: the unison companions.
```
if (uniOn) {
    s1 = 0.5f * (s1 + oscSample (wave1i, f1 * std::pow (2.0f,  uniDet / 1200.0f), pw1, pulse1[1], blep1[1], osc1[1]));
    s2 = 0.5f * (s2 + oscSample (wave2i, f2 * std::pow (2.0f, -uniDet / 1200.0f), pw2, pulse2[1], blep2[1], osc2[1]));
    s3 = 0.5f * (s3 + oscSample (wave3i, f3 * std::pow (2.0f,  uniDet / 1200.0f), pw3, pulse3[1], blep3[1], osc3[1]));
}
``` -/
def unisonStage (J : Lib α) (c : BlockConsts α) (m : Mods α) (s : α × α × α)
    (v : SynthVoice α) : (α × α × α) × SynthVoice α :=
  if c.uniOn then
    let a := slot1Uni J c (mainFreq J c v m c.det1 * J.pow2 (c.uniDet / 1200)) m.pw1 v
    let b := slot2Uni J c (mainFreq J c v m c.det2 * J.pow2 (-c.uniDet / 1200)) m.pw2 a.2
    let d := slot3Uni J c (mainFreq J c v m c.det3 * J.pow2 (c.uniDet / 1200)) m.pw3 b.2
    ((1 / 2 * (s.1 + a.1), 1 / 2 * (s.2.1 + b.1), 1 / 2 * (s.2.2 + d.1)), d.2)
  else (s, v)

/-- Loop body, part 4: the sub-oscillator.
```
float sub = 0.0f;
if (subOn) {
    const float subF = baseFreqHz * (subOct == 0 ? 0.5f : 0.25f);
    if (subWave == 0) { subSine.setFrequency (subF); sub = subSine.processSample (0.0f); }
    else if (subWave == 1) { subPulse.setFrequency (subF); subPulse.setPulseWidth (0.5f); sub = subPulse.processSample(); }
    else { subTri.setFrequency (subF); sub = subTri.processSample (0.0f); }
}
``` -/
def subStage (J : Lib α) (c : BlockConsts α) (v : SynthVoice α) : α × SynthVoice α :=
  if c.subOn then
    let subF := v.baseFreqHz * (if c.subOct = 0 then 1 / 2 else 1 / 4)
    if c.subWave = 0 then
      let o := (v.subSine.setFrequency subF).processSample J Generator.sine
      (o.1, { v with subSine := o.2 })
    else if c.subWave = 1 then
      let o := ((v.subPulse.setFrequency subF).setPulseWidth (1 / 2)).processSample J.tanh
      (o.1, { v with subPulse := o.2 })
    else
      let o := (v.subTri.setFrequency subF).processSample J Generator.triangle
      (o.1, { v with subTri := o.2 })
  else (0, v)

/-- Loop body, part 5: the noise bus; the three calls of the first statement are taken from
left to right.
```
float noi = nW * noise.white() + nP * noise.pink() + nB * noise.brown();
if (nHPFon) {
    const float a = juce::jlimit (0.0f, 0.999f, nHPFhz / (nHPFhz + (float) sampleRate));
    noi = noise.highpass (noi, a);
}
``` -/
def noiseStage (J : Lib α) (c : BlockConsts α) (v : SynthVoice α) : α × SynthVoice α :=
  let w := v.noise.white J
  let pk := w.2.pink J
  let br := pk.2.brown J
  let noi := c.nW * w.1 + c.nP * pk.1 + c.nB * br.1
  if c.nHPFon then
    let a := jlimit 0 (999 / 1000) (c.nHPFhz / (c.nHPFhz + v.sampleRate))
    let hp := br.2.highpass noi a
    (hp.1, { v with noise := hp.2 })
  else (noi, { v with noise := br.2 })

/-- Loop body, part 6: envelopes, filter and pan, from the dry signal to `(l, r)`.
```
float amp = ampEnv.getNextSample();
if (lfo1Tg == 2) ...; if (lfo2Tg == 2) ...;   (see lfoAmp)
const float envF = filtEnv.getNextSample();
const float modCut = cutoff * std::pow (2.0f, fAmt * (envF - 0.5f));
filterL.setCutoffFrequency (juce::jlimit (20.0f, 20000.0f, modCut));
filterR.setCutoffFrequency (juce::jlimit (20.0f, 20000.0f, modCut));
filterL.setResonance (q); filterR.setResonance (q);
const float panL = 0.5f - 0.5f * spread;
const float panR = 0.5f + 0.5f * spread;
float l = filterL.processSample (0, dry) * amp * panL * gLin;
float r = filterR.processSample (1, dry) * amp * panR * gLin;
``` -/
def outStage (J : Lib α) (c : BlockConsts α) (m : Mods α) (dry : α) (v : SynthVoice α) :
    (α × α) × SynthVoice α :=
  let ea := v.ampEnv.getNextSample
  let amp := lfoAmp c m.lfo1v m.lfo2v ea.1
  let ef := v.filtEnv.getNextSample
  let modCut := c.cutoff * J.pow2 (c.fAmt * (ef.1 - 1 / 2))
  let fl := (v.filterL.setCutoffFrequency (jlimit 20 20000 modCut)).setResonance c.q
  let fr := (v.filterR.setCutoffFrequency (jlimit 20 20000 modCut)).setResonance c.q
  let panL := 1 / 2 - 1 / 2 * c.spread
  let panR := 1 / 2 + 1 / 2 * c.spread
  let ol := fl.processSample J 0 dry
  let or := fr.processSample J 1 dry
  ((ol.1 * amp * panL * c.gLin, or.1 * amp * panR * c.gLin),
   { v with ampEnv := ea.2, filtEnv := ef.2, filterL := ol.2, filterR := or.2 })

/-- The body of the sample loop of `renderNextBlock` up to and including the computation of
`l` and `r`: the pair `(l, r)` and the voice after the sample.  The six parts are taken in
source order, and between parts 5 and 6 the dry signal is
`mix1v * s1 + mix2v * s2 + mix3v * s3 + subLvl * sub + noi`. -/
def voiceSample (J : Lib α) (c : BlockConsts α) (v : SynthVoice α) : (α × α) × SynthVoice α :=
  let m := modStage J c v
  let s := mainStage J c m.1 m.2
  let u := unisonStage J c m.1 s.1 s.2
  let sb := subStage J c u.2
  let nz := noiseStage J c sb.2
  let dry := c.mix1v * u.1.1 + c.mix2v * u.1.2.1 + c.mix3v * u.1.2.2 + c.subLvl * sb.1 + nz.1
  outStage J c m.1 dry nz.2

/-- The sample loop `for (int i = 0; i < n; ++i) { ...; L[i] += l; R[i] += r; }`, with `k`
iterations left and `i` the current index; `L` and `R` are channels 0 and 1 of `temp`. -/
def sampleLoop (J : Lib α) (c : BlockConsts α) : Nat → Nat → SynthVoice α → SynthVoice α
  | 0, _, v => v
  | k + 1, i, v =>
      let o := voiceSample J c v
      let v := o.2
      sampleLoop J c k (i + 1)
        { v with temp := (v.temp.addSample 0 i o.1.1).addSample 1 i o.1.2 }

/-- The inner loop `for (int i = 0; i < n; ++i) dst[i] += src[i];` where `dst` points at
index `start` of an output channel, with `k` iterations left and `i` the current index. -/
def addLoop (src : Nat → α) (start : Nat) : Nat → Nat → (Nat → α) → (Nat → α)
  | 0, _, dst => dst
  | k + 1, i, dst =>
      addLoop src start k (i + 1) (Function.update dst (start + i) (dst (start + i) + src i))

/-- The loop `for (int ch = 0; ch < output.getNumChannels(); ++ch)` that sums `temp` into the
output, with `k` channels left and `ch` the current channel; the source channel is
`jmin (ch, 1)`. -/
def channelLoop (temp : AudioBuffer α) (start n : Nat) :
    Nat → Nat → (Nat → Nat → α) → (Nat → Nat → α)
  | 0, _, d => d
  | k + 1, ch, d =>
      channelLoop temp start n k (ch + 1)
        (Function.update d ch (addLoop (temp.data (jmin ch 1)) start n 0 (d ch)))

/-- The value of `fType` as a filter type:
`(fType==0)? lowpass : (fType==1)? bandpass : highpass`. -/
def filterTypeOf (fType : Int) : FilterType :=
  if fType = 0 then FilterType.lowpass
  else if fType = 1 then FilterType.bandpass
  else FilterType.highpass

/-- The state of the voice on entry of the sample loop of `renderNextBlock`, for an active
voice: `updateDynamicParams()`, `temp.setSize (2, n, false, false, true); temp.clear();` and
the two calls of `setType`. -/
def beginBlock (J : Lib α) (P : Params α) (n : Nat) (v : SynthVoice α) : SynthVoice α :=
  let v := updateDynamicParams P v
  let v : SynthVoice α := { v with temp := (v.temp.setSize J 2 n).clear }
  let c := blockConsts J P v
  { v with
    filterL := v.filterL.setType (filterTypeOf c.fType)
    filterR := v.filterR.setType (filterTypeOf c.fType) }

/-- Member `renderNextBlock (output, start, n)`: the voice and the output buffer after the
call.
```
if (! isVoiceActive()) return;
updateDynamicParams();
temp.setSize (2, n, false, false, true); temp.clear();
... (see blockConsts, beginBlock)
for (int i = 0; i < n; ++i) { ... (see voiceSample) L[i] += l; R[i] += r; }
for (int ch = 0; ch < output.getNumChannels(); ++ch) {
    auto* dst = output.getWritePointer (ch, start);
    auto* src = temp.getReadPointer (jmin (ch, 1));
    for (int i = 0; i < n; ++i) dst[i] += src[i];
}
``` -/
def renderNextBlock (J : Lib α) (P : Params α) (output : AudioBuffer α) (start n : Nat)
    (v : SynthVoice α) : SynthVoice α × AudioBuffer α :=
  if !v.isVoiceActive then (v, output)
  else
    let b := beginBlock J P n v
    let v := sampleLoop J (blockConsts J P b) n 0 b
    (v, { output with data := channelLoop v.temp start n output.numChannels 0 output.data })

/-- The voice after `k` iterations of the sample loop started in `v`, leaving the writes to
`temp` aside. -/
def voiceAfter (J : Lib α) (c : BlockConsts α) (v : SynthVoice α) : Nat → SynthVoice α
  | 0 => v
  | k + 1 => (voiceSample J c (voiceAfter J c v k)).2

/-- The pair `(l, r)` computed by iteration `i` of the sample loop started in `v`. -/
def frame (J : Lib α) (c : BlockConsts α) (v : SynthVoice α) (i : Nat) : α × α :=
  (voiceSample J c (voiceAfter J c v i)).1

end SynthVoice

/-! ## A rational instance of the library, for evaluation -/

/-- A piecewise linear `2^x`, exact at the integers. -/
def pow2Q (x : ℚ) : ℚ := (2 : ℚ) ^ ⌊x⌋ * (1 + Int.fract x)

/-- An instance of `Lib` over the rationals, on which the model is evaluated at concrete
inputs.  The transcendental functions are replaced by rational functions with the same value
at 0; the random generator is a 48-bit linear congruential generator; the oscillator
advances a phase counted in turns and produces a parabolic arc in `[-1, 1]`; the filter passes
its input through. -/
def refLib : Lib ℚ where
  pi := 355 / 113
  asin := fun x => x
  tanh := fun x => x / (1 + |x|)
  pow2 := pow2Q
  decibelsToGain := fun d => pow2Q (d / 6)
  toInt := fun x => if 0 ≤ x then ⌊x⌋ else ⌈x⌉
  getMidiNoteInHertz := fun m => 440 * pow2Q (((m - 69 : Int) : ℚ) / 12)
  nextFloat := fun s =>
    let s1 := (s * 25214903917 + 11) % 2 ^ 48
    (((s1 / 2 ^ 16 : Nat) : ℚ) / 2 ^ 32, s1)
  oscillator := fun _ sr f ph =>
    (8 * ph * (1 - ph) - 1, if sr = 0 then ph else Int.fract (ph + f / sr))
  svf := fun _ _ _ _ m x => (x, m)
  bufferBytes := fun ch n => ch * ((n + 3) / 4 * 4) * 4 + ((1 + ch) * 8 + 15) / 16 * 16 + 32

/-! ## Sequences of calls -/

/-- The voice with the settings erased that every render call of an active voice overwrites
before it reads them: the frequencies of the five low-frequency oscillators
(`updateDynamicParams`), the types of the two filters (`setType`) and the buffer `temp`
(`setSize`, `clear`). -/
def SynthVoice.core {α : Type} [LinearOrderedField α] (v : SynthVoice α) : SynthVoice α :=
  { v with
    lfo1 := { v.lfo1 with frequency := 0 }
    lfo2 := { v.lfo2 with frequency := 0 }
    pwmLfo1 := { v.pwmLfo1 with frequency := 0 }
    pwmLfo2 := { v.pwmLfo2 with frequency := 0 }
    pwmLfo3 := { v.pwmLfo3 with frequency := 0 }
    filterL := { v.filterL with filterType := FilterType.lowpass }
    filterR := { v.filterR with filterType := FilterType.lowpass }
    temp := {} }

/-- One call of the interface of the voice, with its arguments; a render call carries the
parameter snapshot of its time and its own output buffer. -/
inductive Call (α : Type) [LinearOrderedField α] where
  | prepare (P : Params α) (sr : α) (spb numCh : Nat)
  | startNote (midi : Int) (vel : α)
  | stopNote (tail : Bool)
  | pitchWheelMoved (P : Params α) (value : Int)
  | channelPressureChanged (value : Int)
  | aftertouchChanged (value : Int)
  | controllerMoved (controllerNumber newControllerValue : Int)
  | renderNextBlock (P : Params α) (output : AudioBuffer α) (start n : Nat)

/-- The effect of one call: the voice after it and, for a render call, the output buffer
after it.  A note is started through the synthesiser (`startVoice`). -/
def Call.apply {α : Type} [LinearOrderedField α] (J : Lib α) :
    Call α → SynthVoice α → SynthVoice α × Option (AudioBuffer α)
  | Call.prepare P sr spb numCh, v => (v.prepare P sr spb numCh, none)
  | Call.startNote midi vel, v => (v.startVoice J midi vel, none)
  | Call.stopNote tail, v => (v.stopNote tail, none)
  | Call.pitchWheelMoved P value, v => (v.pitchWheelMoved P value, none)
  | Call.channelPressureChanged value, v => (v.channelPressureChanged value, none)
  | Call.aftertouchChanged value, v => (v.aftertouchChanged value, none)
  | Call.controllerMoved a b, v => (v.controllerMoved a b, none)
  | Call.renderNextBlock P output start n, v =>
      let r := v.renderNextBlock J P output start n
      (r.1, some r.2)

/-- A sequence of calls run from a voice: the voice after the last call and the results of
the calls in order (the output buffer of each render call). -/
def run {α : Type} [LinearOrderedField α] (J : Lib α) :
    List (Call α) → SynthVoice α → SynthVoice α × List (Option (AudioBuffer α))
  | [], v => (v, [])
  | c :: cs, v =>
      let r := c.apply J v
      let rest := run J cs r.1
      (rest.1, r.2 :: rest.2)

/-! ## Invariants and concrete inputs -/

/-- Invariant of the saw oscillator: phase in `[0, 1)` and increment in `[0, 0.45]`. -/
def PolyBLEPOsc.Inv {α : Type} [LinearOrderedField α] (o : PolyBLEPOsc α) : Prop :=
  0 ≤ o.phase ∧ o.phase < 1 ∧ 0 ≤ o.incr ∧ o.incr ≤ 45 / 100

/-- Invariant of the pulse oscillator: phase in `[0, 1)` and increment in `[0, 0.45]`. -/
def PulseOsc.Inv {α : Type} [LinearOrderedField α] (o : PulseOsc α) : Prop :=
  0 ≤ o.phase ∧ o.phase < 1 ∧ 0 ≤ o.incr ∧ o.incr ≤ 45 / 100

/-- A saw oscillator prepared at 44100 Hz whose phase is `3/4`. -/
def sawDownInput : PolyBLEPOsc ℚ := { sampleRate := 44100, phase := 3 / 4 }

/-- The default values of the parameters, from `MiniSynthAudioProcessor::createLayout`
(choice and boolean parameters as their index and as 0 or 1). -/
def defaultParams : Params ℚ where
  osc1Wave := 1
  osc2Wave := 2
  osc3Wave := 0
  mix1 := 7 / 10
  mix2 := 6 / 10
  mix3 := 2 / 10
  detune1 := 0
  detune2 := 0
  detune3 := 0
  stereoSpread := 2 / 10
  uniOn := 1
  uniDetune := 12
  pwm1 := 1 / 2
  pwm2 := 1 / 2
  pwm3 := 1 / 2
  pwmDepth1 := 3 / 10
  pwmDepth2 := 3 / 10
  pwmDepth3 := 3 / 10
  pwmRate1 := 12 / 10
  pwmRate2 := 8 / 10
  pwmRate3 := 6 / 10
  subOn := 1
  subWave := 1
  subOct := 1
  subLevel := 35 / 100
  mixNoiseW := 0
  mixNoiseP := 0
  mixNoiseB := 0
  noiseHPFOn := 0
  noiseHPF := 120
  attack := 1 / 100
  decay := 12 / 100
  sustain := 8 / 10
  release := 25 / 100
  filterType := 0
  cutoff := 12000
  resonance := 7 / 10
  fA := 1 / 100
  fD := 12 / 100
  fS := 0
  fR := 25 / 100
  fAmt := 0
  lfoRate := 5
  lfoDepth := 3 / 10
  lfoTarget := 0
  lfo2Rate := 8 / 10
  lfo2Depth := 2 / 10
  lfo2Target := 0
  gain := -6
  bendRange := 48

/-- A stereo output buffer of 512 samples in which every sample is `1/4`. -/
def stereoOut : AudioBuffer ℚ :=
  { numChannels := 2, numSamples := 512, allocatedBytes := 4160, data := fun _ _ => 1 / 4 }

/-- A voice prepared at 44100 Hz with the default parameters; no note has been started. -/
def preparedVoice : SynthVoice ℚ := SynthVoice.prepare defaultParams 44100 512 2 {}

/-- The prepared voice on which the synthesiser has started note 69 at velocity 1. -/
def playingVoice : SynthVoice ℚ := SynthVoice.startVoice refLib 69 1 preparedVoice

/-- The default parameters with the attack of the amplitude envelope set to one second. -/
def slowAttackParams : Params ℚ := { defaultParams with attack := 1 }

/-- The default parameters with the shortest attack and release (one millisecond) and a
sustain level of 1. -/
def shortEnvParams : Params ℚ :=
  { defaultParams with attack := 1 / 1000, sustain := 1, release := 1 / 1000 }

/-- A voice prepared at 8000 Hz with `shortEnvParams` on which note 69 has been started. -/
def c3Started : SynthVoice ℚ :=
  SynthVoice.startVoice refLib 69 1 (SynthVoice.prepare shortEnvParams 8000 512 2 {})

/-- The voice `c3Started` after a render call of 16 samples, twice the length of the attack
(8 samples at 8000 Hz). -/
def c3Sustained : SynthVoice ℚ :=
  (SynthVoice.renderNextBlock refLib shortEnvParams stereoOut 0 16 c3Started).1

/-- The voice `c3Sustained` after `stopNote (0, true)`. -/
def c3Released : SynthVoice ℚ := SynthVoice.stopNote true c3Sustained

/-- The voice `c3Released` after a render call of 16 samples, twice the length of the release
(8 samples at 8000 Hz). -/
def c3Done : SynthVoice ℚ :=
  (SynthVoice.renderNextBlock refLib shortEnvParams stereoOut 0 16 c3Released).1

end MiniSynth

namespace MiniSynth

/-! ## Further concrete inputs -/

/-- Block constants in which every number is 0, every selector is 0 and every switch is off,
except the targets and the depths of the two LFOs. -/
def lfoConsts {α : Type} [LinearOrderedField α] (tg1 : Int) (dp1 : α) (tg2 : Int) (dp2 : α) :
    SynthVoice.BlockConsts α where
  wave1i := 0
  wave2i := 0
  wave3i := 0
  mix1v := 0
  mix2v := 0
  mix3v := 0
  det1 := 0
  det2 := 0
  det3 := 0
  uniOn := false
  uniDet := 0
  spread := 0
  pwm1B := 0
  pwm2B := 0
  pwm3B := 0
  pwmD1 := 0
  pwmD2 := 0
  pwmD3 := 0
  subWave := 0
  subOct := 0
  subOn := false
  subLvl := 0
  nW := 0
  nP := 0
  nB := 0
  nHPFon := false
  nHPFhz := 0
  fType := 0
  cutoff := 0
  q := 0
  fAmt := 0
  lfo1Dp := dp1
  lfo1Tg := tg1
  lfo2Dp := dp2
  lfo2Tg := tg2
  bendRatio := 0
  gLin := 0

/-- The block constants of the playing voice under the default parameters. -/
def defaultConsts : SynthVoice.BlockConsts ℚ :=
  SynthVoice.blockConsts refLib defaultParams playingVoice

/-- The default parameters with LFO 1 routed to the pitch (target index 1) at depth 1. -/
def vibratoParams : Params ℚ := { defaultParams with lfoTarget := 1, lfoDepth := 1 }

/-- The block constants of the playing voice under `vibratoParams`. -/
def vibratoConsts : SynthVoice.BlockConsts ℚ :=
  SynthVoice.blockConsts refLib vibratoParams playingVoice

/-- The library `refLib` over any ordered field with a floor function, with the power
function `2^x` given as `p`; it is used over the reals with the real power function. -/
def libOfPow2 {α : Type} [LinearOrderedField α] [FloorRing α] (p : α → α) : Lib α where
  pi := 355 / 113
  asin := fun x => x
  tanh := fun x => x / (1 + |x|)
  pow2 := p
  decibelsToGain := fun d => p (d / 6)
  toInt := fun x => if 0 ≤ x then ⌊x⌋ else ⌈x⌉
  getMidiNoteInHertz := fun m => 440 * p (((m - 69 : Int) : α) / 12)
  nextFloat := fun s =>
    let s1 := (s * 25214903917 + 11) % 2 ^ 48
    (((s1 / 2 ^ 16 : Nat) : α) / 2 ^ 32, s1)
  oscillator := fun _ sr f ph =>
    (8 * ph * (1 - ph) - 1, if sr = 0 then ph else Int.fract (ph + f / sr))
  svf := fun _ _ _ _ m x => (x, m)
  bufferBytes := fun ch n => ch * ((n + 3) / 4 * 4) * 4 + ((1 + ch) * 8 + 15) / 16 * 16 + 32

/-- The objects of a slot prepared at 44100 Hz, all at phase 0. -/
def slotRefs : SynthVoice.OscRefs ℚ :=
  { pulse := { sampleRate := 44100 }
    blep := { sampleRate := 44100 }
    sinGen := { sampleRate := 44100 }
    noise := {} }

/-- The default parameters with oscillator 3 (a sine by default) detuned by +24 semitones. -/
def highNoteParams : Params ℚ := { defaultParams with detune3 := 24 }

/-- The prepared voice on which the synthesiser has started note 117 (7040 Hz). -/
def highNoteVoice : SynthVoice ℚ := SynthVoice.startVoice refLib 117 1 preparedVoice

/-- The block constants of `highNoteVoice` under `highNoteParams`. -/
def highNoteConsts : SynthVoice.BlockConsts ℚ :=
  SynthVoice.blockConsts refLib highNoteParams highNoteVoice

end MiniSynth

namespace MiniSynth

/-! ## Auxiliary definitions on the oscillator primitives -/

/-- The value returned by `PolyBLEPOsc::processSample` in `SawUp` mode as a function of the
phase `p` after the increment and of the increment `dt`:
`x = 2.0 * phase - 1.0; x -= polyBLEP (phase, dt);`. -/
def PolyBLEPOsc.sawUpValue {α : Type} [LinearOrderedField α] (p dt : α) : α :=
  2 * p - 1 - PolyBLEPOsc.polyBLEP p dt

/-- The condition under which `polyBLEP (t, dt)` evaluates a quotient by `dt`: its first
branch (`t < dt`) or its second branch (`t > 1.0 - dt`) is taken. -/
def PolyBLEPOsc.divides {α : Type} [LinearOrderedField α] (t dt : α) : Prop :=
  t < dt ∨ (¬ t < dt ∧ t > 1 - dt)

/-- The second argument of `PulseOsc::processSample`:
`double t2 = phase - pw; if (t2 < 0.0) t2 += 1.0;`. -/
def PulseOsc.secondArg {α : Type} [LinearOrderedField α] (phase pw : α) : α :=
  let t2 := phase - pw
  if t2 < 0 then t2 + 1 else t2

/-- The raw pulse `phase < pw ? 1.0f : -1.0f`. -/
def PulseOsc.rawPulse {α : Type} [LinearOrderedField α] (phase pw : α) : α :=
  if phase < pw then 1 else -1

end MiniSynth

namespace MiniSynth

/-! ## Sequences of calls on the noise bus -/

/-- One call of a member function of `NoiseBus`, with its arguments. -/
inductive NoiseCall (α : Type) where
  | white
  | pink
  | brown
  | highpass (x alpha : α)

/-- Whether the call is one of the three generators `white`, `pink`, `brown`. -/
def NoiseCall.isGenerator {α : Type} : NoiseCall α → Bool
  | NoiseCall.highpass _ _ => false
  | _ => true

/-- The value returned by one call and the bus after it. -/
def NoiseCall.apply {α : Type} [LinearOrderedField α] (J : Lib α) :
    NoiseCall α → NoiseBus α → α × NoiseBus α
  | NoiseCall.white, nb => nb.white J
  | NoiseCall.pink, nb => nb.pink J
  | NoiseCall.brown, nb => nb.brown J
  | NoiseCall.highpass x alpha, nb => nb.highpass x alpha

/-- A sequence of calls run on a bus: each call with the value it returned, in order, and the
bus after the last call. -/
def NoiseBus.runCalls {α : Type} [LinearOrderedField α] (J : Lib α) :
    List (NoiseCall α) → NoiseBus α → List (NoiseCall α × α) × NoiseBus α
  | [], nb => ([], nb)
  | c :: cs, nb =>
      let r := c.apply J nb
      let rest := NoiseBus.runCalls J cs r.2
      ((c, r.1) :: rest.1, rest.2)

end MiniSynth

namespace MiniSynth

/-! ## Voices that differ in a few members -/

/-- The voice `v` with its current velocity, aftertouch and channel pressure replaced. -/
def SynthVoice.withTouch {α : Type} [LinearOrderedField α] (vel aft cp : α)
    (v : SynthVoice α) : SynthVoice α :=
  { v with curVelocity := vel, aftertouch := aft, channelPressure := cp }

/-- The voice `v` with the oscillator object of LFO 1 replaced by `o`. -/
def SynthVoice.withLfo1 {α : Type} [LinearOrderedField α] (o : Oscillator α)
    (v : SynthVoice α) : SynthVoice α :=
  { v with lfo1 := o }

/-- The voice `v` with the oscillator object of LFO 2 replaced by `o`. -/
def SynthVoice.withLfo2 {α : Type} [LinearOrderedField α] (o : Oscillator α)
    (v : SynthVoice α) : SynthVoice α :=
  { v with lfo2 := o }

/-- The voice `v` with the oscillator objects of both LFOs replaced. -/
def SynthVoice.withLfos {α : Type} [LinearOrderedField α] (o1 o2 : Oscillator α)
    (v : SynthVoice α) : SynthVoice α :=
  { v with lfo1 := o1, lfo2 := o2 }

/-- The snapshot `P` with the depth and the rate of LFO 1 replaced. -/
def Params.withLfo1 {α : Type} (depth rate : α) (P : Params α) : Params α :=
  { P with lfoDepth := depth, lfoRate := rate }

/-- The snapshot `P` with the depth and the rate of LFO 2 replaced. -/
def Params.withLfo2 {α : Type} (depth rate : α) (P : Params α) : Params α :=
  { P with lfo2Depth := depth, lfo2Rate := rate }

/-- The block constants `c` with the depth of LFO 1 replaced. -/
def SynthVoice.BlockConsts.withLfo1Dp {α : Type} (d : α) (c : SynthVoice.BlockConsts α) :
    SynthVoice.BlockConsts α :=
  { c with lfo1Dp := d }

/-- The block constants `c` with the depth of LFO 2 replaced. -/
def SynthVoice.BlockConsts.withLfo2Dp {α : Type} (d : α) (c : SynthVoice.BlockConsts α) :
    SynthVoice.BlockConsts α :=
  { c with lfo2Dp := d }

/-- The block constants `c` with the targets and the depths of both LFOs replaced. -/
def SynthVoice.BlockConsts.withLfos {α : Type} (t1 : Int) (d1 : α) (t2 : Int) (d2 : α)
    (c : SynthVoice.BlockConsts α) : SynthVoice.BlockConsts α :=
  { c with lfo1Tg := t1, lfo1Dp := d1, lfo2Tg := t2, lfo2Dp := d2 }

/-- The modulation values `m` with the value of LFO 1 replaced. -/
def SynthVoice.Mods.withLfo1v {α : Type} (x : α) (m : SynthVoice.Mods α) :
    SynthVoice.Mods α :=
  { m with lfo1v := x }

/-- The modulation values `m` with the value of LFO 2 replaced. -/
def SynthVoice.Mods.withLfo2v {α : Type} (x : α) (m : SynthVoice.Mods α) :
    SynthVoice.Mods α :=
  { m with lfo2v := x }

/-- The default parameters with LFO 1 aimed at the filter cutoff (target index 3) and LFO 2 at
the pulse width (target index 4). -/
def cutoffLfoParams : Params ℚ := { defaultParams with lfoTarget := 3, lfo2Target := 4 }

/-- The two filters of the voice agree: they have the same sample rate, type, cutoff and
resonance, and the state values of the channel the left filter processes (channel 0) are the
state values of the channel the right filter processes (channel 1). -/
def SynthVoice.FiltersAgree {α : Type} [LinearOrderedField α] (v : SynthVoice α) : Prop :=
  v.filterL.sampleRate = v.filterR.sampleRate
    ∧ v.filterL.filterType = v.filterR.filterType
    ∧ v.filterL.cutoffFrequency = v.filterR.cutoffFrequency
    ∧ v.filterL.resonance = v.filterR.resonance
    ∧ v.filterL.mem 0 = v.filterR.mem 1

/-- The part of `FiltersAgree` that `prepare` establishes for every voice: the two filters
have the same sample rate, and the state values of channel 0 of the left filter are the state
values of channel 1 of the right filter. -/
def SynthVoice.FilterMemAgree {α : Type} [LinearOrderedField α] (v : SynthVoice α) : Prop :=
  v.filterL.sampleRate = v.filterR.sampleRate ∧ v.filterL.mem 0 = v.filterR.mem 1

/-- The voice at the start of iteration `i` of the sample loop of the render call
`renderNextBlock (output, start, n)` with snapshot `P` on the active voice `v`, leaving the
writes to `temp` aside. -/
def SynthVoice.atSample {α : Type} [LinearOrderedField α] (J : Lib α) (P : Params α)
    (n : Nat) (v : SynthVoice α) (i : Nat) : SynthVoice α :=
  SynthVoice.voiceAfter J (SynthVoice.blockConsts J P (SynthVoice.beginBlock J P n v))
    (SynthVoice.beginBlock J P n v) i

/-- The pair `(l, r)` of iteration `i` of the sample loop of that render call. -/
def SynthVoice.renderFrame {α : Type} [LinearOrderedField α] (J : Lib α) (P : Params α)
    (n : Nat) (v : SynthVoice α) (i : Nat) : α × α :=
  SynthVoice.frame J (SynthVoice.blockConsts J P (SynthVoice.beginBlock J P n v))
    (SynthVoice.beginBlock J P n v) i

/-- The left filter as the iteration of the sample loop that starts in voice `w` sets it up
before `filterL.processSample (0, dry)`: the clamped modulated cutoff and the resonance of the
snapshot. -/
def SynthVoice.sampleFilterL {α : Type} [LinearOrderedField α] (J : Lib α) (P : Params α)
    (w : SynthVoice α) : SVFilter α :=
  (w.filterL.setCutoffFrequency (jlimit 20 20000
    (P.cutoff * J.pow2 (P.fAmt * (w.filtEnv.getNextSample.1 - 1 / 2))))).setResonance
    P.resonance

/-- The right filter as that iteration sets it up before `filterR.processSample (1, dry)`. -/
def SynthVoice.sampleFilterR {α : Type} [LinearOrderedField α] (J : Lib α) (P : Params α)
    (w : SynthVoice α) : SVFilter α :=
  (w.filterR.setCutoffFrequency (jlimit 20 20000
    (P.cutoff * J.pow2 (P.fAmt * (w.filtEnv.getNextSample.1 - 1 / 2))))).setResonance
    P.resonance

/-- The declared range of the resonance parameter, from
`MiniSynthAudioProcessor::createLayout`:
`AudioParameterFloat (ids::resonance, "Q", NormalisableRange<float> (0.1f, 10.0f, 0.f, 0.5f), 0.7f)`.
Every value the parameter holds lies in this range. -/
def Params.resonanceInRange {α : Type} [LinearOrderedField α] (P : Params α) : Prop :=
  1 / 10 ≤ P.resonance ∧ P.resonance ≤ 10

/-- The dry signal of one iteration of the sample loop started in voice `v`:
`float dry = mix1v * s1 + mix2v * s2 + mix3v * s3 + subLvl * sub + noi;` with the values of
parts 1 to 5 of the loop body. -/
def SynthVoice.drySignal {α : Type} [LinearOrderedField α] (J : Lib α)
    (c : SynthVoice.BlockConsts α) (v : SynthVoice α) : α :=
  let m := SynthVoice.modStage J c v
  let s := SynthVoice.mainStage J c m.1 m.2
  let u := SynthVoice.unisonStage J c m.1 s.1 s.2
  let sb := SynthVoice.subStage J c u.2
  let nz := SynthVoice.noiseStage J c sb.2
  c.mix1v * u.1.1 + c.mix2v * u.1.2.1 + c.mix3v * u.1.2.2 + c.subLvl * sb.1 + nz.1

/-- The amplitude of one iteration of the sample loop started in voice `v`: the sample of the
amplitude envelope times the amplitude modulation of the two LFOs. -/
def SynthVoice.ampSignal {α : Type} [LinearOrderedField α] (J : Lib α)
    (c : SynthVoice.BlockConsts α) (v : SynthVoice α) : α :=
  SynthVoice.lfoAmp c (SynthVoice.modStage J c v).1.lfo1v (SynthVoice.modStage J c v).1.lfo2v
    v.ampEnv.getNextSample.1

/-- The dry signal of iteration `i` of the sample loop of the render call with snapshot `P`
and `n` samples on the active voice `v`. -/
def SynthVoice.sampleDry {α : Type} [LinearOrderedField α] (J : Lib α) (P : Params α)
    (n : Nat) (v : SynthVoice α) (i : Nat) : α :=
  SynthVoice.drySignal J (SynthVoice.blockConsts J P (SynthVoice.beginBlock J P n v))
    (SynthVoice.atSample J P n v i)

/-- The amplitude of iteration `i` of the sample loop of that render call. -/
def SynthVoice.sampleAmp {α : Type} [LinearOrderedField α] (J : Lib α) (P : Params α)
    (n : Nat) (v : SynthVoice α) (i : Nat) : α :=
  SynthVoice.ampSignal J (SynthVoice.blockConsts J P (SynthVoice.beginBlock J P n v))
    (SynthVoice.atSample J P n v i)

/-- The rational library `refLib` with a filter that has memory: the output is the first
state value of the channel plus the input (a running sum of the inputs), and the new state
values of the channel are this output and the previous first state value. -/
def integratorLib : Lib ℚ :=
  { refLib with svf := fun _ _ _ _ m x => (m.1 + x, (m.1 + x, m.1)) }

/-- The default parameters with only the first main oscillator (Saw+ by default) in the mix:
the levels of oscillators 2 and 3 are 0 and unison and sub-oscillator are switched off. -/
def sawPatchParams : Params ℚ :=
  { defaultParams with mix2 := 0, mix3 := 0, uniOn := 0, subOn := 0 }

end MiniSynth

namespace MiniSynth

/-! ## Lemmas on the clamp and on the oscillator primitives -/

section Primitives

variable {α : Type} [LinearOrderedField α]

theorem jlimit_ge {lo hi : α} (v : α) (h : lo ≤ hi) : lo ≤ jlimit lo hi v := by
  unfold jlimit
  split_ifs with h1 h2
  · exact le_refl lo
  · exact h
  · exact not_lt.mp h1

theorem jlimit_le {lo hi : α} (v : α) (h : lo ≤ hi) : jlimit lo hi v ≤ hi := by
  unfold jlimit
  split_ifs with h1 h2
  · exact h
  · exact le_refl hi
  · exact not_lt.mp h2

theorem jlimit_eq_min_max {lo hi : α} (v : α) (h : lo ≤ hi) :
    jlimit lo hi v = min (max v lo) hi := by
  unfold jlimit
  split_ifs with h1 h2
  · rw [max_eq_right h1.le, min_eq_left h]
  · rw [max_eq_left (not_lt.mp h1), min_eq_right h2.le]
  · rw [max_eq_left (not_lt.mp h1), min_eq_left (not_lt.mp h2)]

theorem jlimit_of_mem {lo hi v : α} (h1 : lo ≤ v) (h2 : v ≤ hi) : jlimit lo hi v = v := by
  unfold jlimit
  rw [if_neg (not_lt.mpr h1), if_neg (not_lt.mpr h2)]

/-- The increment computed by `setFrequency` for a positive sample rate. -/
theorem incr_bounds {sr : α} (f : α) (hsr : 0 < sr) :
    0 ≤ jlimit 0 (sr * (45 / 100)) f / sr ∧ jlimit 0 (sr * (45 / 100)) f / sr ≤ 45 / 100 := by
  have hhi : (0 : α) ≤ sr * (45 / 100) := by positivity
  refine ⟨div_nonneg (jlimit_ge f hhi) hsr.le, ?_⟩
  rw [div_le_iff₀ hsr]
  calc jlimit 0 (sr * (45 / 100)) f ≤ sr * (45 / 100) := jlimit_le f hhi
    _ = 45 / 100 * sr := mul_comm _ _

theorem advance_cases (p i : α) :
    PolyBLEPOsc.advance p i = p + i ∧ p + i < 1 ∨
      PolyBLEPOsc.advance p i = p + i - 1 ∧ 1 ≤ p + i := by
  unfold PolyBLEPOsc.advance
  by_cases h : p + i ≥ 1
  · right; simp [h]
  · left; simp [h]; exact not_le.mp h

theorem advance_mem {p i : α} (hp0 : 0 ≤ p) (hp1 : p < 1) (hi0 : 0 ≤ i) (hi1 : i ≤ 45 / 100) :
    0 ≤ PolyBLEPOsc.advance p i ∧ PolyBLEPOsc.advance p i < 1 := by
  rcases advance_cases p i with ⟨h, h'⟩ | ⟨h, h'⟩ <;> rw [h] <;> constructor <;> linarith

theorem pulse_advance_eq (p i : α) : PulseOsc.advance p i = PolyBLEPOsc.advance p i := rfl

theorem pulse_polyBLEP_eq (t dt : α) : PulseOsc.polyBLEP t dt = PolyBLEPOsc.polyBLEP t dt := rfl

/-- The correction term lies in `[-1, 1]`, is non-positive just after the wrap and
non-negative just before it. -/
theorem polyBLEP_cases {t : α} (dt : α) (ht0 : 0 ≤ t) (ht1 : t < 1) :
    (t < dt ∧ PolyBLEPOsc.polyBLEP t dt = -((1 - t / dt) * (1 - t / dt))
        ∧ 0 ≤ t / dt ∧ t / dt < 1) ∨
      (dt ≤ t ∧ 1 - dt < t ∧ PolyBLEPOsc.polyBLEP t dt = (1 + (t - 1) / dt) * (1 + (t - 1) / dt)
        ∧ -1 < (t - 1) / dt ∧ (t - 1) / dt < 0) ∨
      (dt ≤ t ∧ t ≤ 1 - dt ∧ PolyBLEPOsc.polyBLEP t dt = 0) := by
  unfold PolyBLEPOsc.polyBLEP
  by_cases h1 : t < dt
  · left
    have hd : 0 < dt := lt_of_le_of_lt ht0 h1
    refine ⟨h1, ?_, div_nonneg ht0 hd.le, (div_lt_one hd).mpr h1⟩
    rw [if_pos h1]; ring
  · right
    by_cases h2 : t > 1 - dt
    · left
      have hd : 0 < dt := by linarith
      refine ⟨not_lt.mp h1, h2, ?_, ?_, ?_⟩
      · rw [if_neg h1, if_pos h2]; ring
      · rw [lt_div_iff₀ hd]; linarith
      · exact div_neg_of_neg_of_pos (by linarith) hd
    · right
      refine ⟨not_lt.mp h1, not_lt.mp h2, ?_⟩
      rw [if_neg h1, if_neg h2]

/-- C6: for a positive sample rate and every requested frequency `f`, `setFrequency` of the
saw oscillator and of the pulse oscillator stores `freq = min (max f 0) (0.45 * sr)` and
`incr = freq / sr`; the increment lies in `[0, 0.45]` and is `0` whenever `f ≤ 0`. -/
theorem setFrequency_clamps (f : α) (o : PolyBLEPOsc α) (p : PulseOsc α)
    (ho : 0 < o.sampleRate) (hp : 0 < p.sampleRate) :
    ((o.setFrequency f).freq = min (max f 0) (45 / 100 * o.sampleRate)
      ∧ (o.setFrequency f).incr = (o.setFrequency f).freq / o.sampleRate
      ∧ 0 ≤ (o.setFrequency f).incr ∧ (o.setFrequency f).incr ≤ 45 / 100
      ∧ (f ≤ 0 → (o.setFrequency f).incr = 0))
    ∧ ((p.setFrequency f).freq = min (max f 0) (45 / 100 * p.sampleRate)
      ∧ (p.setFrequency f).incr = (p.setFrequency f).freq / p.sampleRate
      ∧ 0 ≤ (p.setFrequency f).incr ∧ (p.setFrequency f).incr ≤ 45 / 100
      ∧ (f ≤ 0 → (p.setFrequency f).incr = 0)) := by
  have key : ∀ sr : α, 0 < sr →
      jlimit 0 (sr * (45 / 100)) f = min (max f 0) (45 / 100 * sr)
      ∧ 0 ≤ jlimit 0 (sr * (45 / 100)) f / sr ∧ jlimit 0 (sr * (45 / 100)) f / sr ≤ 45 / 100
      ∧ (f ≤ 0 → jlimit 0 (sr * (45 / 100)) f / sr = 0) := by
    intro sr hsr
    have hhi : (0 : α) ≤ sr * (45 / 100) := by positivity
    refine ⟨?_, (incr_bounds f hsr).1, (incr_bounds f hsr).2, ?_⟩
    · rw [jlimit_eq_min_max f hhi, mul_comm]
    · intro hf
      have : jlimit 0 (sr * (45 / 100)) f = 0 := by
        rw [jlimit_eq_min_max f hhi, max_eq_right hf, min_eq_left hhi]
      rw [this, zero_div]
  obtain ⟨a1, a2, a3, a4⟩ := key o.sampleRate ho
  obtain ⟨b1, b2, b3, b4⟩ := key p.sampleRate hp
  exact ⟨⟨a1, rfl, a2, a3, a4⟩, ⟨b1, rfl, b2, b3, b4⟩⟩

theorem fract_of_advance [FloorRing α] (p i : α) (hp0 : 0 ≤ p) (hp1 : p < 1) (hi0 : 0 ≤ i)
    (hi1 : i ≤ 45 / 100) : PolyBLEPOsc.advance p i = Int.fract (p + i) := by
  symm
  rw [Int.fract_eq_iff]
  obtain ⟨h0, h1⟩ := advance_mem hp0 hp1 hi0 hi1
  refine ⟨h0, h1, ?_⟩
  rcases advance_cases p i with ⟨h, _⟩ | ⟨h, _⟩
  · exact ⟨0, by rw [h]; simp⟩
  · exact ⟨1, by rw [h]; simp⟩

/-- C7: phase invariant of both oscillator primitives.  From a phase in `[0, 1)` and an
increment in `[0, 0.45]`, `processSample` leaves a phase in `[0, 1)` which is the fractional
part of the old phase plus the increment, reached with at most one subtraction of 1; the
invariant is kept by `reset`, `forceReset`, `prepare` and (for a positive sample rate)
`setFrequency`. -/
theorem phase_invariant [FloorRing α] (o : PolyBLEPOsc α) (p : PulseOsc α) (tanh : α → α)
    (sr f : α) (ho : o.Inv) (hp : p.Inv) :
    (o.processSample.2.Inv
      ∧ o.processSample.2.phase = Int.fract (o.phase + o.incr)
      ∧ (o.processSample.2.phase = o.phase + o.incr
          ∨ o.processSample.2.phase = o.phase + o.incr - 1))
    ∧ ((p.processSample tanh).2.Inv
      ∧ (p.processSample tanh).2.phase = Int.fract (p.phase + p.incr)
      ∧ ((p.processSample tanh).2.phase = p.phase + p.incr
          ∨ (p.processSample tanh).2.phase = p.phase + p.incr - 1))
    ∧ (o.reset.Inv ∧ o.forceReset.Inv ∧ (o.prepare sr).Inv
        ∧ (0 < o.sampleRate → (o.setFrequency f).Inv))
    ∧ (p.reset.Inv ∧ p.forceReset.Inv ∧ (p.prepare sr).Inv
        ∧ (0 < p.sampleRate → (p.setFrequency f).Inv)) := by
  obtain ⟨o0, o1, o2, o3⟩ := ho
  obtain ⟨p0, p1, p2, p3⟩ := hp
  have h45 : (0 : α) ≤ 45 / 100 := by norm_num
  refine ⟨⟨⟨?_, ?_, o2, o3⟩, ?_, ?_⟩, ⟨⟨?_, ?_, p2, p3⟩, ?_, ?_⟩, ⟨?_, ?_, ?_, ?_⟩, ?_, ?_, ?_, ?_⟩
  · exact (advance_mem o0 o1 o2 o3).1
  · exact (advance_mem o0 o1 o2 o3).2
  · exact fract_of_advance _ _ o0 o1 o2 o3
  · rcases advance_cases o.phase o.incr with ⟨h, _⟩ | ⟨h, _⟩
    · exact Or.inl h
    · exact Or.inr h
  · exact (advance_mem p0 p1 p2 p3).1
  · exact (advance_mem p0 p1 p2 p3).2
  · exact fract_of_advance _ _ p0 p1 p2 p3
  · rcases advance_cases p.phase p.incr with ⟨h, _⟩ | ⟨h, _⟩
    · exact Or.inl h
    · exact Or.inr h
  · exact ⟨le_refl _, zero_lt_one, le_refl _, h45⟩
  · exact ⟨le_refl _, zero_lt_one, o2, o3⟩
  · exact ⟨le_refl _, zero_lt_one, le_refl _, h45⟩
  · intro hsr
    exact ⟨o0, o1, (incr_bounds f hsr).1, (incr_bounds f hsr).2⟩
  · exact ⟨le_refl _, zero_lt_one, le_refl _, h45⟩
  · exact ⟨le_refl _, zero_lt_one, p2, p3⟩
  · exact ⟨le_refl _, zero_lt_one, le_refl _, h45⟩
  · intro hsr
    exact ⟨p0, p1, (incr_bounds f hsr).1, (incr_bounds f hsr).2⟩

theorem polyBLEP_bounds {t : α} (dt : α) (ht0 : 0 ≤ t) (ht1 : t < 1) :
    -1 ≤ PolyBLEPOsc.polyBLEP t dt ∧ PolyBLEPOsc.polyBLEP t dt ≤ 1 := by
  rcases polyBLEP_cases dt ht0 ht1 with ⟨_, e, x0, x1⟩ | ⟨_, _, e, x0, x1⟩ | ⟨_, _, e⟩
  · rw [e]; constructor <;> nlinarith
  · rw [e]; constructor <;> nlinarith
  · rw [e]; constructor <;> norm_num

/-- For an increment of at most `0.45` the correction term is non-decreasing in the phase. -/
theorem polyBLEP_mono {s t : α} (dt : α) (hs0 : 0 ≤ s) (hst : s ≤ t) (ht1 : t < 1)
    (hd1 : dt ≤ 45 / 100) :
    PolyBLEPOsc.polyBLEP s dt ≤ PolyBLEPOsc.polyBLEP t dt := by
  have hs1 : s < 1 := lt_of_le_of_lt hst ht1
  have ht0 : 0 ≤ t := le_trans hs0 hst
  rcases polyBLEP_cases dt hs0 hs1 with
    ⟨sa, es, xs0, xs1⟩ | ⟨sa, sb, es, xs0, xs1⟩ | ⟨sa, sb, es⟩
  · rcases polyBLEP_cases dt ht0 ht1 with
      ⟨ta, et, xt0, xt1⟩ | ⟨ta, tb, et, xt0, xt1⟩ | ⟨ta, tb, et⟩
    · have hd : 0 < dt := lt_of_le_of_lt ht0 ta
      have hx : s / dt ≤ t / dt := div_le_div_of_nonneg_right hst hd.le
      have h := mul_self_le_mul_self (a := 1 - t / dt) (b := 1 - s / dt) (by linarith)
        (by linarith)
      rw [es, et]
      exact neg_le_neg h
    · have h1 := mul_self_nonneg (1 - s / dt)
      have h2 := mul_self_nonneg (1 + (t - 1) / dt)
      rw [es, et]
      linarith
    · have h1 := mul_self_nonneg (1 - s / dt)
      rw [es, et]
      linarith
  · rcases polyBLEP_cases dt ht0 ht1 with
      ⟨ta, et, xt0, xt1⟩ | ⟨ta, tb, et, xt0, xt1⟩ | ⟨ta, tb, et⟩
    · exfalso; linarith
    · have hd : 0 < dt := by linarith
      have hx : (s - 1) / dt ≤ (t - 1) / dt :=
        div_le_div_of_nonneg_right (by linarith) hd.le
      have h := mul_self_le_mul_self (a := 1 + (s - 1) / dt) (b := 1 + (t - 1) / dt)
        (by linarith) (by linarith)
      rw [es, et]
      exact h
    · exfalso; linarith
  · rcases polyBLEP_cases dt ht0 ht1 with
      ⟨ta, et, xt0, xt1⟩ | ⟨ta, tb, et, xt0, xt1⟩ | ⟨ta, tb, et⟩
    · exfalso; linarith
    · rw [es, et]
      exact mul_self_nonneg _
    · rw [es, et]

/-- The rising saw after the correction stays in `[-1, 1]`. -/
theorem sawUp_value_bounds {t : α} (dt : α) (ht0 : 0 ≤ t) (ht1 : t < 1)
    (hd1 : dt ≤ 45 / 100) :
    -1 ≤ 2 * t - 1 - PolyBLEPOsc.polyBLEP t dt ∧ 2 * t - 1 - PolyBLEPOsc.polyBLEP t dt ≤ 1 := by
  rcases polyBLEP_cases dt ht0 ht1 with ⟨a, e, x0, x1⟩ | ⟨a, b, e, x0, x1⟩ | ⟨a, b, e⟩
  · rw [e]; constructor <;> nlinarith
  · rw [e]; constructor <;> nlinarith
  · rw [e]; constructor <;> linarith

/-- C8: for a positive sample rate `sr`, every requested frequency `f` (in particular every
`f` in `[20, 0.45 * sr]`) and a phase in `[0, 1)` before the call, the value returned by
`processSample` in `SawUp` mode lies in `[-1.2, 1.2]`. -/
theorem sawUp_bounded (sr f : α) (o : PolyBLEPOsc α) (hsr : 0 < sr) (hsro : o.sampleRate = sr)
    (hp0 : 0 ≤ o.phase) (hp1 : o.phase < 1) :
    -(12 / 10) ≤ (((o.setMode Mode.SawUp).setFrequency f).processSample).1
      ∧ (((o.setMode Mode.SawUp).setFrequency f).processSample).1 ≤ 12 / 10 := by
  have hsr' : 0 < o.sampleRate := hsro ▸ hsr
  obtain ⟨i0, i1⟩ := incr_bounds f hsr'
  have hval : (((o.setMode Mode.SawUp).setFrequency f).processSample).1
      = 2 * PolyBLEPOsc.advance o.phase (jlimit 0 (o.sampleRate * (45 / 100)) f / o.sampleRate)
        - 1 - PolyBLEPOsc.polyBLEP
          (PolyBLEPOsc.advance o.phase (jlimit 0 (o.sampleRate * (45 / 100)) f / o.sampleRate))
          (jlimit 0 (o.sampleRate * (45 / 100)) f / o.sampleRate) := by
    simp [PolyBLEPOsc.processSample, PolyBLEPOsc.setFrequency, PolyBLEPOsc.setMode]
  obtain ⟨a0, a1⟩ := advance_mem hp0 hp1 i0 i1
  obtain ⟨b0, b1⟩ := sawUp_value_bounds
    (jlimit 0 (o.sampleRate * (45 / 100)) f / o.sampleRate) a0 a1 i1
  rw [hval]
  constructor <;> linarith

/-- The pulse before the soft clip stays in `[-1, 1]`. -/
theorem pulse_raw_bounds {p pw dt : α} (hp0 : 0 ≤ p) (hp1 : p < 1) (hw0 : 0 ≤ pw)
    (hw1 : pw ≤ 1) (hd1 : dt ≤ 45 / 100) :
    -1 ≤ PulseOsc.rawSample p pw dt ∧ PulseOsc.rawSample p pw dt ≤ 1 := by
  unfold PulseOsc.rawSample
  simp only [pulse_polyBLEP_eq]
  obtain ⟨a0, a1⟩ := polyBLEP_bounds dt hp0 hp1
  by_cases h : p < pw
  · have h2 : p - pw < 0 := by linarith
    rw [if_pos h, if_pos h2]
    have t0 : 0 ≤ p - pw + 1 := by linarith
    have t1 : p - pw + 1 < 1 := by linarith
    obtain ⟨b0, b1⟩ := polyBLEP_bounds dt t0 t1
    have hm := polyBLEP_mono (s := p) (t := p - pw + 1) dt hp0 (by linarith) t1 hd1
    constructor <;> linarith
  · have h2 : ¬ (p - pw < 0) := by linarith
    rw [if_neg h, if_neg h2]
    have t0 : 0 ≤ p - pw := by linarith
    have t1 : p - pw < 1 := by linarith
    obtain ⟨b0, b1⟩ := polyBLEP_bounds dt t0 t1
    have hm := polyBLEP_mono (s := p - pw) (t := p) dt t0 (by linarith) hp1 hd1
    constructor <;> linarith

end Primitives

/-- C9 at the failing input: sample rate 44100, frequency 11025 (increment `1/4`), phase
`3/4` before the call.  The phase wraps to 0 and `processSample` in `SawDown` mode returns
`2`, which is outside `[-1.2, 1.2]`. -/
theorem sawDown_overshoot :
    ((((sawDownInput.setMode Mode.SawDown).setFrequency 11025).processSample).1 = 2)
      ∧ (((sawDownInput.setMode Mode.SawDown).setFrequency 11025).processSample).2.phase = 0
      ∧ ((sawDownInput.setMode Mode.SawDown).setFrequency 11025).incr = 1 / 4
      ∧ ¬ ((((sawDownInput.setMode Mode.SawDown).setFrequency 11025).processSample).1
            ≤ 12 / 10) := by
  have hm : ¬ (Mode.SawDown = Mode.SawUp) := by decide
  norm_num [sawDownInput, PolyBLEPOsc.processSample, PolyBLEPOsc.setFrequency,
    PolyBLEPOsc.setMode, PolyBLEPOsc.advance, PolyBLEPOsc.polyBLEP, jlimit, hm]

theorem tanh_mem (x : ℝ) : -1 < Real.tanh x ∧ Real.tanh x < 1 := by
  have hc : 0 < Real.cosh x := Real.cosh_pos x
  have hs : Real.sinh x < Real.cosh x := Real.sinh_lt_cosh x
  have he : 0 < Real.cosh x + Real.sinh x := by
    rw [Real.cosh_add_sinh]; exact Real.exp_pos x
  rw [Real.tanh_eq_sinh_div_cosh]
  constructor
  · rw [lt_div_iff₀ hc]; linarith
  · rw [div_lt_one hc]; exact hs

/-- C10: for a positive sample rate `sr`, every requested frequency `f` (in particular every
`f` in `[20, 0.45 * sr]`), every pulse width set through `setPulseWidth`, a phase in `[0, 1)`
before the call and rounded edges enabled or disabled, the value returned by
`PulseOsc::processSample` lies in `[-1.2, 1.2]`; with rounded edges enabled it is
`tanh (1.5 * x)` for the unrounded value `x` and lies strictly inside `(-1, 1)`. -/
theorem pulse_bounded (sr f pw01 : ℝ) (b : Bool) (o : PulseOsc ℝ) (hsr : 0 < sr)
    (hsro : o.sampleRate = sr) (hp0 : 0 ≤ o.phase) (hp1 : o.phase < 1) :
    (-(12 / 10) ≤
        ((((o.setRoundedEdges b).setFrequency f).setPulseWidth pw01).processSample Real.tanh).1
      ∧ ((((o.setRoundedEdges b).setFrequency f).setPulseWidth pw01).processSample Real.tanh).1
        ≤ 12 / 10)
    ∧ (b = true →
        ((((o.setRoundedEdges b).setFrequency f).setPulseWidth pw01).processSample Real.tanh).1
          = Real.tanh (3 / 2 *
            ((((o.setRoundedEdges false).setFrequency f).setPulseWidth pw01).processSample
              Real.tanh).1)
        ∧ -1 <
          ((((o.setRoundedEdges b).setFrequency f).setPulseWidth pw01).processSample Real.tanh).1
        ∧ ((((o.setRoundedEdges b).setFrequency f).setPulseWidth pw01).processSample Real.tanh).1
          < 1) := by
  have hsr' : 0 < o.sampleRate := hsro ▸ hsr
  obtain ⟨i0, i1⟩ := incr_bounds f hsr'
  obtain ⟨a0, a1⟩ := advance_mem hp0 hp1 i0 i1
  have hw0 : (0 : ℝ) ≤ jlimit (1 / 100) (99 / 100) pw01 :=
    le_trans (by norm_num) (jlimit_ge pw01 (by norm_num))
  have hw1 : jlimit (1 / 100 : ℝ) (99 / 100) pw01 ≤ 1 :=
    le_trans (jlimit_le pw01 (by norm_num)) (by norm_num)
  obtain ⟨r0, r1⟩ := pulse_raw_bounds a0 a1 hw0 hw1 i1
  cases b
  · simp only [PulseOsc.processSample, PulseOsc.setPulseWidth, PulseOsc.setFrequency,
      PulseOsc.setRoundedEdges, pulse_advance_eq]
    refine ⟨⟨?_, ?_⟩, ?_⟩
    · simp only [Bool.false_eq_true, if_false]; linarith
    · simp only [Bool.false_eq_true, if_false]; linarith
    · intro h; exact absurd h (by decide)
  · simp only [PulseOsc.processSample, PulseOsc.setPulseWidth, PulseOsc.setFrequency,
      PulseOsc.setRoundedEdges, pulse_advance_eq, if_true, Bool.false_eq_true, if_false]
    obtain ⟨t0, t1⟩ := tanh_mem (PulseOsc.rawSample
      (PolyBLEPOsc.advance o.phase (jlimit 0 (o.sampleRate * (45 / 100)) f / o.sampleRate))
      (jlimit (1 / 100) (99 / 100) pw01)
      (jlimit 0 (o.sampleRate * (45 / 100)) f / o.sampleRate) * (3 / 2))
    refine ⟨⟨by linarith, by linarith⟩, fun _ => ⟨?_, t0, t1⟩⟩
    rw [mul_comm]

end MiniSynth

namespace MiniSynth

namespace SynthVoice

section Render

variable {α : Type} [LinearOrderedField α]

/-! ## The sample body neither reads nor writes `temp` and the active flag -/

theorem modStage_temp (J : Lib α) (c : BlockConsts α) (v : SynthVoice α) (t : AudioBuffer α) :
    modStage J c { v with temp := t }
      = ((modStage J c v).1, { (modStage J c v).2 with temp := t }) := rfl

theorem mainStage_temp (J : Lib α) (c : BlockConsts α) (m : Mods α) (v : SynthVoice α)
    (t : AudioBuffer α) :
    mainStage J c m { v with temp := t }
      = ((mainStage J c m v).1, { (mainStage J c m v).2 with temp := t }) := rfl

theorem unisonStage_temp (J : Lib α) (c : BlockConsts α) (m : Mods α) (s : α × α × α)
    (v : SynthVoice α) (t : AudioBuffer α) :
    unisonStage J c m s { v with temp := t }
      = ((unisonStage J c m s v).1, { (unisonStage J c m s v).2 with temp := t }) := by
  unfold unisonStage
  split_ifs <;> rfl

theorem subStage_temp (J : Lib α) (c : BlockConsts α) (v : SynthVoice α)
    (t : AudioBuffer α) :
    subStage J c { v with temp := t }
      = ((subStage J c v).1, { (subStage J c v).2 with temp := t }) := by
  unfold subStage
  split_ifs <;> rfl

theorem noiseStage_temp (J : Lib α) (c : BlockConsts α) (v : SynthVoice α)
    (t : AudioBuffer α) :
    noiseStage J c { v with temp := t }
      = ((noiseStage J c v).1, { (noiseStage J c v).2 with temp := t }) := by
  unfold noiseStage
  split_ifs <;> rfl

theorem outStage_temp (J : Lib α) (c : BlockConsts α) (m : Mods α) (dry : α)
    (v : SynthVoice α) (t : AudioBuffer α) :
    outStage J c m dry { v with temp := t }
      = ((outStage J c m dry v).1, { (outStage J c m dry v).2 with temp := t }) := rfl

/-- The sample body neither reads nor writes `temp`. -/
theorem voiceSample_temp (J : Lib α) (c : BlockConsts α) (v : SynthVoice α)
    (t : AudioBuffer α) :
    voiceSample J c { v with temp := t }
      = ((voiceSample J c v).1, { (voiceSample J c v).2 with temp := t }) := by
  unfold voiceSample
  simp only [modStage_temp, mainStage_temp, unisonStage_temp, subStage_temp, noiseStage_temp,
    outStage_temp]

theorem voiceSample_temp_eq (J : Lib α) (c : BlockConsts α) (v : SynthVoice α) :
    (voiceSample J c v).2.temp = v.temp := by
  have h1 : ∀ w : SynthVoice α, (subStage J c w).2.temp = w.temp := by
    intro w; unfold subStage; split_ifs <;> rfl
  have h2 : ∀ w : SynthVoice α, (noiseStage J c w).2.temp = w.temp := by
    intro w; unfold noiseStage; split_ifs <;> rfl
  have h3 : ∀ (m : Mods α) (s : α × α × α) (w : SynthVoice α),
      (unisonStage J c m s w).2.temp = w.temp := by
    intro m s w; unfold unisonStage; split_ifs <;> rfl
  unfold voiceSample
  show (noiseStage J c _).2.temp = _
  rw [h2, h1, h3]
  rfl

theorem voiceSample_noteActive (J : Lib α) (c : BlockConsts α) (v : SynthVoice α) :
    (voiceSample J c v).2.noteActive = v.noteActive := by
  have h1 : ∀ w : SynthVoice α, (subStage J c w).2.noteActive = w.noteActive := by
    intro w; unfold subStage; split_ifs <;> rfl
  have h2 : ∀ w : SynthVoice α, (noiseStage J c w).2.noteActive = w.noteActive := by
    intro w; unfold noiseStage; split_ifs <;> rfl
  have h3 : ∀ (m : Mods α) (s : α × α × α) (w : SynthVoice α),
      (unisonStage J c m s w).2.noteActive = w.noteActive := by
    intro m s w; unfold unisonStage; split_ifs <;> rfl
  unfold voiceSample
  show (noiseStage J c _).2.noteActive = _
  rw [h2, h1, h3]
  rfl

/-- The amplitude envelope is advanced by exactly one `getNextSample` per sample. -/
theorem voiceSample_ampEnv (J : Lib α) (c : BlockConsts α) (v : SynthVoice α) :
    (voiceSample J c v).2.ampEnv = v.ampEnv.getNextSample.2 := by
  have h1 : ∀ w : SynthVoice α, (subStage J c w).2.ampEnv = w.ampEnv := by
    intro w; unfold subStage; split_ifs <;> rfl
  have h2 : ∀ w : SynthVoice α, (noiseStage J c w).2.ampEnv = w.ampEnv := by
    intro w; unfold noiseStage; split_ifs <;> rfl
  have h3 : ∀ (m : Mods α) (s : α × α × α) (w : SynthVoice α),
      (unisonStage J c m s w).2.ampEnv = w.ampEnv := by
    intro m s w; unfold unisonStage; split_ifs <;> rfl
  unfold voiceSample
  show (noiseStage J c _).2.ampEnv.getNextSample.2 = _
  rw [h2, h1, h3]
  rfl

theorem voiceAfter_temp (J : Lib α) (c : BlockConsts α) (v : SynthVoice α) (t : AudioBuffer α)
    (k : Nat) :
    voiceAfter J c { v with temp := t } k = { voiceAfter J c v k with temp := t } := by
  induction k with
  | zero => rfl
  | succ k ih =>
    show (voiceSample J c (voiceAfter J c { v with temp := t } k)).2 = _
    rw [ih, voiceSample_temp]
    rfl

theorem frame_temp (J : Lib α) (c : BlockConsts α) (v : SynthVoice α) (t : AudioBuffer α)
    (k : Nat) : frame J c { v with temp := t } k = frame J c v k := by
  unfold frame
  rw [voiceAfter_temp, voiceSample_temp]

theorem voiceAfter_succ' (J : Lib α) (c : BlockConsts α) (v : SynthVoice α) (k : Nat) :
    voiceAfter J c v (k + 1) = voiceAfter J c (voiceSample J c v).2 k := by
  induction k with
  | zero => rfl
  | succ k ih =>
    show (voiceSample J c (voiceAfter J c v (k + 1))).2 = _
    rw [ih]
    rfl

theorem frame_succ' (J : Lib α) (c : BlockConsts α) (v : SynthVoice α) (k : Nat) :
    frame J c v (k + 1) = frame J c (voiceSample J c v).2 k := by
  unfold frame
  rw [voiceAfter_succ']

end Render

end SynthVoice

end MiniSynth

namespace MiniSynth

namespace SynthVoice

section Render

variable {α : Type} [LinearOrderedField α]

/-- The samples of a buffer after `p[i] += x` on channel `c`. -/
theorem addSample_data (b : AudioBuffer α) (c i : Nat) (x : α) (ch j : Nat) :
    (b.addSample c i x).data ch j
      = if ch = c ∧ j = i then b.data ch j + x else b.data ch j := by
  unfold AudioBuffer.addSample
  by_cases h1 : ch = c
  · subst h1
    by_cases h2 : j = i
    · subst h2; simp
    · simp [h2]
  · simp [h1]

/-- Closed form of the sample loop on `temp`: sample `j` of channel 0 receives `l` of
iteration `j - i`, sample `j` of channel 1 receives `r`, nothing else is written. -/
theorem sampleLoop_temp_data (J : Lib α) (c : BlockConsts α) (k : Nat) :
    ∀ (i : Nat) (v : SynthVoice α) (ch j : Nat),
      (sampleLoop J c k i v).temp.data ch j
        = if i ≤ j ∧ j < i + k then
            (if ch = 0 then v.temp.data ch j + (frame J c v (j - i)).1
             else if ch = 1 then v.temp.data ch j + (frame J c v (j - i)).2
             else v.temp.data ch j)
          else v.temp.data ch j := by
  induction k with
  | zero =>
    intro i v ch j
    have : ¬ (i ≤ j ∧ j < i + 0) := by omega
    rw [if_neg this]; rfl
  | succ k ih =>
    intro i v ch j
    show (sampleLoop J c k (i + 1) _).temp.data ch j = _
    rw [ih]
    simp only [frame_temp, ← frame_succ', addSample_data, voiceSample_temp_eq]
    have hf0 : voiceSample J c v = (frame J c v 0, (voiceSample J c v).2) := rfl
    rcases lt_trichotomy j i with h | h | h
    · have h1 : ¬ (i + 1 ≤ j ∧ j < i + 1 + k) := by omega
      have h2 : ¬ (i ≤ j ∧ j < i + (k + 1)) := by omega
      have h3 : j ≠ i := by omega
      simp [h1, h2, h3]
    · subst h
      have h1 : ¬ (j + 1 ≤ j ∧ j < j + 1 + k) := by omega
      have h2 : (j ≤ j ∧ j < j + (k + 1)) := by omega
      rw [if_neg h1, if_pos h2]
      simp only [Nat.sub_self, and_true]
      by_cases c0 : ch = 0
      · subst c0; simp; rfl
      · by_cases c1 : ch = 1
        · subst c1; simp; rfl
        · simp [c0, c1]
    · have h3 : j ≠ i := by omega
      have e : j - (i + 1) + 1 = j - i := by omega
      by_cases hk : j < i + 1 + k
      · have h1 : (i + 1 ≤ j ∧ j < i + 1 + k) := ⟨by omega, hk⟩
        have h2 : (i ≤ j ∧ j < i + (k + 1)) := by omega
        simp [h1, h2, h3, e]
      · have h1 : ¬ (i + 1 ≤ j ∧ j < i + 1 + k) := by omega
        have h2 : ¬ (i ≤ j ∧ j < i + (k + 1)) := by omega
        simp [h1, h2, h3]

/-- Closed form of the inner summing loop. -/
theorem addLoop_apply (src : Nat → α) (start k : Nat) :
    ∀ (i : Nat) (dst : Nat → α) (j : Nat),
      addLoop src start k i dst j
        = if start + i ≤ j ∧ j < start + i + k then dst j + src (j - start) else dst j := by
  induction k with
  | zero =>
    intro i dst j
    have : ¬ (start + i ≤ j ∧ j < start + i + 0) := by omega
    rw [if_neg this]; rfl
  | succ k ih =>
    intro i dst j
    show addLoop src start k (i + 1) _ j = _
    rw [ih]
    by_cases h : j = start + i
    · subst h
      have h1 : ¬ (start + (i + 1) ≤ start + i ∧ start + i < start + (i + 1) + k) := by omega
      have h2 : (start + i ≤ start + i ∧ start + i < start + i + (k + 1)) := by omega
      rw [if_neg h1, if_pos h2, Function.update_same]
      congr 2; omega
    · rw [Function.update_noteq h]
      by_cases hk : start + (i + 1) ≤ j ∧ j < start + (i + 1) + k
      · have h2 : (start + i ≤ j ∧ j < start + i + (k + 1)) := by omega
        rw [if_pos hk, if_pos h2]
      · have h2 : ¬ (start + i ≤ j ∧ j < start + i + (k + 1)) := by omega
        rw [if_neg hk, if_neg h2]

/-- Closed form of the loop over the output channels. -/
theorem channelLoop_apply (temp : AudioBuffer α) (start n k : Nat) :
    ∀ (ch : Nat) (d : Nat → Nat → α) (c j : Nat),
      channelLoop temp start n k ch d c j
        = if ch ≤ c ∧ c < ch + k then addLoop (temp.data (jmin c 1)) start n 0 (d c) j
          else d c j := by
  induction k with
  | zero =>
    intro ch d c j
    have : ¬ (ch ≤ c ∧ c < ch + 0) := by omega
    rw [if_neg this]; rfl
  | succ k ih =>
    intro ch d c j
    show channelLoop temp start n k (ch + 1) _ c j = _
    rw [ih]
    by_cases h : c = ch
    · subst h
      have h1 : ¬ (c + 1 ≤ c ∧ c < c + 1 + k) := by omega
      have h2 : (c ≤ c ∧ c < c + (k + 1)) := by omega
      rw [if_neg h1, if_pos h2, Function.update_same]
    · rw [Function.update_noteq h]
      by_cases hk : ch + 1 ≤ c ∧ c < ch + 1 + k
      · have h2 : (ch ≤ c ∧ c < ch + (k + 1)) := by omega
        rw [if_pos hk, if_pos h2]
      · have h2 : ¬ (ch ≤ c ∧ c < ch + (k + 1)) := by omega
        rw [if_neg hk, if_neg h2]

end Render

end SynthVoice

end MiniSynth

namespace MiniSynth

namespace SynthVoice

section Render

variable {α : Type} [LinearOrderedField α]

theorem beginBlock_temp_data (J : Lib α) (P : Params α) (n : Nat) (v : SynthVoice α)
    (ch j : Nat) : (beginBlock J P n v).temp.data ch j = 0 := rfl

theorem renderNextBlock_active (J : Lib α) (P : Params α) (output : AudioBuffer α)
    (start n : Nat) (v : SynthVoice α) (h : v.isVoiceActive = true) :
    renderNextBlock J P output start n v
      = (sampleLoop J (blockConsts J P (beginBlock J P n v)) n 0 (beginBlock J P n v),
         { output with
           data := channelLoop
             (sampleLoop J (blockConsts J P (beginBlock J P n v)) n 0 (beginBlock J P n v)).temp
             start n output.numChannels 0 output.data }) := by
  unfold renderNextBlock
  rw [h]
  rfl

/-- C1: for an active voice `renderNextBlock (output, start, n)` is additive.  For every
output channel `ch` and every `i < n`, sample `start + i` of channel `ch` afterwards is its
previous value plus the sample the voice computed in iteration `i` of the loop (`l` for
channel 0, `r` for every channel `ch ≥ 1`); every sample outside `[start, start + n)` is
unchanged, and so are the dimensions of the buffer. -/
theorem render_additive (J : Lib α) (P : Params α) (output : AudioBuffer α) (start n : Nat)
    (v : SynthVoice α) (h : v.isVoiceActive = true) :
    (∀ ch i, ch < output.numChannels → i < n →
      (renderNextBlock J P output start n v).2.data ch (start + i)
        = output.data ch (start + i)
          + (if ch = 0 then
              (frame J (blockConsts J P (beginBlock J P n v)) (beginBlock J P n v) i).1
             else (frame J (blockConsts J P (beginBlock J P n v)) (beginBlock J P n v) i).2))
    ∧ (∀ ch j, (j < start ∨ start + n ≤ j) →
        (renderNextBlock J P output start n v).2.data ch j = output.data ch j)
    ∧ (renderNextBlock J P output start n v).2.numChannels = output.numChannels
    ∧ (renderNextBlock J P output start n v).2.numSamples = output.numSamples := by
  rw [renderNextBlock_active J P output start n v h]
  refine ⟨?_, ?_, rfl, rfl⟩
  · intro ch i hch hi
    show channelLoop _ start n output.numChannels 0 output.data ch (start + i) = _
    rw [channelLoop_apply, if_pos ⟨Nat.zero_le _, by omega⟩, addLoop_apply,
      if_pos ⟨by omega, by omega⟩, sampleLoop_temp_data, if_pos ⟨Nat.zero_le _, by omega⟩]
    have e : start + i - start - 0 = i := by omega
    simp only [beginBlock_temp_data, zero_add, e]
    by_cases c0 : ch = 0
    · subst c0
      have : jmin 0 1 = 0 := by decide
      simp [this]
    · have h1 : jmin ch 1 = 1 := by
        unfold jmin
        by_cases h2 : 1 < ch
        · rw [if_pos h2]
        · rw [if_neg h2]; omega
      simp [h1, c0]
  · intro ch j hj
    show channelLoop _ start n output.numChannels 0 output.data ch j = _
    rw [channelLoop_apply]
    split_ifs with hc
    · rw [addLoop_apply, if_neg (by omega)]
    · rfl

theorem renderNextBlock_inactive (J : Lib α) (P : Params α) (output : AudioBuffer α)
    (start n : Nat) (v : SynthVoice α) (h : v.isVoiceActive = false) :
    renderNextBlock J P output start n v = (v, output) := by
  unfold renderNextBlock
  rw [h]
  rfl

/-- C2: if the voice is not active, `renderNextBlock` is a complete no-op: for every output
buffer, `start` and `n`, the output buffer and the whole state of the voice (oscillator and
LFO phases, envelopes, filters, noise state, `temp`, attributes) are unchanged. -/
theorem render_inactive_noop (J : Lib α) (P : Params α) (output : AudioBuffer α)
    (start n : Nat) (v : SynthVoice α) (h : v.isVoiceActive = false) :
    (renderNextBlock J P output start n v).2 = output
      ∧ (renderNextBlock J P output start n v).1 = v := by
  rw [renderNextBlock_inactive J P output start n v h]
  exact ⟨rfl, rfl⟩

end Render

end SynthVoice

/-- Witness of C1: the playing voice rendered into samples 3 to 6 of a stereo buffer. -/
theorem render_additive_witness :
    playingVoice.isVoiceActive = true
      ∧ (∀ ch i, ch < stereoOut.numChannels → i < 4 →
          (SynthVoice.renderNextBlock refLib defaultParams stereoOut 3 4 playingVoice).2.data
              ch (3 + i)
            = stereoOut.data ch (3 + i)
              + (if ch = 0 then
                  (SynthVoice.frame refLib
                    (SynthVoice.blockConsts refLib defaultParams
                      (SynthVoice.beginBlock refLib defaultParams 4 playingVoice))
                    (SynthVoice.beginBlock refLib defaultParams 4 playingVoice) i).1
                 else
                  (SynthVoice.frame refLib
                    (SynthVoice.blockConsts refLib defaultParams
                      (SynthVoice.beginBlock refLib defaultParams 4 playingVoice))
                    (SynthVoice.beginBlock refLib defaultParams 4 playingVoice) i).2))
      ∧ ∀ ch j, (j < 3 ∨ 3 + 4 ≤ j) →
        (SynthVoice.renderNextBlock refLib defaultParams stereoOut 3 4 playingVoice).2.data ch j
          = stereoOut.data ch j :=
  ⟨rfl, (SynthVoice.render_additive refLib defaultParams stereoOut 3 4 playingVoice rfl).1,
    (SynthVoice.render_additive refLib defaultParams stereoOut 3 4 playingVoice rfl).2.1⟩

/-- Witness of C2: the prepared voice on which no note has been started. -/
theorem render_inactive_noop_witness :
    preparedVoice.isVoiceActive = false
      ∧ (SynthVoice.renderNextBlock refLib defaultParams stereoOut 0 64 preparedVoice).2
          = stereoOut
      ∧ (SynthVoice.renderNextBlock refLib defaultParams stereoOut 0 64 preparedVoice).1
          = preparedVoice :=
  ⟨rfl, SynthVoice.render_inactive_noop refLib defaultParams stereoOut 0 64 preparedVoice rfl⟩

end MiniSynth

namespace MiniSynth

namespace SynthVoice

section Envelope

variable {α : Type} [LinearOrderedField α]

theorem sampleLoop_noteActive (J : Lib α) (c : BlockConsts α) (k : Nat) :
    ∀ (i : Nat) (v : SynthVoice α), (sampleLoop J c k i v).noteActive = v.noteActive := by
  induction k with
  | zero => intro i v; rfl
  | succ k ih =>
    intro i v
    show (sampleLoop J c k (i + 1) _).noteActive = _
    rw [ih]
    exact voiceSample_noteActive J c v

theorem sampleLoop_ampEnv (J : Lib α) (c : BlockConsts α) (k : Nat) :
    ∀ (i : Nat) (v : SynthVoice α),
      (sampleLoop J c k i v).ampEnv = (fun e : ADSR α => e.getNextSample.2)^[k] v.ampEnv := by
  induction k with
  | zero => intro i v; rfl
  | succ k ih =>
    intro i v
    show (sampleLoop J c k (i + 1) _).ampEnv = _
    rw [ih, Function.iterate_succ_apply]
    show _ = (fun e : ADSR α => e.getNextSample.2)^[k] (v.ampEnv.getNextSample.2)
    rw [← voiceSample_ampEnv J c v]

/-- No render call changes the active flag of the voice: `renderNextBlock` contains no call
of `clearCurrentNote()`. -/
theorem renderNextBlock_noteActive (J : Lib α) (P : Params α) (output : AudioBuffer α)
    (start n : Nat) (v : SynthVoice α) :
    (renderNextBlock J P output start n v).1.isVoiceActive = v.isVoiceActive := by
  cases h : v.isVoiceActive
  · rw [renderNextBlock_inactive J P output start n v h]; exact h
  · rw [renderNextBlock_active J P output start n v h]
    show (sampleLoop J _ n 0 _).noteActive = true
    rw [sampleLoop_noteActive]
    exact h

/-- A render call of `n` samples on an active voice advances the amplitude envelope by `n`
calls of `getNextSample`. -/
theorem renderNextBlock_ampEnv (J : Lib α) (P : Params α) (output : AudioBuffer α)
    (start n : Nat) (v : SynthVoice α) (h : v.isVoiceActive = true) :
    (renderNextBlock J P output start n v).1.ampEnv
      = (fun e : ADSR α => e.getNextSample.2)^[n] v.ampEnv := by
  rw [renderNextBlock_active J P output start n v h]
  show (sampleLoop J _ n 0 _).ampEnv = _
  rw [sampleLoop_ampEnv]
  rfl

end Envelope

end SynthVoice

section ADSRRamps

variable {α : Type} [LinearOrderedField α]

/-- In Attack, while the level stays below 1, `k` samples raise the level by `k` times the
attack rate. -/
theorem attack_iterate (e : ADSR α) (hs : e.state = EnvState.attack) (hr : 0 ≤ e.attackRate)
    (k : Nat) (hk : e.envelopeVal + k * e.attackRate < 1) :
    (fun e : ADSR α => e.getNextSample.2)^[k] e
      = { e with envelopeVal := e.envelopeVal + k * e.attackRate } := by
  induction k with
  | zero => simp
  | succ k ih =>
    have hk' : e.envelopeVal + k * e.attackRate < 1 := by
      push_cast at hk; nlinarith
    rw [Function.iterate_succ_apply', ih hk']
    have hlt : ¬ (e.envelopeVal + k * e.attackRate + e.attackRate ≥ 1) := by
      push_cast at hk; nlinarith
    simp only [ADSR.getNextSample, hs, hlt, if_false]
    congr 1
    push_cast; ring

/-- In Release, while the level stays above 0, `k` samples lower the level by `k` times the
release rate. -/
theorem release_iterate (e : ADSR α) (hs : e.state = EnvState.release)
    (hr : 0 ≤ e.releaseRate) (k : Nat) (hk : 0 < e.envelopeVal - k * e.releaseRate) :
    (fun e : ADSR α => e.getNextSample.2)^[k] e
      = { e with envelopeVal := e.envelopeVal - k * e.releaseRate } := by
  induction k with
  | zero => simp
  | succ k ih =>
    have hk' : 0 < e.envelopeVal - k * e.releaseRate := by
      push_cast at hk; nlinarith
    rw [Function.iterate_succ_apply', ih hk']
    have hlt : ¬ (e.envelopeVal - k * e.releaseRate - e.releaseRate ≤ 0) := by
      push_cast at hk; nlinarith
    simp only [ADSR.getNextSample, hs, hlt, if_false]
    congr 1
    push_cast; ring

end ADSRRamps

/-- An envelope in Idle stays as it is, whatever the number of samples. -/
theorem idle_iterate {α : Type} [LinearOrderedField α] (e : ADSR α)
    (hs : e.state = EnvState.idle) (k : Nat) :
    (fun e : ADSR α => e.getNextSample.2)^[k] e = e := by
  induction k with
  | zero => rfl
  | succ k ih =>
    rw [Function.iterate_succ_apply', ih]
    simp only [ADSR.getNextSample, hs]

/-- An envelope in Sustain at its sustain level stays as it is, whatever the number of
samples. -/
theorem sustain_iterate {α : Type} [LinearOrderedField α] (e : ADSR α)
    (hs : e.state = EnvState.sustain) (hv : e.envelopeVal = e.parameters.sustain) (k : Nat) :
    (fun e : ADSR α => e.getNextSample.2)^[k] e = e := by
  obtain ⟨st, p, sr, ev, ar, dr, rr⟩ := e
  simp only at hs hv
  subst hs hv
  induction k with
  | zero => rfl
  | succ k ih =>
    rw [Function.iterate_succ_apply', ih]
    simp only [ADSR.getNextSample]

theorem c3Started_ampEnv :
    c3Started.ampEnv
      = { state := EnvState.attack, parameters := ⟨1 / 1000, 12 / 100, 1, 1 / 1000⟩,
          sampleRate := 8000, envelopeVal := 0, attackRate := 1 / 8, decayRate := 0,
          releaseRate := 1 / 8 } := by
  simp [c3Started, SynthVoice.startVoice, SynthVoice.startNote, SynthVoice.prepare,
    SynthVoice.updateStaticParams, ADSR.setParameters, ADSR.recalculateRates, ADSR.setSampleRate,
    ADSR.noteOn, ADSR.getRate, shortEnvParams, defaultParams]
  norm_num

theorem c3Started_active : c3Started.isVoiceActive = true := rfl

theorem c3Sustained_ampEnv :
    c3Sustained.ampEnv
      = { state := EnvState.sustain, parameters := ⟨1 / 1000, 12 / 100, 1, 1 / 1000⟩,
          sampleRate := 8000, envelopeVal := 1, attackRate := 1 / 8, decayRate := 0,
          releaseRate := 1 / 8 } := by
  have h9 : (fun e : ADSR ℚ => e.getNextSample.2)^[9] c3Started.ampEnv
      = { state := EnvState.sustain, parameters := ⟨1 / 1000, 12 / 100, 1, 1 / 1000⟩,
          sampleRate := 8000, envelopeVal := 1, attackRate := 1 / 8, decayRate := 0,
          releaseRate := 1 / 8 } := by
    rw [c3Started_ampEnv, show (9 : Nat) = 2 + 7 from rfl, Function.iterate_add_apply,
      attack_iterate _ rfl (by norm_num) 7 (by norm_num)]
    simp [Function.iterate_succ, ADSR.getNextSample, ADSR.goToNextState]
    norm_num
  unfold c3Sustained
  rw [SynthVoice.renderNextBlock_ampEnv _ _ _ _ _ _ c3Started_active,
    show (16 : Nat) = 7 + 9 from rfl, Function.iterate_add_apply, h9]
  exact sustain_iterate _ rfl rfl 7

theorem c3Sustained_active : c3Sustained.isVoiceActive = true := by
  unfold c3Sustained
  rw [SynthVoice.renderNextBlock_noteActive]
  rfl

theorem c3Sustained_noteOff :
    c3Sustained.ampEnv.noteOff
      = { state := EnvState.release, parameters := ⟨1 / 1000, 12 / 100, 1, 1 / 1000⟩,
          sampleRate := 8000, envelopeVal := 1, attackRate := 1 / 8, decayRate := 0,
          releaseRate := 1 / 8 } := by
  rw [c3Sustained_ampEnv]
  simp [ADSR.noteOff]
  norm_num

theorem c3Released_ampEnv :
    c3Released.ampEnv
      = { state := EnvState.release, parameters := ⟨1 / 1000, 12 / 100, 1, 1 / 1000⟩,
          sampleRate := 8000, envelopeVal := 1, attackRate := 1 / 8, decayRate := 0,
          releaseRate := 1 / 8 } := by
  have h : c3Sustained.ampEnv.noteOff.isActive = true := by
    rw [c3Sustained_noteOff]; rfl
  unfold c3Released SynthVoice.stopNote
  simp only [h]
  exact c3Sustained_noteOff

theorem c3Released_active : c3Released.isVoiceActive = true := by
  have h : c3Sustained.ampEnv.noteOff.isActive = true := by
    rw [c3Sustained_noteOff]; rfl
  unfold c3Released SynthVoice.stopNote
  simp only [h]
  exact c3Sustained_active

/-- The released envelope of `c3Released` is Idle after 8 samples in exact arithmetic. -/
theorem c3Released_idle :
    ((fun e : ADSR ℚ => e.getNextSample.2)^[8] c3Released.ampEnv).state = EnvState.idle := by
  rw [c3Released_ampEnv, show (8 : Nat) = 1 + 7 from rfl, Function.iterate_add_apply,
    release_iterate _ rfl (by norm_num) 7 (by norm_num)]
  simp [ADSR.getNextSample, ADSR.goToNextState, ADSR.reset]
  norm_num

/-- C3 at the failing input.  A voice prepared at 8000 Hz with attack and release of one
millisecond (8 samples each) and sustain level 1 plays a note; after a render call of 16
samples its amplitude envelope is in Sustain; `stopNote (0, true)` puts it in Release and
leaves the voice active; after a second render call of 16 samples, twice the length of the
release, the amplitude envelope is Idle (`isActive()` is false) and the note has been
released, yet `isVoiceActive()` is still true. -/
theorem voice_stays_active_after_release :
    c3Sustained.ampEnv.state = EnvState.sustain
      ∧ c3Released.ampEnv.state = EnvState.release
      ∧ c3Released.isVoiceActive = true
      ∧ c3Done.ampEnv.state = EnvState.idle
      ∧ c3Done.ampEnv.isActive = false
      ∧ c3Done.isVoiceActive = true := by
  have hd : c3Done.ampEnv.state = EnvState.idle := by
    unfold c3Done
    rw [SynthVoice.renderNextBlock_ampEnv _ _ _ _ _ _ c3Released_active,
      show (16 : Nat) = 8 + 8 from rfl, Function.iterate_add_apply,
      idle_iterate _ c3Released_idle 8]
    exact c3Released_idle
  refine ⟨?_, ?_, c3Released_active, hd, ?_, ?_⟩
  · rw [c3Sustained_ampEnv]
  · rw [c3Released_ampEnv]
  · unfold ADSR.isActive; rw [hd]; rfl
  · unfold c3Done
    rw [SynthVoice.renderNextBlock_noteActive]
    exact c3Released_active

end MiniSynth

namespace MiniSynth

namespace SynthVoice

section EnvelopeParams

variable {α : Type} [LinearOrderedField α]

theorem voiceSample_filtEnv (J : Lib α) (c : BlockConsts α) (v : SynthVoice α) :
    (voiceSample J c v).2.filtEnv = v.filtEnv.getNextSample.2 := by
  have h1 : ∀ w : SynthVoice α, (subStage J c w).2.filtEnv = w.filtEnv := by
    intro w; unfold subStage; split_ifs <;> rfl
  have h2 : ∀ w : SynthVoice α, (noiseStage J c w).2.filtEnv = w.filtEnv := by
    intro w; unfold noiseStage; split_ifs <;> rfl
  have h3 : ∀ (m : Mods α) (s : α × α × α) (w : SynthVoice α),
      (unisonStage J c m s w).2.filtEnv = w.filtEnv := by
    intro m s w; unfold unisonStage; split_ifs <;> rfl
  unfold voiceSample
  show (noiseStage J c _).2.filtEnv.getNextSample.2 = _
  rw [h2, h1, h3]
  rfl

theorem sampleLoop_filtEnv (J : Lib α) (c : BlockConsts α) (k : Nat) :
    ∀ (i : Nat) (v : SynthVoice α),
      (sampleLoop J c k i v).filtEnv = (fun e : ADSR α => e.getNextSample.2)^[k] v.filtEnv := by
  induction k with
  | zero => intro i v; rfl
  | succ k ih =>
    intro i v
    show (sampleLoop J c k (i + 1) _).filtEnv = _
    rw [ih, Function.iterate_succ_apply]
    show _ = (fun e : ADSR α => e.getNextSample.2)^[k] (v.filtEnv.getNextSample.2)
    rw [← voiceSample_filtEnv J c v]

/-- A sample of the envelope changes neither its parameters nor its attack and decay rates. -/
theorem getNextSample_parameters (e : ADSR α) :
    e.getNextSample.2.parameters = e.parameters
      ∧ e.getNextSample.2.attackRate = e.attackRate
      ∧ e.getNextSample.2.decayRate = e.decayRate := by
  unfold ADSR.getNextSample
  cases hs : e.state <;> simp only [] <;> (try split_ifs) <;>
    simp [ADSR.goToNextState, ADSR.reset]

theorem iterate_parameters (k : Nat) (e : ADSR α) :
    ((fun e : ADSR α => e.getNextSample.2)^[k] e).parameters = e.parameters
      ∧ ((fun e : ADSR α => e.getNextSample.2)^[k] e).attackRate = e.attackRate
      ∧ ((fun e : ADSR α => e.getNextSample.2)^[k] e).decayRate = e.decayRate := by
  induction k with
  | zero => exact ⟨rfl, rfl, rfl⟩
  | succ k ih =>
    rw [Function.iterate_succ_apply']
    obtain ⟨a, b, c⟩ := getNextSample_parameters ((fun e : ADSR α => e.getNextSample.2)^[k] e)
    exact ⟨a.trans ih.1, b.trans ih.2.1, c.trans ih.2.2⟩

theorem renderNextBlock_filtEnv (J : Lib α) (P : Params α) (output : AudioBuffer α)
    (start n : Nat) (v : SynthVoice α) (h : v.isVoiceActive = true) :
    (renderNextBlock J P output start n v).1.filtEnv
      = (fun e : ADSR α => e.getNextSample.2)^[n] v.filtEnv := by
  rw [renderNextBlock_active J P output start n v h]
  show (sampleLoop J _ n 0 _).filtEnv = _
  rw [sampleLoop_filtEnv]
  rfl

/-- C4, amended: the envelope parameters in effect during a render call are the values the
snapshot held at the last `prepare`.  `prepare` stores the eight values of its snapshot in the
two envelopes; `renderNextBlock` does not read them: its result is the same whatever the
snapshot of the render call holds for attack, decay, sustain and release of either envelope,
and it leaves the parameters and the attack and decay rates of both envelopes as they were. -/
theorem envelope_params_fixed_at_prepare (J : Lib α) (P0 P : Params α) (sr : α)
    (spb numCh : Nat) (output : AudioBuffer α) (start n : Nat) (v : SynthVoice α)
    (a d s r fa fd fs fr : α) :
    (prepare P0 sr spb numCh v).ampEnv.parameters = ⟨P0.attack, P0.decay, P0.sustain, P0.release⟩
    ∧ (prepare P0 sr spb numCh v).filtEnv.parameters = ⟨P0.fA, P0.fD, P0.fS, P0.fR⟩
    ∧ renderNextBlock J
        { P with attack := a, decay := d, sustain := s, release := r,
                 fA := fa, fD := fd, fS := fs, fR := fr } output start n v
      = renderNextBlock J P output start n v
    ∧ (renderNextBlock J P output start n v).1.ampEnv.parameters = v.ampEnv.parameters
    ∧ (renderNextBlock J P output start n v).1.ampEnv.attackRate = v.ampEnv.attackRate
    ∧ (renderNextBlock J P output start n v).1.ampEnv.decayRate = v.ampEnv.decayRate
    ∧ (renderNextBlock J P output start n v).1.filtEnv.parameters = v.filtEnv.parameters
    ∧ (renderNextBlock J P output start n v).1.filtEnv.attackRate = v.filtEnv.attackRate
    ∧ (renderNextBlock J P output start n v).1.filtEnv.decayRate = v.filtEnv.decayRate := by
  have hp : ∀ (p : ADSRParameters α) (e : ADSR α), (e.setParameters p).parameters = p := by
    intro p e
    unfold ADSR.setParameters ADSR.recalculateRates
    simp only []
    split_ifs
    · unfold ADSR.goToNextState
      split <;> rfl
    · rfl
  refine ⟨hp _ _, hp _ _, rfl, ?_⟩
  cases h : v.isVoiceActive
  · rw [renderNextBlock_inactive J P output start n v h]
    exact ⟨rfl, rfl, rfl, rfl, rfl, rfl⟩
  · rw [renderNextBlock_ampEnv J P output start n v h,
      renderNextBlock_filtEnv J P output start n v h]
    obtain ⟨a1, a2, a3⟩ := iterate_parameters n v.ampEnv
    obtain ⟨b1, b2, b3⟩ := iterate_parameters n v.filtEnv
    exact ⟨a1, a2, a3, b1, b2, b3⟩

end EnvelopeParams

end SynthVoice

theorem playingVoice_ampEnv :
    playingVoice.ampEnv
      = { state := EnvState.attack, parameters := ⟨1 / 100, 12 / 100, 8 / 10, 25 / 100⟩,
          sampleRate := 44100, envelopeVal := 0, attackRate := 1 / 441,
          decayRate := 1 / 26460, releaseRate := 4 / 55125 } := by
  simp [playingVoice, preparedVoice, SynthVoice.startVoice, SynthVoice.startNote,
    SynthVoice.prepare, SynthVoice.updateStaticParams, ADSR.setParameters,
    ADSR.recalculateRates, ADSR.setSampleRate, ADSR.noteOn, ADSR.getRate, defaultParams]
  norm_num

/-- C4 as stated fails: the voice is prepared with the default parameters (attack 0.01 s) and
a note is started; the attack parameter is then changed to 1 s and one sample is rendered with
the new snapshot.  The envelope still holds attack 0.01 s, its level has moved by `1/441`
(the rate of 0.01 s at 44100 Hz, not `1/44100`), and the render call gives the result it gives
with the old snapshot. -/
theorem envelope_params_not_reread :
    slowAttackParams.attack = 1
      ∧ (SynthVoice.renderNextBlock refLib slowAttackParams stereoOut 0 1
          playingVoice).1.ampEnv.parameters.attack = 1 / 100
      ∧ (SynthVoice.renderNextBlock refLib slowAttackParams stereoOut 0 1
          playingVoice).1.ampEnv.envelopeVal = 1 / 441
      ∧ SynthVoice.renderNextBlock refLib slowAttackParams stereoOut 0 1 playingVoice
          = SynthVoice.renderNextBlock refLib defaultParams stereoOut 0 1 playingVoice
      ∧ ¬ ((SynthVoice.renderNextBlock refLib slowAttackParams stereoOut 0 1
          playingVoice).1.ampEnv.parameters
            = ⟨slowAttackParams.attack, slowAttackParams.decay, slowAttackParams.sustain,
               slowAttackParams.release⟩) := by
  have ha : playingVoice.isVoiceActive = true := rfl
  have he : (SynthVoice.renderNextBlock refLib slowAttackParams stereoOut 0 1
      playingVoice).1.ampEnv
        = { state := EnvState.attack, parameters := ⟨1 / 100, 12 / 100, 8 / 10, 25 / 100⟩,
            sampleRate := 44100, envelopeVal := 1 / 441, attackRate := 1 / 441,
            decayRate := 1 / 26460, releaseRate := 4 / 55125 } := by
    rw [SynthVoice.renderNextBlock_ampEnv _ _ _ _ _ _ ha, playingVoice_ampEnv]
    simp [ADSR.getNextSample]
    norm_num
  refine ⟨rfl, ?_, ?_, rfl, ?_⟩
  · rw [he]
  · rw [he]
  · rw [he]
    simp [slowAttackParams, defaultParams]

end MiniSynth

namespace MiniSynth

namespace SynthVoice

section ZeroLength

variable {α : Type} [LinearOrderedField α]

theorem channelLoop_congr (t1 t2 : AudioBuffer α) (h : t1.data = t2.data) (start n k ch : Nat)
    (d : Nat → Nat → α) : channelLoop t1 start n k ch d = channelLoop t2 start n k ch d := by
  funext c j
  rw [channelLoop_apply, channelLoop_apply, h]

theorem channelLoop_zero (t : AudioBuffer α) (start k ch : Nat) (d : Nat → Nat → α) :
    channelLoop t start 0 k ch d = d := by
  funext c j
  rw [channelLoop_apply]
  split_ifs
  · rfl
  · rfl

/-- Apart from `temp`, the voice after the sample loop is the voice after `k` sample bodies. -/
theorem sampleLoop_eq_voiceAfter (J : Lib α) (c : BlockConsts α) (k : Nat) :
    ∀ (i : Nat) (v : SynthVoice α) (t : AudioBuffer α),
      { sampleLoop J c k i v with temp := t } = { voiceAfter J c v k with temp := t } := by
  induction k with
  | zero => intro i v t; rfl
  | succ k ih =>
    intro i v t
    show { sampleLoop J c k (i + 1) _ with temp := t } = _
    rw [ih, voiceAfter_temp, voiceAfter_succ']

theorem core_setTemp (v : SynthVoice α) (t : AudioBuffer α) :
    core { v with temp := t } = core v := rfl

theorem sampleLoop_core (J : Lib α) (c : BlockConsts α) (k i : Nat) (v : SynthVoice α) :
    core (sampleLoop J c k i v) = core (voiceAfter J c v k) := by
  rw [← core_setTemp (sampleLoop J c k i v) {}, sampleLoop_eq_voiceAfter, core_setTemp]

/-- A render call gives the same output and, up to the erased settings, the same voice when
it is started from the voice with the settings erased. -/
theorem renderNextBlock_core (J : Lib α) (P : Params α) (output : AudioBuffer α)
    (start n : Nat) (v : SynthVoice α) :
    (renderNextBlock J P output start n (core v)).2 = (renderNextBlock J P output start n v).2
      ∧ core (renderNextBlock J P output start n (core v)).1
          = core (renderNextBlock J P output start n v).1 := by
  cases h : v.isVoiceActive
  · have h' : (core v).isVoiceActive = false := h
    rw [renderNextBlock_inactive J P output start n v h,
      renderNextBlock_inactive J P output start n (core v) h']
    exact ⟨rfl, rfl⟩
  · have h' : (core v).isVoiceActive = true := h
    rw [renderNextBlock_active J P output start n v h,
      renderNextBlock_active J P output start n (core v) h']
    have hb : beginBlock J P n (core v)
        = { beginBlock J P n v with temp := (beginBlock J P n (core v)).temp } := rfl
    have hc : blockConsts J P (beginBlock J P n (core v))
        = blockConsts J P (beginBlock J P n v) := rfl
    constructor
    · show ({ output with data := _ } : AudioBuffer α) = { output with data := _ }
      congr 1
      apply channelLoop_congr
      funext ch j
      rw [sampleLoop_temp_data, sampleLoop_temp_data, hc, hb, frame_temp]
      rfl
    · show core (sampleLoop J _ n 0 _) = core (sampleLoop J _ n 0 _)
      rw [sampleLoop_core, sampleLoop_core, hc, hb, voiceAfter_temp, core_setTemp]

theorem apply_core (J : Lib α) (c : Call α) (v : SynthVoice α) :
    (c.apply J (core v)).2 = (c.apply J v).2
      ∧ core (c.apply J (core v)).1 = core (c.apply J v).1 := by
  cases c with
  | prepare P sr spb numCh => exact ⟨rfl, rfl⟩
  | startNote midi vel => exact ⟨rfl, rfl⟩
  | stopNote tail =>
    refine ⟨rfl, ?_⟩
    show core (stopNote tail (core v)) = core (stopNote tail v)
    unfold stopNote
    show core (if (!tail || !v.ampEnv.noteOff.isActive) = true then _ else _)
      = core (if (!tail || !v.ampEnv.noteOff.isActive) = true then _ else _)
    split_ifs <;> rfl
  | pitchWheelMoved P value => exact ⟨rfl, rfl⟩
  | channelPressureChanged value => exact ⟨rfl, rfl⟩
  | aftertouchChanged value => exact ⟨rfl, rfl⟩
  | controllerMoved a b => exact ⟨rfl, rfl⟩
  | renderNextBlock P output start n =>
    obtain ⟨h1, h2⟩ := renderNextBlock_core J P output start n v
    exact ⟨congrArg some h1, h2⟩

/-- Two voices that agree up to the erased settings give the same outputs under every
sequence of calls, and agree in the same way afterwards. -/
theorem run_core (J : Lib α) (cs : List (Call α)) :
    ∀ v w : SynthVoice α, core v = core w →
      (run J cs v).2 = (run J cs w).2 ∧ core (run J cs v).1 = core (run J cs w).1 := by
  induction cs with
  | nil => intro v w h; exact ⟨rfl, h⟩
  | cons c cs ih =>
    intro v w h
    obtain ⟨a1, a2⟩ := apply_core J c v
    obtain ⟨b1, b2⟩ := apply_core J c w
    have e1 : (c.apply J v).2 = (c.apply J w).2 := by rw [← a1, ← b1, h]
    have e2 : core (c.apply J v).1 = core (c.apply J w).1 := by rw [← a2, ← b2, h]
    obtain ⟨r1, r2⟩ := ih _ _ e2
    constructor
    · show (c.apply J v).2 :: (run J cs (c.apply J v).1).2
        = (c.apply J w).2 :: (run J cs (c.apply J w).1).2
      rw [e1, r1]
    · exact r2

theorem renderNextBlock_zero (J : Lib α) (P : Params α) (output : AudioBuffer α) (start : Nat)
    (v : SynthVoice α) (h : v.isVoiceActive = true) :
    renderNextBlock J P output start 0 v = (beginBlock J P 0 v, output) := by
  rw [renderNextBlock_active J P output start 0 v h]
  show (beginBlock J P 0 v, ({ output with data := _ } : AudioBuffer α)) = _
  rw [channelLoop_zero]

/-- C5: `renderNextBlock` with `n = 0` on an active voice writes nothing to the output buffer
and changes no oscillator, no LFO phase, no envelope, no filter memory, no noise state and no
attribute of the voice (it only stores the LFO rates and the filter type of its snapshot and
resizes `temp`, which every later render call overwrites before reading them); every
subsequent sequence of calls produces the same outputs as if the zero-length call had not
happened. -/
theorem render_zero_length (J : Lib α) (P : Params α) (output : AudioBuffer α) (start : Nat)
    (v : SynthVoice α) (h : v.isVoiceActive = true) :
    (renderNextBlock J P output start 0 v).2 = output
    ∧ ((renderNextBlock J P output start 0 v).1.osc1 = v.osc1
      ∧ (renderNextBlock J P output start 0 v).1.osc2 = v.osc2
      ∧ (renderNextBlock J P output start 0 v).1.osc3 = v.osc3
      ∧ (renderNextBlock J P output start 0 v).1.pulse1 = v.pulse1
      ∧ (renderNextBlock J P output start 0 v).1.pulse2 = v.pulse2
      ∧ (renderNextBlock J P output start 0 v).1.pulse3 = v.pulse3
      ∧ (renderNextBlock J P output start 0 v).1.blep1 = v.blep1
      ∧ (renderNextBlock J P output start 0 v).1.blep2 = v.blep2
      ∧ (renderNextBlock J P output start 0 v).1.blep3 = v.blep3
      ∧ (renderNextBlock J P output start 0 v).1.subSine = v.subSine
      ∧ (renderNextBlock J P output start 0 v).1.subTri = v.subTri
      ∧ (renderNextBlock J P output start 0 v).1.subPulse = v.subPulse)
    ∧ ((renderNextBlock J P output start 0 v).1.lfo1.phase = v.lfo1.phase
      ∧ (renderNextBlock J P output start 0 v).1.lfo2.phase = v.lfo2.phase
      ∧ (renderNextBlock J P output start 0 v).1.pwmLfo1.phase = v.pwmLfo1.phase
      ∧ (renderNextBlock J P output start 0 v).1.pwmLfo2.phase = v.pwmLfo2.phase
      ∧ (renderNextBlock J P output start 0 v).1.pwmLfo3.phase = v.pwmLfo3.phase)
    ∧ ((renderNextBlock J P output start 0 v).1.ampEnv = v.ampEnv
      ∧ (renderNextBlock J P output start 0 v).1.filtEnv = v.filtEnv
      ∧ (renderNextBlock J P output start 0 v).1.filterL.mem = v.filterL.mem
      ∧ (renderNextBlock J P output start 0 v).1.filterR.mem = v.filterR.mem
      ∧ (renderNextBlock J P output start 0 v).1.noise = v.noise)
    ∧ core (renderNextBlock J P output start 0 v).1 = core v
    ∧ (∀ cs : List (Call α),
        (run J cs (renderNextBlock J P output start 0 v).1).2 = (run J cs v).2
        ∧ core (run J cs (renderNextBlock J P output start 0 v).1).1
            = core (run J cs v).1) := by
  rw [renderNextBlock_zero J P output start v h]
  refine ⟨rfl, ⟨rfl, rfl, rfl, rfl, rfl, rfl, rfl, rfl, rfl, rfl, rfl, rfl⟩,
    ⟨rfl, rfl, rfl, rfl, rfl⟩, ⟨rfl, rfl, rfl, rfl, rfl⟩, rfl, ?_⟩
  intro cs
  exact run_core J cs _ _ rfl

end ZeroLength

end SynthVoice

/-- Witness of C5: a zero-length render of the playing voice. -/
theorem render_zero_length_witness :
    playingVoice.isVoiceActive = true
      ∧ (SynthVoice.renderNextBlock refLib defaultParams stereoOut 7 0 playingVoice).2
          = stereoOut :=
  ⟨rfl, (SynthVoice.render_zero_length refLib defaultParams stereoOut 7 playingVoice rfl).1⟩

end MiniSynth

namespace MiniSynth

/-- Witness of C6: a requested frequency of -3 Hz at 44100 Hz. -/
theorem setFrequency_clamps_witness :
    (0 : ℚ) < sawDownInput.sampleRate ∧ (0 : ℚ) < ({} : PulseOsc ℚ).sampleRate
      ∧ (sawDownInput.setFrequency (-3)).incr = 0
      ∧ (({} : PulseOsc ℚ).setFrequency (-3)).incr = 0 :=
  ⟨by norm_num [sawDownInput], by norm_num,
    (setFrequency_clamps (-3) sawDownInput {} (by norm_num [sawDownInput])
      (by norm_num)).1.2.2.2.2 (by norm_num),
    (setFrequency_clamps (-3) sawDownInput {} (by norm_num [sawDownInput])
      (by norm_num)).2.2.2.2.2 (by norm_num)⟩

/-- Witness of C7: both oscillators at 44100 Hz and 11025 Hz. -/
theorem phase_invariant_witness :
    (sawDownInput.setFrequency 11025).Inv ∧ (({} : PulseOsc ℚ).setFrequency 11025).Inv
      ∧ (sawDownInput.setFrequency 11025).processSample.2.phase
          = Int.fract ((sawDownInput.setFrequency 11025).phase
              + (sawDownInput.setFrequency 11025).incr) :=
  ⟨by norm_num [PolyBLEPOsc.Inv, PolyBLEPOsc.setFrequency, sawDownInput, jlimit],
    by norm_num [PulseOsc.Inv, PulseOsc.setFrequency, jlimit],
    (phase_invariant (sawDownInput.setFrequency 11025) (({} : PulseOsc ℚ).setFrequency 11025)
      refLib.tanh 44100 440
      (by norm_num [PolyBLEPOsc.Inv, PolyBLEPOsc.setFrequency, sawDownInput, jlimit])
      (by norm_num [PulseOsc.Inv, PulseOsc.setFrequency, jlimit])).1.2.1⟩

/-- Witness of C8: the rising saw at 44100 Hz, 11025 Hz and phase 3/4. -/
theorem sawUp_bounded_witness :
    (0 : ℚ) < 44100 ∧ sawDownInput.sampleRate = 44100
      ∧ 0 ≤ sawDownInput.phase ∧ sawDownInput.phase < 1
      ∧ -(12 / 10) ≤ (((sawDownInput.setMode Mode.SawUp).setFrequency 11025).processSample).1
      ∧ (((sawDownInput.setMode Mode.SawUp).setFrequency 11025).processSample).1 ≤ 12 / 10 :=
  ⟨by norm_num, rfl, by norm_num [sawDownInput], by norm_num [sawDownInput],
    sawUp_bounded 44100 11025 sawDownInput (by norm_num) rfl (by norm_num [sawDownInput])
      (by norm_num [sawDownInput])⟩

/-- Witness of C10: the pulse at 44100 Hz, 11025 Hz, width 1/2 and phase 3/4, rounded. -/
theorem pulse_bounded_witness :
    (0 : ℝ) < 44100
      ∧ -(12 / 10) ≤
        ((((({ sampleRate := 44100, phase := 3 / 4 } : PulseOsc ℝ).setRoundedEdges
          true).setFrequency 11025).setPulseWidth (1 / 2)).processSample Real.tanh).1
      ∧ ((((({ sampleRate := 44100, phase := 3 / 4 } : PulseOsc ℝ).setRoundedEdges
          true).setFrequency 11025).setPulseWidth (1 / 2)).processSample Real.tanh).1
        ≤ 12 / 10 :=
  ⟨by norm_num,
    (pulse_bounded 44100 11025 (1 / 2) true { sampleRate := 44100, phase := 3 / 4 }
      (by norm_num) rfl (by norm_num) (by norm_num)).1⟩

end MiniSynth

namespace MiniSynth

section PulseWidth

variable {α : Type} [LinearOrderedField α]

theorem modStage_pw (J : Lib α) (c : SynthVoice.BlockConsts α) (v : SynthVoice α) :
    (5 / 100 ≤ (SynthVoice.modStage J c v).1.pw1 ∧ (SynthVoice.modStage J c v).1.pw1 ≤ 95 / 100)
    ∧ (5 / 100 ≤ (SynthVoice.modStage J c v).1.pw2
        ∧ (SynthVoice.modStage J c v).1.pw2 ≤ 95 / 100)
    ∧ (5 / 100 ≤ (SynthVoice.modStage J c v).1.pw3
        ∧ (SynthVoice.modStage J c v).1.pw3 ≤ 95 / 100) := by
  have h : (5 / 100 : α) ≤ 95 / 100 := by norm_num
  exact ⟨⟨jlimit_ge _ h, jlimit_le _ h⟩, ⟨jlimit_ge _ h, jlimit_le _ h⟩,
    ⟨jlimit_ge _ h, jlimit_le _ h⟩⟩

/-- C12 as stated fails: `setPulseWidth (0.02)` stores the width 0.02, which is below 0.05. -/
theorem setPulseWidth_below_five_percent :
    (({} : PulseOsc ℚ).setPulseWidth (2 / 100)).pw = 2 / 100
      ∧ ¬ ((5 / 100 : ℚ) ≤ (({} : PulseOsc ℚ).setPulseWidth (2 / 100)).pw) := by
  norm_num [PulseOsc.setPulseWidth, jlimit]

/-- C12, amended: for every `x`, after `PulseOsc::setPulseWidth (x)` the pulse width lies in
`[0.01, 0.99]`: a width outside that domain is clamped to it, a width inside is stored
unchanged.  In the render loop the width handed to `setPulseWidth` has been clamped to
`[0.05, 0.95]` before the call, so that the width stored for a main oscillator or a companion
is that value, in `[0.05, 0.95]`; the sub-oscillator is given the width 0.5. -/
theorem setPulseWidth_clamps (x : α) (o : PulseOsc α) (J : Lib α)
    (c : SynthVoice.BlockConsts α) (v : SynthVoice α) :
    (1 / 100 ≤ (o.setPulseWidth x).pw ∧ (o.setPulseWidth x).pw ≤ 99 / 100)
    ∧ (1 / 100 ≤ x → x ≤ 99 / 100 → (o.setPulseWidth x).pw = x)
    ∧ (x < 1 / 100 → (o.setPulseWidth x).pw = 1 / 100)
    ∧ (99 / 100 < x → (o.setPulseWidth x).pw = 99 / 100)
    ∧ ((o.setPulseWidth (SynthVoice.modStage J c v).1.pw1).pw = (SynthVoice.modStage J c v).1.pw1
      ∧ 5 / 100 ≤ (o.setPulseWidth (SynthVoice.modStage J c v).1.pw1).pw
      ∧ (o.setPulseWidth (SynthVoice.modStage J c v).1.pw1).pw ≤ 95 / 100)
    ∧ ((o.setPulseWidth (SynthVoice.modStage J c v).1.pw2).pw = (SynthVoice.modStage J c v).1.pw2
      ∧ 5 / 100 ≤ (o.setPulseWidth (SynthVoice.modStage J c v).1.pw2).pw
      ∧ (o.setPulseWidth (SynthVoice.modStage J c v).1.pw2).pw ≤ 95 / 100)
    ∧ ((o.setPulseWidth (SynthVoice.modStage J c v).1.pw3).pw = (SynthVoice.modStage J c v).1.pw3
      ∧ 5 / 100 ≤ (o.setPulseWidth (SynthVoice.modStage J c v).1.pw3).pw
      ∧ (o.setPulseWidth (SynthVoice.modStage J c v).1.pw3).pw ≤ 95 / 100)
    ∧ (o.setPulseWidth (1 / 2)).pw = 1 / 2 := by
  have h : (1 / 100 : α) ≤ 99 / 100 := by norm_num
  have hin : ∀ y : α, 5 / 100 ≤ y → y ≤ 95 / 100 → (o.setPulseWidth y).pw = y := by
    intro y h1 h2
    exact jlimit_of_mem (le_trans (by norm_num) h1) (le_trans h2 (by norm_num))
  obtain ⟨⟨a1, a2⟩, ⟨b1, b2⟩, ⟨c1, c2⟩⟩ := modStage_pw J c v
  refine ⟨⟨jlimit_ge x h, jlimit_le x h⟩, fun h1 h2 => jlimit_of_mem h1 h2, ?_, ?_,
    ⟨hin _ a1 a2, ?_, ?_⟩, ⟨hin _ b1 b2, ?_, ?_⟩, ⟨hin _ c1 c2, ?_, ?_⟩, ?_⟩
  · intro hx
    show jlimit (1 / 100) (99 / 100) x = 1 / 100
    unfold jlimit; rw [if_pos hx]
  · intro hx
    show jlimit (1 / 100) (99 / 100) x = 99 / 100
    unfold jlimit
    rw [if_neg (by linarith), if_pos hx]
  · rw [hin _ a1 a2]; exact a1
  · rw [hin _ a1 a2]; exact a2
  · rw [hin _ b1 b2]; exact b1
  · rw [hin _ b1 b2]; exact b2
  · rw [hin _ c1 c2]; exact c1
  · rw [hin _ c1 c2]; exact c2
  · exact jlimit_of_mem (by norm_num) (by norm_num)

end PulseWidth

/-- Witness of C12: the width 0.5 on a default pulse oscillator. -/
theorem setPulseWidth_clamps_witness :
    (1 / 100 : ℚ) ≤ 1 / 2 ∧ (1 / 2 : ℚ) ≤ 99 / 100
      ∧ (({} : PulseOsc ℚ).setPulseWidth (1 / 2)).pw = 1 / 2 :=
  ⟨by norm_num, by norm_num,
    (setPulseWidth_clamps (1 / 2) ({} : PulseOsc ℚ) refLib defaultConsts playingVoice).2.1
      (by norm_num) (by norm_num)⟩

end MiniSynth

namespace MiniSynth

namespace SynthVoice

section OutStage

variable {α : Type} [LinearOrderedField α]

/-- The sample body ends with `outStage`, run on a voice whose envelopes and filters are
those of the voice at the start of the body, with the LFO values of part 1. -/
theorem voiceSample_eq_outStage (J : Lib α) (c : BlockConsts α) (v : SynthVoice α) :
    ∃ (dry : α) (w : SynthVoice α),
      voiceSample J c v = outStage J c (modStage J c v).1 dry w
        ∧ w.ampEnv = v.ampEnv ∧ w.filtEnv = v.filtEnv
        ∧ w.filterL = v.filterL ∧ w.filterR = v.filterR := by
  have h1 : ∀ w : SynthVoice α, (subStage J c w).2.ampEnv = w.ampEnv
      ∧ (subStage J c w).2.filtEnv = w.filtEnv ∧ (subStage J c w).2.filterL = w.filterL
      ∧ (subStage J c w).2.filterR = w.filterR := by
    intro w; unfold subStage; split_ifs <;> exact ⟨rfl, rfl, rfl, rfl⟩
  have h2 : ∀ w : SynthVoice α, (noiseStage J c w).2.ampEnv = w.ampEnv
      ∧ (noiseStage J c w).2.filtEnv = w.filtEnv ∧ (noiseStage J c w).2.filterL = w.filterL
      ∧ (noiseStage J c w).2.filterR = w.filterR := by
    intro w; unfold noiseStage; split_ifs <;> exact ⟨rfl, rfl, rfl, rfl⟩
  have h3 : ∀ (m : Mods α) (s : α × α × α) (w : SynthVoice α),
      (unisonStage J c m s w).2.ampEnv = w.ampEnv
      ∧ (unisonStage J c m s w).2.filtEnv = w.filtEnv
      ∧ (unisonStage J c m s w).2.filterL = w.filterL
      ∧ (unisonStage J c m s w).2.filterR = w.filterR := by
    intro m s w; unfold unisonStage; split_ifs <;> exact ⟨rfl, rfl, rfl, rfl⟩
  refine ⟨_, _, rfl, ?_, ?_, ?_, ?_⟩
  · rw [(h2 _).1, (h1 _).1, (h3 _ _ _).1]; rfl
  · rw [(h2 _).2.1, (h1 _).2.1, (h3 _ _ _).2.1]; rfl
  · rw [(h2 _).2.2.1, (h1 _).2.2.1, (h3 _ _ _).2.2.1]; rfl
  · rw [(h2 _).2.2.2, (h1 _).2.2.2, (h3 _ _ _).2.2.2]; rfl

/-- The cutoff frequency and the resonance stored in both filters by one sample. -/
theorem voiceSample_filter_settings (J : Lib α) (c : BlockConsts α) (v : SynthVoice α) :
    (voiceSample J c v).2.filterL.cutoffFrequency
        = jlimit 20 20000 (c.cutoff * J.pow2 (c.fAmt * (v.filtEnv.getNextSample.1 - 1 / 2)))
    ∧ (voiceSample J c v).2.filterR.cutoffFrequency
        = jlimit 20 20000 (c.cutoff * J.pow2 (c.fAmt * (v.filtEnv.getNextSample.1 - 1 / 2)))
    ∧ (voiceSample J c v).2.filterL.resonance = c.q
    ∧ (voiceSample J c v).2.filterR.resonance = c.q := by
  obtain ⟨dry, w, e, _, hf, _, _⟩ := voiceSample_eq_outStage J c v
  rw [e, ← hf]
  exact ⟨rfl, rfl, rfl, rfl⟩

/-- C13: on every sample the cutoff handed to the left and to the right filter is
`clamp (cutoff_base * 2^(fAmt * (env - 0.5)), 20, 20000)`, where `env` is the output of the
filter envelope for that sample; it lies in `[20, 20000]`; and when `2^0 = 1`, for
`env = 0.5` or `fAmt = 0` and `cutoff_base` in `[20, 20000]` it is `cutoff_base`. -/
theorem filter_cutoff_modulation (J : Lib α) (c : BlockConsts α) (v : SynthVoice α) :
    (voiceSample J c v).2.filterL.cutoffFrequency
        = jlimit 20 20000 (c.cutoff * J.pow2 (c.fAmt * (v.filtEnv.getNextSample.1 - 1 / 2)))
    ∧ (voiceSample J c v).2.filterR.cutoffFrequency
        = jlimit 20 20000 (c.cutoff * J.pow2 (c.fAmt * (v.filtEnv.getNextSample.1 - 1 / 2)))
    ∧ (20 ≤ (voiceSample J c v).2.filterL.cutoffFrequency
        ∧ (voiceSample J c v).2.filterL.cutoffFrequency ≤ 20000)
    ∧ (20 ≤ (voiceSample J c v).2.filterR.cutoffFrequency
        ∧ (voiceSample J c v).2.filterR.cutoffFrequency ≤ 20000)
    ∧ (J.pow2 0 = 1 → 20 ≤ c.cutoff → c.cutoff ≤ 20000 →
        (v.filtEnv.getNextSample.1 = 1 / 2 ∨ c.fAmt = 0) →
        (voiceSample J c v).2.filterL.cutoffFrequency = c.cutoff
          ∧ (voiceSample J c v).2.filterR.cutoffFrequency = c.cutoff) := by
  obtain ⟨hl, hr, _, _⟩ := voiceSample_filter_settings J c v
  have h : (20 : α) ≤ 20000 := by norm_num
  refine ⟨hl, hr, ?_, ?_, ?_⟩
  · rw [hl]; exact ⟨jlimit_ge _ h, jlimit_le _ h⟩
  · rw [hr]; exact ⟨jlimit_ge _ h, jlimit_le _ h⟩
  · intro hp h0 h1 hz
    have hz' : c.fAmt * (v.filtEnv.getNextSample.1 - 1 / 2) = 0 := by
      rcases hz with hz | hz
      · rw [hz, sub_self, mul_zero]
      · rw [hz, zero_mul]
    rw [hl, hr, hz', hp, mul_one, jlimit_of_mem h0 h1]
    exact ⟨rfl, rfl⟩

/-- C14: for every value `q` of the resonance parameter, that is for every value of its
declared range `[0.1, 10]`, the Q handed to both filters on each sample is `q` clamped to the
range from 0.1 to 10, which is `q` itself; it is never below 0.1 and never above 10.  The
block constant `q` is the parameter, `setResonance (q)` stores it in both filters on every
sample, and the sample leaves it there. -/
theorem filter_resonance_clamped (J : Lib α) (P : Params α) (v w : SynthVoice α)
    (h : P.resonanceInRange) :
    (blockConsts J P w).q = P.resonance
    ∧ (voiceSample J (blockConsts J P w) v).2.filterL.resonance = jlimit (1 / 10) 10 P.resonance
    ∧ (voiceSample J (blockConsts J P w) v).2.filterR.resonance = jlimit (1 / 10) 10 P.resonance
    ∧ jlimit (1 / 10) 10 P.resonance = P.resonance
    ∧ 1 / 10 ≤ (voiceSample J (blockConsts J P w) v).2.filterL.resonance
    ∧ (voiceSample J (blockConsts J P w) v).2.filterL.resonance ≤ 10
    ∧ 1 / 10 ≤ (voiceSample J (blockConsts J P w) v).2.filterR.resonance
    ∧ (voiceSample J (blockConsts J P w) v).2.filterR.resonance ≤ 10 := by
  obtain ⟨_, _, hl, hr⟩ := voiceSample_filter_settings J (blockConsts J P w) v
  have hq : (blockConsts J P w).q = P.resonance := rfl
  have hj : jlimit (1 / 10) 10 P.resonance = P.resonance := jlimit_of_mem h.1 h.2
  rw [hl, hr, hq, hj]
  exact ⟨rfl, rfl, rfl, rfl, h.1, h.2, h.1, h.2⟩

end OutStage

end SynthVoice

/-- Witness of C13: the playing voice under the default parameters (`fAmt = 0`, cutoff
12000 Hz). -/
theorem filter_cutoff_modulation_witness :
    refLib.pow2 0 = 1 ∧ (20 : ℚ) ≤ defaultConsts.cutoff ∧ defaultConsts.cutoff ≤ 20000
      ∧ defaultConsts.fAmt = 0
      ∧ (SynthVoice.voiceSample refLib defaultConsts playingVoice).2.filterL.cutoffFrequency
          = defaultConsts.cutoff
      ∧ (SynthVoice.voiceSample refLib defaultConsts playingVoice).2.filterR.cutoffFrequency
          = defaultConsts.cutoff := by
  have hp : refLib.pow2 0 = 1 := by norm_num [refLib, pow2Q]
  have h0 : (20 : ℚ) ≤ defaultConsts.cutoff := by
    norm_num [defaultConsts, SynthVoice.blockConsts, defaultParams]
  have h1 : defaultConsts.cutoff ≤ 20000 := by
    norm_num [defaultConsts, SynthVoice.blockConsts, defaultParams]
  have hz : defaultConsts.fAmt = 0 := rfl
  exact ⟨hp, h0, h1, hz,
    (SynthVoice.filter_cutoff_modulation refLib defaultConsts playingVoice).2.2.2.2 hp h0 h1
      (Or.inr hz)⟩

/-- Witness of C14: the default resonance 0.7 lies in the declared range. -/
theorem filter_resonance_clamped_witness :
    defaultParams.resonanceInRange
      ∧ (SynthVoice.voiceSample refLib (SynthVoice.blockConsts refLib defaultParams playingVoice)
          playingVoice).2.filterL.resonance = jlimit (1 / 10) 10 defaultParams.resonance
      ∧ (SynthVoice.voiceSample refLib (SynthVoice.blockConsts refLib defaultParams playingVoice)
          playingVoice).2.filterR.resonance = jlimit (1 / 10) 10 defaultParams.resonance := by
  have h : defaultParams.resonanceInRange := by
    constructor
    · show (1 / 10 : ℚ) ≤ 7 / 10
      norm_num
    · show (7 / 10 : ℚ) ≤ 10
      norm_num
  exact ⟨h,
    (SynthVoice.filter_resonance_clamped refLib defaultParams playingVoice playingVoice h).2.1,
    (SynthVoice.filter_resonance_clamped refLib defaultParams playingVoice playingVoice
      h).2.2.1⟩

end MiniSynth

namespace MiniSynth

namespace SynthVoice

section LfoRouting

variable {α : Type} [LinearOrderedField α]

theorem lfoAmp_eq (c : BlockConsts α) (l1 l2 amp : α) :
    lfoAmp c l1 l2 amp
      = amp * (if c.lfo1Tg = 2 then jlimit 0 2 (1 + c.lfo1Dp * (1 / 2) * l1) else 1)
          * (if c.lfo2Tg = 2 then jlimit 0 2 (1 + c.lfo2Dp * (1 / 2) * l2) else 1) := by
  unfold lfoAmp
  split_ifs <;> simp

theorem ampFactor_bounds (d l : α) (hd0 : 0 ≤ d) (hd1 : d ≤ 1) (hl0 : -1 ≤ l) (hl1 : l ≤ 1) :
    jlimit 0 2 (1 + d * (1 / 2) * l) = 1 + d * (1 / 2) * l
      ∧ 1 / 2 ≤ 1 + d * (1 / 2) * l ∧ 1 + d * (1 / 2) * l ≤ 3 / 2 := by
  have h1 : -1 ≤ d * l := by nlinarith
  have h2 : d * l ≤ 1 := by nlinarith
  have e : d * (1 / 2) * l = d * l / 2 := by ring
  rw [e]
  refine ⟨jlimit_of_mem (by linarith) (by linarith), by linarith, by linarith⟩

/-- C20: when the target of an LFO is Amp (index 2) the amplitude-envelope value of the sample
is multiplied by `clamp (1 + depth * 0.5 * lfoValue, 0, 2)`, once per LFO with that target
(the factors of the two LFOs compound); for a depth in `[0, 1]` and an LFO value in `[-1, 1]`
the factor is `1 + depth * 0.5 * lfoValue`, in `[0.5, 1.5]`; and the resulting amp is not
negative when the envelope output is not. -/
theorem lfo_amp_modulation (J : Lib α) (c : BlockConsts α) (m : Mods α) (dry : α)
    (v : SynthVoice α) (l1 l2 amp : α) :
    lfoAmp c l1 l2 amp
      = amp * (if c.lfo1Tg = 2 then jlimit 0 2 (1 + c.lfo1Dp * (1 / 2) * l1) else 1)
          * (if c.lfo2Tg = 2 then jlimit 0 2 (1 + c.lfo2Dp * (1 / 2) * l2) else 1)
    ∧ (∀ d l : α, 0 ≤ d → d ≤ 1 → -1 ≤ l → l ≤ 1 →
        jlimit 0 2 (1 + d * (1 / 2) * l) = 1 + d * (1 / 2) * l
          ∧ 1 / 2 ≤ jlimit 0 2 (1 + d * (1 / 2) * l)
          ∧ jlimit 0 2 (1 + d * (1 / 2) * l) ≤ 3 / 2)
    ∧ (0 ≤ amp → 0 ≤ lfoAmp c l1 l2 amp)
    ∧ (outStage J c m dry v).1
        = ((((v.filterL.setCutoffFrequency (jlimit 20 20000
              (c.cutoff * J.pow2 (c.fAmt * (v.filtEnv.getNextSample.1 - 1 / 2))))).setResonance
              c.q).processSample J 0 dry).1
            * lfoAmp c m.lfo1v m.lfo2v v.ampEnv.getNextSample.1
            * (1 / 2 - 1 / 2 * c.spread) * c.gLin,
           (((v.filterR.setCutoffFrequency (jlimit 20 20000
              (c.cutoff * J.pow2 (c.fAmt * (v.filtEnv.getNextSample.1 - 1 / 2))))).setResonance
              c.q).processSample J 1 dry).1
            * lfoAmp c m.lfo1v m.lfo2v v.ampEnv.getNextSample.1
            * (1 / 2 + 1 / 2 * c.spread) * c.gLin) := by
  refine ⟨lfoAmp_eq c l1 l2 amp, ?_, ?_, rfl⟩
  · intro d l hd0 hd1 hl0 hl1
    obtain ⟨e, a, b⟩ := ampFactor_bounds d l hd0 hd1 hl0 hl1
    rw [e]
    exact ⟨rfl, a, b⟩
  · intro ha
    rw [lfoAmp_eq]
    have h2 : (0 : α) ≤ 2 := by norm_num
    have f1 : 0 ≤ (if c.lfo1Tg = 2 then jlimit 0 2 (1 + c.lfo1Dp * (1 / 2) * l1) else 1) := by
      split_ifs
      · exact jlimit_ge _ h2
      · exact zero_le_one
    have f2 : 0 ≤ (if c.lfo2Tg = 2 then jlimit 0 2 (1 + c.lfo2Dp * (1 / 2) * l2) else 1) := by
      split_ifs
      · exact jlimit_ge _ h2
      · exact zero_le_one
    exact mul_nonneg (mul_nonneg ha f1) f2

theorem lfoPitch_eq (J : Lib α) (c : BlockConsts α) (l1 l2 f : α) :
    lfoPitch J c l1 l2 f
      = f * (if c.lfo1Tg = 1 then J.pow2 (1 / 10 * c.lfo1Dp * l1) else 1)
          * (if c.lfo2Tg = 1 then J.pow2 (5 / 100 * c.lfo2Dp * l2) else 1) := by
  unfold lfoPitch
  split_ifs <;> simp

/-- C15, amended: when the target of an LFO is Pitch (index 1), each of the three
main-oscillator frequencies of the sample is multiplied by `2^(depthScale * depth * lfoValue)`
(the exponent is not divided by 12), with `depthScale` 0.1 for LFO 1 and 0.05 for LFO 2; the
unison companions are given the frequency of their slot, factor included, times their detune
factor; when the target is not Pitch the frequency is not multiplied. -/
theorem lfo_pitch_modulation (J : Lib α) (c : BlockConsts α) (v : SynthVoice α) (m : Mods α)
    (s : α × α × α) (det : α) :
    mainFreq J c v m det
      = v.baseFreqHz * c.bendRatio * J.pow2 (det / 12)
          * (if c.lfo1Tg = 1 then J.pow2 (1 / 10 * c.lfo1Dp * m.lfo1v) else 1)
          * (if c.lfo2Tg = 1 then J.pow2 (5 / 100 * c.lfo2Dp * m.lfo2v) else 1)
    ∧ (c.lfo1Tg ≠ 1 → c.lfo2Tg ≠ 1 →
        mainFreq J c v m det = v.baseFreqHz * c.bendRatio * J.pow2 (det / 12))
    ∧ (mainStage J c m v).1
        = ((slot1Main J c (mainFreq J c v m c.det1) m.pw1 v).1,
           (slot2Main J c (mainFreq J c v m c.det2) m.pw2
              (slot1Main J c (mainFreq J c v m c.det1) m.pw1 v).2).1,
           (slot3Main J c (mainFreq J c v m c.det3) m.pw3
              (slot2Main J c (mainFreq J c v m c.det2) m.pw2
                (slot1Main J c (mainFreq J c v m c.det1) m.pw1 v).2).2).1)
    ∧ (c.uniOn = true →
        (unisonStage J c m s v).1.1
          = 1 / 2 * (s.1 + (slot1Uni J c
              (v.baseFreqHz * c.bendRatio * J.pow2 (c.det1 / 12)
                * (if c.lfo1Tg = 1 then J.pow2 (1 / 10 * c.lfo1Dp * m.lfo1v) else 1)
                * (if c.lfo2Tg = 1 then J.pow2 (5 / 100 * c.lfo2Dp * m.lfo2v) else 1)
                * J.pow2 (c.uniDet / 1200)) m.pw1 v).1)) := by
  have e : ∀ d, mainFreq J c v m d
      = v.baseFreqHz * c.bendRatio * J.pow2 (d / 12)
          * (if c.lfo1Tg = 1 then J.pow2 (1 / 10 * c.lfo1Dp * m.lfo1v) else 1)
          * (if c.lfo2Tg = 1 then J.pow2 (5 / 100 * c.lfo2Dp * m.lfo2v) else 1) := by
    intro d; unfold mainFreq; rw [lfoPitch_eq]
  refine ⟨e det, ?_, rfl, ?_⟩
  · intro h1 h2
    rw [e, if_neg h1, if_neg h2, mul_one, mul_one]
  · intro hu
    rw [← e]
    unfold unisonStage
    rw [if_pos hu]

end LfoRouting

end SynthVoice

/-- Witness of C20: depth 1 and LFO value -1 give the factor 0.5. -/
theorem lfo_amp_modulation_witness :
    (0 : ℚ) ≤ 1 ∧ (1 : ℚ) ≤ 1 ∧ (-1 : ℚ) ≤ -1 ∧ (-1 : ℚ) ≤ 1
      ∧ jlimit (0 : ℚ) 2 (1 + 1 * (1 / 2) * (-1)) = 1 + 1 * (1 / 2) * (-1)
      ∧ (1 / 2 : ℚ) ≤ jlimit 0 2 (1 + 1 * (1 / 2) * (-1))
      ∧ jlimit (0 : ℚ) 2 (1 + 1 * (1 / 2) * (-1)) ≤ 3 / 2 :=
  ⟨by norm_num, by norm_num, by norm_num, by norm_num,
    (SynthVoice.lfo_amp_modulation refLib (lfoConsts 2 1 0 0) ⟨-1, 0, 1 / 2, 1 / 2, 1 / 2⟩ 0
      playingVoice (-1) 0 1).2.1 1 (-1) (by norm_num) (by norm_num) (by norm_num)
      (by norm_num)⟩

/-- C15 as stated fails: with LFO 1 routed to the pitch at depth 1 and an LFO value of -1,
the frequency of main oscillator 1 of the playing voice (440 Hz before the modulation) is
`440 * 2^(-0.1)` (418 with the piecewise linear power of `refLib`), not
`440 * 2^(-0.1 / 12)`. -/
theorem lfo_pitch_not_divided_by_twelve :
    (SynthVoice.modStage refLib vibratoConsts playingVoice).1.lfo1v = -1
      ∧ vibratoConsts.lfo1Tg = 1 ∧ vibratoConsts.lfo1Dp = 1
      ∧ playingVoice.baseFreqHz * vibratoConsts.bendRatio
          * refLib.pow2 (vibratoConsts.det1 / 12) = 440
      ∧ SynthVoice.mainFreq refLib vibratoConsts playingVoice
          (SynthVoice.modStage refLib vibratoConsts playingVoice).1 vibratoConsts.det1
          = 440 * refLib.pow2 (1 / 10 * 1 * (-1))
      ∧ ¬ (SynthVoice.mainFreq refLib vibratoConsts playingVoice
            (SynthVoice.modStage refLib vibratoConsts playingVoice).1 vibratoConsts.det1
            = 440 * refLib.pow2 (1 / 10 * 1 * (-1) / 12)) := by
  have hl : (SynthVoice.modStage refLib vibratoConsts playingVoice).1.lfo1v = -1 := by
    simp [SynthVoice.modStage, Oscillator.processSample, refLib, playingVoice, preparedVoice,
      SynthVoice.startVoice, SynthVoice.startNote, SynthVoice.prepare,
      SynthVoice.updateStaticParams, Oscillator.prepare]
  have ht : vibratoConsts.lfo1Tg = 1 := by
    simp [vibratoConsts, SynthVoice.blockConsts, vibratoParams, refLib]
  have ht2 : vibratoConsts.lfo2Tg = 0 := by
    simp [vibratoConsts, SynthVoice.blockConsts, vibratoParams, refLib, defaultParams]
  have hd : vibratoConsts.lfo1Dp = 1 := rfl
  have hb : playingVoice.baseFreqHz * vibratoConsts.bendRatio
      * refLib.pow2 (vibratoConsts.det1 / 12) = 440 := by
    simp [vibratoConsts, SynthVoice.blockConsts, vibratoParams, refLib, defaultParams,
      playingVoice, preparedVoice, SynthVoice.startVoice, SynthVoice.startNote,
      SynthVoice.prepare, SynthVoice.updateStaticParams, SynthVoice.noteHz, pow2Q]
  have hm : SynthVoice.mainFreq refLib vibratoConsts playingVoice
      (SynthVoice.modStage refLib vibratoConsts playingVoice).1 vibratoConsts.det1
      = 440 * refLib.pow2 (1 / 10 * 1 * (-1)) := by
    unfold SynthVoice.mainFreq
    rw [SynthVoice.lfoPitch_eq, hb, hl, ht, ht2, hd]
    simp
  refine ⟨hl, ht, hd, hb, hm, ?_⟩
  rw [hm]
  have e1 : refLib.pow2 (1 / 10 * 1 * (-1)) = 19 / 20 := by
    have f1 : ⌊(-1 / 10 : ℚ)⌋ = -1 := by
      rw [Int.floor_eq_iff]; norm_num
    have f2 : Int.fract (-1 / 10 : ℚ) = 9 / 10 := by
      rw [Int.fract, f1]; norm_num
    show pow2Q (1 / 10 * 1 * (-1)) = 19 / 20
    have e : (1 / 10 * 1 * (-1) : ℚ) = -1 / 10 := by norm_num
    rw [e, pow2Q, f1, f2]; norm_num
  have e2 : refLib.pow2 (1 / 10 * 1 * (-1) / 12) = 239 / 240 := by
    have f1 : ⌊(-1 / 120 : ℚ)⌋ = -1 := by
      rw [Int.floor_eq_iff]; norm_num
    have f2 : Int.fract (-1 / 120 : ℚ) = 119 / 120 := by
      rw [Int.fract, f1]; norm_num
    show pow2Q (1 / 10 * 1 * (-1) / 12) = 239 / 240
    have e : (1 / 10 * 1 * (-1) / 12 : ℚ) = -1 / 120 := by norm_num
    rw [e, pow2Q, f1, f2]; norm_num
  rw [e1, e2]
  norm_num

/-- Witness of C15: under the default parameters no LFO is routed to the pitch. -/
theorem lfo_pitch_modulation_witness :
    defaultConsts.lfo1Tg ≠ 1 ∧ defaultConsts.lfo2Tg ≠ 1
      ∧ SynthVoice.mainFreq refLib defaultConsts playingVoice ⟨-1, -1, 1 / 2, 1 / 2, 1 / 2⟩ 7
          = playingVoice.baseFreqHz * defaultConsts.bendRatio * refLib.pow2 (7 / 12) := by
  have h1 : defaultConsts.lfo1Tg ≠ 1 := by
    simp [defaultConsts, SynthVoice.blockConsts, refLib, defaultParams]
  have h2 : defaultConsts.lfo2Tg ≠ 1 := by
    simp [defaultConsts, SynthVoice.blockConsts, refLib, defaultParams]
  exact ⟨h1, h2,
    (SynthVoice.lfo_pitch_modulation refLib defaultConsts playingVoice
      ⟨-1, -1, 1 / 2, 1 / 2, 1 / 2⟩ (0, 0, 0) 7).2.1 h1 h2⟩

end MiniSynth

namespace MiniSynth

/-- C16: with the real power function, for the same depth `d` and the same LFO value `l` the
frequency factor applied by LFO 1 (target Pitch) is `2^(0.1 * d * l)`, the one applied by
LFO 2 is `2^(0.05 * d * l)`, the first is the square of the second, and its logarithm in
base 2 is twice the logarithm of the second. -/
theorem lfo1_pitch_twice_lfo2 (J : Lib ℝ) (hJ : ∀ x, J.pow2 x = (2 : ℝ) ^ x)
    (c1 c2 : SynthVoice.BlockConsts ℝ) (d l w f : ℝ)
    (h11 : c1.lfo1Tg = 1) (h12 : c1.lfo2Tg ≠ 1) (h1d : c1.lfo1Dp = d)
    (h21 : c2.lfo1Tg ≠ 1) (h22 : c2.lfo2Tg = 1) (h2d : c2.lfo2Dp = d) :
    SynthVoice.lfoPitch J c1 l w f = f * J.pow2 (1 / 10 * d * l)
    ∧ SynthVoice.lfoPitch J c2 w l f = f * J.pow2 (5 / 100 * d * l)
    ∧ J.pow2 (1 / 10 * d * l) = J.pow2 (5 / 100 * d * l) ^ 2
    ∧ Real.logb 2 (J.pow2 (1 / 10 * d * l)) = 2 * Real.logb 2 (J.pow2 (5 / 100 * d * l)) := by
  have h2 : (0 : ℝ) < 2 := by norm_num
  refine ⟨?_, ?_, ?_, ?_⟩
  · rw [SynthVoice.lfoPitch_eq, if_pos h11, if_neg h12, h1d, mul_one]
  · rw [SynthVoice.lfoPitch_eq, if_neg h21, if_pos h22, h2d, mul_one]
  · rw [hJ, hJ, sq, ← Real.rpow_add h2]
    congr 1; ring
  · rw [hJ, hJ, Real.logb_rpow h2 (by norm_num), Real.logb_rpow h2 (by norm_num)]
    ring

/-- Witness of C16: depth 1 and LFO value 1, with the real power function. -/
theorem lfo1_pitch_twice_lfo2_witness :
    (∀ x, (libOfPow2 (fun x : ℝ => (2 : ℝ) ^ x)).pow2 x = (2 : ℝ) ^ x)
      ∧ (lfoConsts 1 (1 : ℝ) 0 0).lfo1Tg = 1 ∧ (lfoConsts 1 (1 : ℝ) 0 0).lfo2Tg ≠ 1
      ∧ (lfoConsts 0 (0 : ℝ) 1 1).lfo1Tg ≠ 1 ∧ (lfoConsts 0 (0 : ℝ) 1 1).lfo2Tg = 1
      ∧ (libOfPow2 (fun x : ℝ => (2 : ℝ) ^ x)).pow2 (1 / 10 * 1 * 1)
          = (libOfPow2 (fun x : ℝ => (2 : ℝ) ^ x)).pow2 (5 / 100 * 1 * 1) ^ 2 :=
  ⟨fun _ => rfl, rfl, by decide, by decide, rfl,
    (lfo1_pitch_twice_lfo2 (libOfPow2 (fun x : ℝ => (2 : ℝ) ^ x)) (fun _ => rfl)
      (lfoConsts 1 1 0 0) (lfoConsts 0 0 1 1) 1 1 0 440 rfl (by decide) rfl (by decide) rfl
      rfl).2.2.1⟩

end MiniSynth

namespace MiniSynth

namespace SynthVoice

section Dispatch

variable {α : Type} [LinearOrderedField α]

theorem oscSample_sinusoid (J : Lib α) (wave : Int) (freq pw : α) (r : OscRefs α)
    (h0 : wave ≠ 0) (h1 : wave ≠ 1) (h5 : wave ≠ 5) (h2 : wave ≠ 2) (h3 : wave ≠ 3)
    (h4 : wave ≠ 4) (h6 : wave ≠ 6) (h7 : wave ≠ 7) :
    oscSample J wave freq pw r
      = (((r.sinGen.setFrequency freq).processSample J Generator.sineTable).1,
         { r with sinGen := ((r.sinGen.setFrequency freq).processSample J
            Generator.sineTable).2 }) := by
  unfold oscSample
  rw [if_neg h0, if_neg h1, if_neg h5, if_neg h2, if_neg h3, if_neg h4, if_neg h6, if_neg h7]

theorem oscSample_seven (J : Lib α) (freq pw : α) (r : OscRefs α) :
    oscSample J 7 freq pw r
      = (jlimit (-1) 1
          (((r.sinGen.setFrequency freq).processSample J Generator.sineTable).1 * (1 / 2)
            + 1 / 2),
         { r with sinGen := ((r.sinGen.setFrequency freq).processSample J
            Generator.sineTable).2 }) := by
  simp [oscSample]

/-- C18: the dispatch of `oscSample` on the waveform selector.  With `x` the value produced by
the sinusoid generator of the slot: selector 0 yields `x`; 1 the sample of the PolyBLEP
oscillator in `SawUp` mode; 2 the sample of the pulse oscillator at the pulse width handed in;
3 yields `(2 / pi) * asin x`; 4 a white-noise draw of the noise bus of the voice; 5 the sample
of the PolyBLEP oscillator in `SawDown` mode; 6 yields `tanh (2 * x)`; a selector outside
`0..7` yields `x`; in each case only the object that produced the sample is modified. -/
theorem waveform_dispatch (J : Lib α) (freq pw : α) (r : OscRefs α) :
    oscSample J 0 freq pw r
        = (((r.sinGen.setFrequency freq).processSample J Generator.sineTable).1,
           { r with sinGen := ((r.sinGen.setFrequency freq).processSample J
              Generator.sineTable).2 })
    ∧ oscSample J 1 freq pw r
        = ((((r.blep.setMode Mode.SawUp).setFrequency freq).processSample).1,
           { r with blep := (((r.blep.setMode Mode.SawUp).setFrequency freq).processSample).2 })
    ∧ oscSample J 2 freq pw r
        = ((((r.pulse.setFrequency freq).setPulseWidth pw).processSample J.tanh).1,
           { r with pulse :=
              (((r.pulse.setFrequency freq).setPulseWidth pw).processSample J.tanh).2 })
    ∧ oscSample J 3 freq pw r
        = (2 / J.pi
            * J.asin ((r.sinGen.setFrequency freq).processSample J Generator.sineTable).1,
           { r with sinGen := ((r.sinGen.setFrequency freq).processSample J
              Generator.sineTable).2 })
    ∧ oscSample J 4 freq pw r = ((r.noise.white J).1, { r with noise := (r.noise.white J).2 })
    ∧ oscSample J 5 freq pw r
        = ((((r.blep.setMode Mode.SawDown).setFrequency freq).processSample).1,
           { r with blep :=
              (((r.blep.setMode Mode.SawDown).setFrequency freq).processSample).2 })
    ∧ oscSample J 6 freq pw r
        = (J.tanh (2 * ((r.sinGen.setFrequency freq).processSample J Generator.sineTable).1),
           { r with sinGen := ((r.sinGen.setFrequency freq).processSample J
              Generator.sineTable).2 })
    ∧ (∀ wave : Int, (wave < 0 ∨ 7 < wave) →
        oscSample J wave freq pw r
          = (((r.sinGen.setFrequency freq).processSample J Generator.sineTable).1,
             { r with sinGen := ((r.sinGen.setFrequency freq).processSample J
                Generator.sineTable).2 })) := by
  refine ⟨by simp [oscSample], by simp [oscSample], by simp [oscSample], by simp [oscSample],
    by simp [oscSample], by simp [oscSample], by simp [oscSample], ?_⟩
  intro wave hw
  apply oscSample_sinusoid <;> omega

/-- C19, amended: for waveform selector 7 the sample is `clamp (0.5 * x + 0.5, -1, 1)` for
the value `x` of the sinusoid generator: the sinusoid is scaled and shifted, not rectified.
For every `x` in `[-1, 1]` that is `0.5 * x + 0.5`, in `[0, 1]`: 0 at `x = -1`, 0.5 at
`x = 0` and 1 at `x = 1`. -/
theorem half_sine_is_shifted_sine (J : Lib α) (freq pw : α) (r : OscRefs α) :
    (oscSample J 7 freq pw r).1
        = jlimit (-1) 1
            (((r.sinGen.setFrequency freq).processSample J Generator.sineTable).1 * (1 / 2)
              + 1 / 2)
    ∧ (∀ x : α, -1 ≤ x → x ≤ 1 →
        jlimit (-1) 1 (x * (1 / 2) + 1 / 2) = x * (1 / 2) + 1 / 2
          ∧ 0 ≤ jlimit (-1) 1 (x * (1 / 2) + 1 / 2)
          ∧ jlimit (-1) 1 (x * (1 / 2) + 1 / 2) ≤ 1)
    ∧ jlimit (-1 : α) 1 (-1 * (1 / 2) + 1 / 2) = 0
    ∧ jlimit (-1 : α) 1 (0 * (1 / 2) + 1 / 2) = 1 / 2
    ∧ jlimit (-1 : α) 1 (1 * (1 / 2) + 1 / 2) = 1 := by
  have key : ∀ x : α, -1 ≤ x → x ≤ 1 →
      jlimit (-1) 1 (x * (1 / 2) + 1 / 2) = x * (1 / 2) + 1 / 2 := by
    intro x h0 h1
    exact jlimit_of_mem (by linarith) (by linarith)
  refine ⟨by rw [oscSample_seven], ?_, ?_, ?_, ?_⟩
  · intro x h0 h1
    rw [key x h0 h1]
    exact ⟨rfl, by linarith, by linarith⟩
  · rw [key (-1) (le_refl _) (by norm_num)]; norm_num
  · rw [key 0 (by norm_num) (by norm_num)]; norm_num
  · rw [key 1 (by norm_num) (le_refl _)]; norm_num

end Dispatch

end SynthVoice

/-- Witness of C18: selector 9 on a slot prepared at 44100 Hz. -/
theorem waveform_dispatch_witness :
    ((9 : Int) < 0 ∨ (7 : Int) < 9)
      ∧ SynthVoice.oscSample refLib 9 440 (1 / 2) slotRefs
          = (((slotRefs.sinGen.setFrequency 440).processSample refLib Generator.sineTable).1,
             { slotRefs with sinGen := ((slotRefs.sinGen.setFrequency 440).processSample refLib
                Generator.sineTable).2 }) :=
  ⟨Or.inr (by decide),
    (SynthVoice.waveform_dispatch refLib 440 (1 / 2) slotRefs).2.2.2.2.2.2.2 9
      (Or.inr (by decide))⟩

/-- C19 as stated fails: on a slot whose sinusoid generator produces `x = -1`, selector 7
yields 0, while `clamp (2 * |x| - 1, -1, 1)` is 1. -/
theorem half_sine_not_rectified :
    ((slotRefs.sinGen.setFrequency 440).processSample refLib Generator.sineTable).1 = -1
      ∧ (SynthVoice.oscSample refLib 7 440 (1 / 2) slotRefs).1 = 0
      ∧ jlimit (-1 : ℚ) 1 (2 * |(-1 : ℚ)| - 1) = 1
      ∧ ¬ ((SynthVoice.oscSample refLib 7 440 (1 / 2) slotRefs).1
            = jlimit (-1 : ℚ) 1 (2 * |((slotRefs.sinGen.setFrequency 440).processSample refLib
                Generator.sineTable).1| - 1)) := by
  have hx : ((slotRefs.sinGen.setFrequency 440).processSample refLib Generator.sineTable).1
      = -1 := by
    simp [slotRefs, Oscillator.setFrequency, Oscillator.processSample, refLib]
  have hy : (SynthVoice.oscSample refLib 7 440 (1 / 2) slotRefs).1 = 0 := by
    rw [SynthVoice.oscSample_seven, hx]
    norm_num [jlimit]
  refine ⟨hx, hy, by norm_num [jlimit], ?_⟩
  rw [hy, hx]
  norm_num [jlimit]

/-- Witness of C19: the value `x = 0` of the sinusoid gives 0.5. -/
theorem half_sine_is_shifted_sine_witness :
    (-1 : ℚ) ≤ 0 ∧ (0 : ℚ) ≤ 1
      ∧ jlimit (-1 : ℚ) 1 (0 * (1 / 2) + 1 / 2) = 0 * (1 / 2) + 1 / 2 :=
  ⟨by norm_num, by norm_num,
    ((SynthVoice.half_sine_is_shifted_sine refLib 440 (1 / 2) slotRefs).2.1 0 (by norm_num)
      (by norm_num)).1⟩

end MiniSynth

namespace MiniSynth

namespace SynthVoice

section Unison

variable {α : Type} [LinearOrderedField α]

/-- With unison disabled one sample leaves the nine companion objects as they were. -/
theorem voiceSample_companions (J : Lib α) (c : BlockConsts α) (v : SynthVoice α)
    (hu : c.uniOn = false) :
    ((voiceSample J c v).2.osc1.2 = v.osc1.2 ∧ (voiceSample J c v).2.osc2.2 = v.osc2.2
      ∧ (voiceSample J c v).2.osc3.2 = v.osc3.2)
    ∧ ((voiceSample J c v).2.pulse1.2 = v.pulse1.2 ∧ (voiceSample J c v).2.pulse2.2 = v.pulse2.2
      ∧ (voiceSample J c v).2.pulse3.2 = v.pulse3.2)
    ∧ ((voiceSample J c v).2.blep1.2 = v.blep1.2 ∧ (voiceSample J c v).2.blep2.2 = v.blep2.2
      ∧ (voiceSample J c v).2.blep3.2 = v.blep3.2) := by
  have h1 : ∀ w : SynthVoice α,
      (subStage J c w).2.osc1 = w.osc1 ∧ (subStage J c w).2.osc2 = w.osc2
      ∧ (subStage J c w).2.osc3 = w.osc3 ∧ (subStage J c w).2.pulse1 = w.pulse1
      ∧ (subStage J c w).2.pulse2 = w.pulse2 ∧ (subStage J c w).2.pulse3 = w.pulse3
      ∧ (subStage J c w).2.blep1 = w.blep1 ∧ (subStage J c w).2.blep2 = w.blep2
      ∧ (subStage J c w).2.blep3 = w.blep3 := by
    intro w; unfold subStage; split_ifs <;> exact ⟨rfl, rfl, rfl, rfl, rfl, rfl, rfl, rfl, rfl⟩
  have h2 : ∀ w : SynthVoice α,
      (noiseStage J c w).2.osc1 = w.osc1 ∧ (noiseStage J c w).2.osc2 = w.osc2
      ∧ (noiseStage J c w).2.osc3 = w.osc3 ∧ (noiseStage J c w).2.pulse1 = w.pulse1
      ∧ (noiseStage J c w).2.pulse2 = w.pulse2 ∧ (noiseStage J c w).2.pulse3 = w.pulse3
      ∧ (noiseStage J c w).2.blep1 = w.blep1 ∧ (noiseStage J c w).2.blep2 = w.blep2
      ∧ (noiseStage J c w).2.blep3 = w.blep3 := by
    intro w; unfold noiseStage; split_ifs <;> exact ⟨rfl, rfl, rfl, rfl, rfl, rfl, rfl, rfl, rfl⟩
  have h3 : ∀ (m : Mods α) (s : α × α × α) (w : SynthVoice α),
      unisonStage J c m s w = (s, w) := by
    intro m s w; unfold unisonStage; rw [hu]; rfl
  unfold voiceSample
  simp only [h3]
  obtain ⟨a1, a2, a3, a4, a5, a6, a7, a8, a9⟩ := h2 (subStage J c
    (mainStage J c (modStage J c v).1 (modStage J c v).2).2).2
  obtain ⟨b1, b2, b3, b4, b5, b6, b7, b8, b9⟩ := h1
    (mainStage J c (modStage J c v).1 (modStage J c v).2).2
  refine ⟨⟨?_, ?_, ?_⟩, ⟨?_, ?_, ?_⟩, ⟨?_, ?_, ?_⟩⟩
  · show (noiseStage J c _).2.osc1.2 = _
    rw [a1, b1]; rfl
  · show (noiseStage J c _).2.osc2.2 = _
    rw [a2, b2]; rfl
  · show (noiseStage J c _).2.osc3.2 = _
    rw [a3, b3]; rfl
  · show (noiseStage J c _).2.pulse1.2 = _
    rw [a4, b4]; rfl
  · show (noiseStage J c _).2.pulse2.2 = _
    rw [a5, b5]; rfl
  · show (noiseStage J c _).2.pulse3.2 = _
    rw [a6, b6]; rfl
  · show (noiseStage J c _).2.blep1.2 = _
    rw [a7, b7]; rfl
  · show (noiseStage J c _).2.blep2.2 = _
    rw [a8, b8]; rfl
  · show (noiseStage J c _).2.blep3.2 = _
    rw [a9, b9]; rfl

/-- C17: with unison enabled the sample of each main slot `k` is `0.5 * (main + companion)`:
the main instance (index 0) is run at the slot frequency `f_k`, the companion (index 1) at
`f_k * 2^(+uniDetune / 1200)` for slots 1 and 3 and at `f_k * 2^(-uniDetune / 1200)` for
slot 2; with unison disabled the slot sample is the sample of the main instance and the
companion instances are not advanced. -/
theorem unison_pairs (J : Lib α) (c : BlockConsts α) (m : Mods α) (s : α × α × α)
    (v : SynthVoice α) :
    (mainStage J c m v).1
        = ((slot1Main J c (mainFreq J c v m c.det1) m.pw1 v).1,
           (slot2Main J c (mainFreq J c v m c.det2) m.pw2
              (slot1Main J c (mainFreq J c v m c.det1) m.pw1 v).2).1,
           (slot3Main J c (mainFreq J c v m c.det3) m.pw3
              (slot2Main J c (mainFreq J c v m c.det2) m.pw2
                (slot1Main J c (mainFreq J c v m c.det1) m.pw1 v).2).2).1)
    ∧ (c.uniOn = true →
        (unisonStage J c m s v).1
          = (1 / 2 * (s.1
                + (slot1Uni J c (mainFreq J c v m c.det1 * J.pow2 (c.uniDet / 1200)) m.pw1
                    v).1),
             1 / 2 * (s.2.1
                + (slot2Uni J c (mainFreq J c v m c.det2 * J.pow2 (-c.uniDet / 1200)) m.pw2
                    (slot1Uni J c (mainFreq J c v m c.det1 * J.pow2 (c.uniDet / 1200)) m.pw1
                      v).2).1),
             1 / 2 * (s.2.2
                + (slot3Uni J c (mainFreq J c v m c.det3 * J.pow2 (c.uniDet / 1200)) m.pw3
                    (slot2Uni J c (mainFreq J c v m c.det2 * J.pow2 (-c.uniDet / 1200)) m.pw2
                      (slot1Uni J c (mainFreq J c v m c.det1 * J.pow2 (c.uniDet / 1200)) m.pw1
                        v).2).2).1)))
    ∧ (∀ (f pw : α) (w : SynthVoice α),
        (slot1Main J c f pw w).1
            = (oscSample J c.wave1i f pw ⟨w.pulse1.1, w.blep1.1, w.osc1.1, w.noise⟩).1
        ∧ (slot2Main J c f pw w).1
            = (oscSample J c.wave2i f pw ⟨w.pulse2.1, w.blep2.1, w.osc2.1, w.noise⟩).1
        ∧ (slot3Main J c f pw w).1
            = (oscSample J c.wave3i f pw ⟨w.pulse3.1, w.blep3.1, w.osc3.1, w.noise⟩).1
        ∧ (slot1Uni J c f pw w).1
            = (oscSample J c.wave1i f pw ⟨w.pulse1.2, w.blep1.2, w.osc1.2, w.noise⟩).1
        ∧ (slot2Uni J c f pw w).1
            = (oscSample J c.wave2i f pw ⟨w.pulse2.2, w.blep2.2, w.osc2.2, w.noise⟩).1
        ∧ (slot3Uni J c f pw w).1
            = (oscSample J c.wave3i f pw ⟨w.pulse3.2, w.blep3.2, w.osc3.2, w.noise⟩).1)
    ∧ (c.uniOn = false →
        unisonStage J c m s v = (s, v)
        ∧ ((voiceSample J c v).2.osc1.2 = v.osc1.2 ∧ (voiceSample J c v).2.osc2.2 = v.osc2.2
          ∧ (voiceSample J c v).2.osc3.2 = v.osc3.2)
        ∧ ((voiceSample J c v).2.pulse1.2 = v.pulse1.2
          ∧ (voiceSample J c v).2.pulse2.2 = v.pulse2.2
          ∧ (voiceSample J c v).2.pulse3.2 = v.pulse3.2)
        ∧ ((voiceSample J c v).2.blep1.2 = v.blep1.2
          ∧ (voiceSample J c v).2.blep2.2 = v.blep2.2
          ∧ (voiceSample J c v).2.blep3.2 = v.blep3.2)) := by
  refine ⟨rfl, ?_, ?_, ?_⟩
  · intro hu
    unfold unisonStage
    rw [if_pos hu]
  · intro f pw w
    exact ⟨rfl, rfl, rfl, rfl, rfl, rfl⟩
  · intro hu
    refine ⟨?_, voiceSample_companions J c v hu⟩
    unfold unisonStage
    rw [hu]
    rfl

end Unison

end SynthVoice

/-- Witness of C17: the default parameters enable unison. -/
theorem unison_pairs_witness :
    defaultConsts.uniOn = true
      ∧ (SynthVoice.unisonStage refLib defaultConsts ⟨-1, -1, 1 / 2, 1 / 2, 1 / 2⟩ (0, 0, 0)
          playingVoice).1.1
        = 1 / 2 * (0 + (SynthVoice.slot1Uni refLib defaultConsts
            (SynthVoice.mainFreq refLib defaultConsts playingVoice
              ⟨-1, -1, 1 / 2, 1 / 2, 1 / 2⟩ defaultConsts.det1
              * refLib.pow2 (defaultConsts.uniDet / 1200)) (1 / 2) playingVoice).1) := by
  have hu : defaultConsts.uniOn = true := by
    simp [defaultConsts, SynthVoice.blockConsts, defaultParams]
    norm_num
  exact ⟨hu, congrArg (fun p : ℚ × ℚ × ℚ => p.1)
    ((SynthVoice.unison_pairs refLib defaultConsts ⟨-1, -1, 1 / 2, 1 / 2, 1 / 2⟩ (0, 0, 0)
      playingVoice).2.1 hu)⟩

end MiniSynth

namespace MiniSynth

namespace SynthVoice

section FrequencyClamp

variable {α : Type} [LinearOrderedField α]

theorem clamped_freq_le {sr : α} (f : α) (hsr : 0 < sr) :
    0 ≤ jlimit 0 (sr * (45 / 100)) f ∧ jlimit 0 (sr * (45 / 100)) f ≤ 45 / 100 * sr := by
  have hhi : (0 : α) ≤ sr * (45 / 100) := by positivity
  refine ⟨jlimit_ge f hhi, ?_⟩
  rw [mul_comm (45 / 100 : α) sr]
  exact jlimit_le f hhi

/-- The frequency stored in the object that `oscSample` runs: clamped for the PolyBLEP and
pulse oscillators, as given for the sinusoid generator. -/
theorem oscSample_frequency (J : Lib α) (wave : Int) (freq pw : α) (r : OscRefs α) :
    ((wave = 1 ∨ wave = 5) →
      (oscSample J wave freq pw r).2.blep.freq = jlimit 0 (r.blep.sampleRate * (45 / 100)) freq)
    ∧ (wave = 2 →
      (oscSample J wave freq pw r).2.pulse.freq
        = jlimit 0 (r.pulse.sampleRate * (45 / 100)) freq)
    ∧ (wave ≠ 1 → wave ≠ 5 → wave ≠ 2 → wave ≠ 4 →
      (oscSample J wave freq pw r).2.sinGen.frequency = freq) := by
  refine ⟨?_, ?_, ?_⟩
  · rintro (h | h) <;> subst h <;> simp [oscSample] <;> rfl
  · intro h; subst h; simp [oscSample]; rfl
  · intro h1 h5 h2 h4
    unfold oscSample
    rw [if_neg h1, if_neg h5, if_neg h2, if_neg h4]
    split_ifs <;> rfl

/-- The frequency of the sinusoid generator of main slot 3 after one sample, for a
sinusoid-based waveform. -/
theorem voiceSample_osc3_frequency (J : Lib α) (c : BlockConsts α) (v : SynthVoice α)
    (h1 : c.wave3i ≠ 1) (h5 : c.wave3i ≠ 5) (h2 : c.wave3i ≠ 2) (h4 : c.wave3i ≠ 4) :
    (voiceSample J c v).2.osc3.1.frequency = mainFreq J c v (modStage J c v).1 c.det3 := by
  have a1 : ∀ w : SynthVoice α, (subStage J c w).2.osc3 = w.osc3 := by
    intro w; unfold subStage; split_ifs <;> rfl
  have a2 : ∀ w : SynthVoice α, (noiseStage J c w).2.osc3 = w.osc3 := by
    intro w; unfold noiseStage; split_ifs <;> rfl
  have a3 : ∀ (m : Mods α) (s : α × α × α) (w : SynthVoice α),
      (unisonStage J c m s w).2.osc3.1 = w.osc3.1 := by
    intro m s w; unfold unisonStage; split_ifs <;> rfl
  unfold voiceSample
  show (noiseStage J c _).2.osc3.1.frequency = _
  rw [a2, a1, a3]
  exact (oscSample_frequency J c.wave3i _ _ _).2.2 h1 h5 h2 h4

/-- C11, amended: for the waveform selectors 1 and 5 (PolyBLEP saw) and 2 (pulse), in every
main slot and every unison companion (each of the six calls is a call of `oscSample`), and
for the pulse sub-oscillator, the frequency in effect inside the primitive is the requested
frequency clamped to `[0, 0.45 * sampleRate]`, hence at most `0.45 * sampleRate`; for every
other selector except 4 (noise), and for the sine and triangle sub-oscillators, the sinusoid
generator of the library is given the frequency as computed, without a clamp. -/
theorem primitive_frequency (J : Lib α) (wave : Int) (freq pw : α) (r : OscRefs α)
    (c : BlockConsts α) (v : SynthVoice α)
    (hb : 0 < r.blep.sampleRate) (hp : 0 < r.pulse.sampleRate)
    (hs : 0 < v.subPulse.sampleRate) :
    ((wave = 1 ∨ wave = 5) →
      (oscSample J wave freq pw r).2.blep.freq = jlimit 0 (r.blep.sampleRate * (45 / 100)) freq
      ∧ 0 ≤ (oscSample J wave freq pw r).2.blep.freq
      ∧ (oscSample J wave freq pw r).2.blep.freq ≤ 45 / 100 * r.blep.sampleRate)
    ∧ (wave = 2 →
      (oscSample J wave freq pw r).2.pulse.freq
        = jlimit 0 (r.pulse.sampleRate * (45 / 100)) freq
      ∧ 0 ≤ (oscSample J wave freq pw r).2.pulse.freq
      ∧ (oscSample J wave freq pw r).2.pulse.freq ≤ 45 / 100 * r.pulse.sampleRate)
    ∧ (wave ≠ 1 → wave ≠ 5 → wave ≠ 2 → wave ≠ 4 →
      (oscSample J wave freq pw r).2.sinGen.frequency = freq)
    ∧ (c.subOn = true → c.subWave = 1 →
      (subStage J c v).2.subPulse.freq
        = jlimit 0 (v.subPulse.sampleRate * (45 / 100))
            (v.baseFreqHz * (if c.subOct = 0 then 1 / 2 else 1 / 4))
      ∧ (subStage J c v).2.subPulse.freq ≤ 45 / 100 * v.subPulse.sampleRate)
    ∧ (c.subOn = true → c.subWave = 0 →
      (subStage J c v).2.subSine.frequency
        = v.baseFreqHz * (if c.subOct = 0 then 1 / 2 else 1 / 4))
    ∧ (c.subOn = true → c.subWave ≠ 0 → c.subWave ≠ 1 →
      (subStage J c v).2.subTri.frequency
        = v.baseFreqHz * (if c.subOct = 0 then 1 / 2 else 1 / 4)) := by
  obtain ⟨f1, f2, f3⟩ := oscSample_frequency J wave freq pw r
  refine ⟨?_, ?_, f3, ?_, ?_, ?_⟩
  · intro h
    rw [f1 h]
    exact ⟨rfl, (clamped_freq_le freq hb).1, (clamped_freq_le freq hb).2⟩
  · intro h
    rw [f2 h]
    exact ⟨rfl, (clamped_freq_le freq hp).1, (clamped_freq_le freq hp).2⟩
  · intro ho hw
    have hw0 : c.subWave ≠ 0 := by rw [hw]; decide
    have e : (subStage J c v).2.subPulse.freq
        = jlimit 0 (v.subPulse.sampleRate * (45 / 100))
            (v.baseFreqHz * (if c.subOct = 0 then 1 / 2 else 1 / 4)) := by
      unfold subStage
      rw [if_pos ho, if_neg hw0, if_pos hw]
      rfl
    rw [e]
    exact ⟨rfl, (clamped_freq_le _ hs).2⟩
  · intro ho hw
    unfold subStage
    rw [if_pos ho, if_pos hw]
    rfl
  · intro ho hw0 hw1
    unfold subStage
    rw [if_pos ho, if_neg hw0, if_neg hw1]
    rfl

end FrequencyClamp

end SynthVoice

theorem pow2Q_natCast (n : Nat) : pow2Q (n : ℚ) = 2 ^ n := by
  unfold pow2Q
  rw [Int.floor_natCast, Int.fract_natCast]
  simp

/-- C11 as stated fails: note 117 (7040 Hz) with oscillator 3 (a sine) detuned by +24
semitones runs the sinusoid generator of slot 3 at 28160 Hz, above `0.45 * 44100 = 19845`. -/
theorem sine_frequency_not_clamped :
    highNoteConsts.wave3i = 0
      ∧ highNoteVoice.osc3.1.sampleRate = 44100
      ∧ (SynthVoice.voiceSample refLib highNoteConsts highNoteVoice).2.osc3.1.frequency = 28160
      ∧ ¬ ((SynthVoice.voiceSample refLib highNoteConsts highNoteVoice).2.osc3.1.frequency
            ≤ 45 / 100 * highNoteVoice.osc3.1.sampleRate) := by
  have hw : highNoteConsts.wave3i = 0 := by
    simp [highNoteConsts, SynthVoice.blockConsts, highNoteParams, defaultParams, refLib]
  have hsr : highNoteVoice.osc3.1.sampleRate = 44100 := rfl
  have ht1 : highNoteConsts.lfo1Tg = 0 := by
    simp [highNoteConsts, SynthVoice.blockConsts, highNoteParams, defaultParams, refLib]
  have ht2 : highNoteConsts.lfo2Tg = 0 := by
    simp [highNoteConsts, SynthVoice.blockConsts, highNoteParams, defaultParams, refLib]
  have hbase : highNoteVoice.baseFreqHz = 7040 := by
    show (440 : ℚ) * pow2Q (((117 - 69 : Int) : ℚ) / 12) = 7040
    have e : (((117 - 69 : Int) : ℚ) / 12) = ((4 : Nat) : ℚ) := by norm_num
    rw [e, pow2Q_natCast]; norm_num
  have hbend : highNoteConsts.bendRatio = 1 := by
    show pow2Q ((0 : ℚ) / 12) = 1
    have e : ((0 : ℚ) / 12) = ((0 : Nat) : ℚ) := by norm_num
    rw [e, pow2Q_natCast]; norm_num
  have hdet : refLib.pow2 (highNoteConsts.det3 / 12) = 4 := by
    show pow2Q ((24 : ℚ) / 12) = 4
    have e : ((24 : ℚ) / 12) = ((2 : Nat) : ℚ) := by norm_num
    rw [e, pow2Q_natCast]; norm_num
  have hf : (SynthVoice.voiceSample refLib highNoteConsts highNoteVoice).2.osc3.1.frequency
      = 28160 := by
    rw [SynthVoice.voiceSample_osc3_frequency refLib highNoteConsts highNoteVoice
      (by rw [hw]; decide) (by rw [hw]; decide) (by rw [hw]; decide) (by rw [hw]; decide)]
    unfold SynthVoice.mainFreq
    rw [SynthVoice.lfoPitch_eq, ht1, ht2, hbase, hbend, hdet]
    norm_num
  refine ⟨hw, hsr, hf, ?_⟩
  rw [hf, hsr]
  norm_num

/-- Witness of C11: the rising saw on a slot prepared at 44100 Hz, asked for 30000 Hz. -/
theorem primitive_frequency_witness :
    (0 : ℚ) < slotRefs.blep.sampleRate ∧ (0 : ℚ) < slotRefs.pulse.sampleRate
      ∧ (0 : ℚ) < playingVoice.subPulse.sampleRate
      ∧ (SynthVoice.oscSample refLib 1 30000 (1 / 2) slotRefs).2.blep.freq
          ≤ 45 / 100 * slotRefs.blep.sampleRate := by
  have hb : (0 : ℚ) < slotRefs.blep.sampleRate := by norm_num [slotRefs]
  have hp : (0 : ℚ) < slotRefs.pulse.sampleRate := by norm_num [slotRefs]
  have hs : (0 : ℚ) < playingVoice.subPulse.sampleRate := by
    show (0 : ℚ) < 44100
    norm_num
  exact ⟨hb, hp, hs,
    ((SynthVoice.primitive_frequency refLib 1 30000 (1 / 2) slotRefs defaultConsts playingVoice
      hb hp hs).1 (Or.inl rfl)).2.2⟩

end MiniSynth

namespace MiniSynth

namespace SynthVoice

section PanAndNote

variable {α : Type} [LinearOrderedField α]

/-- C21: the stereo pan law.  The left and right samples are
`filteredL * amp * panL * gain` and `filteredR * amp * panR * gain` with
`panL = 0.5 - 0.5 * spread` and `panR = 0.5 + 0.5 * spread`; `panL + panR = 1` for every
spread; for a spread in `[0, 1]`, `0 ≤ panL ≤ 0.5 ≤ panR ≤ 1`; spread 0 gives 0.5 and 0.5,
spread 1 gives 0 and 1. -/
theorem stereo_pan_law (J : Lib α) (c : BlockConsts α) (m : Mods α) (dry : α)
    (v : SynthVoice α) :
    (outStage J c m dry v).1
        = ((((v.filterL.setCutoffFrequency (jlimit 20 20000
              (c.cutoff * J.pow2 (c.fAmt * (v.filtEnv.getNextSample.1 - 1 / 2))))).setResonance
              c.q).processSample J 0 dry).1
            * lfoAmp c m.lfo1v m.lfo2v v.ampEnv.getNextSample.1
            * (1 / 2 - 1 / 2 * c.spread) * c.gLin,
           (((v.filterR.setCutoffFrequency (jlimit 20 20000
              (c.cutoff * J.pow2 (c.fAmt * (v.filtEnv.getNextSample.1 - 1 / 2))))).setResonance
              c.q).processSample J 1 dry).1
            * lfoAmp c m.lfo1v m.lfo2v v.ampEnv.getNextSample.1
            * (1 / 2 + 1 / 2 * c.spread) * c.gLin)
    ∧ (∃ (d : α) (w : SynthVoice α), voiceSample J c v = outStage J c (modStage J c v).1 d w)
    ∧ (1 / 2 - 1 / 2 * c.spread) + (1 / 2 + 1 / 2 * c.spread) = 1
    ∧ (0 ≤ c.spread → c.spread ≤ 1 →
        0 ≤ 1 / 2 - 1 / 2 * c.spread ∧ 1 / 2 - 1 / 2 * c.spread ≤ 1 / 2
        ∧ 1 / 2 ≤ 1 / 2 + 1 / 2 * c.spread ∧ 1 / 2 + 1 / 2 * c.spread ≤ 1)
    ∧ (c.spread = 0 →
        1 / 2 - 1 / 2 * c.spread = 1 / 2 ∧ 1 / 2 + 1 / 2 * c.spread = 1 / 2)
    ∧ (c.spread = 1 → 1 / 2 - 1 / 2 * c.spread = 0 ∧ 1 / 2 + 1 / 2 * c.spread = 1) := by
  refine ⟨rfl, ?_, by ring, ?_, ?_, ?_⟩
  · obtain ⟨d, w, e, _⟩ := voiceSample_eq_outStage J c v
    exact ⟨d, w, e⟩
  · intro h0 h1
    refine ⟨by linarith, by linarith, by linarith, by linarith⟩
  · intro h
    rw [h]; norm_num
  · intro h
    rw [h]; norm_num

/-- C24: `startNote (midi, vel)` sets the base pitch to the frequency of the MIDI note, which
is `440 * 2^((midi - 69) / 12)` Hz for the library function (440 Hz for note 69), sets the
current velocity to `clamp (vel, 0, 1)`, resets pitch bend, aftertouch and channel pressure to
0, and leaves every oscillator, every LFO, both filters, the noise bus, `temp`, the sample
rate and the active flag unchanged; the two envelopes receive `noteOn`. -/
theorem startNote_effect (J : Lib α) (midi : Int) (vel : α) (v : SynthVoice α)
    (hJ : ∀ n : Int, J.getMidiNoteInHertz n = 440 * J.pow2 (((n - 69 : Int) : α) / 12))
    (hp : J.pow2 0 = 1) :
    ((startNote J midi vel v).baseFreqHz = 440 * J.pow2 (((midi - 69 : Int) : α) / 12)
      ∧ (startNote J 69 vel v).baseFreqHz = 440)
    ∧ ((startNote J midi vel v).curVelocity = jlimit 0 1 vel
      ∧ 0 ≤ (startNote J midi vel v).curVelocity ∧ (startNote J midi vel v).curVelocity ≤ 1)
    ∧ ((startNote J midi vel v).pitchBendSemitones = 0
      ∧ (startNote J midi vel v).aftertouch = 0
      ∧ (startNote J midi vel v).channelPressure = 0)
    ∧ ((startNote J midi vel v).osc1 = v.osc1 ∧ (startNote J midi vel v).osc2 = v.osc2
      ∧ (startNote J midi vel v).osc3 = v.osc3
      ∧ (startNote J midi vel v).pulse1 = v.pulse1 ∧ (startNote J midi vel v).pulse2 = v.pulse2
      ∧ (startNote J midi vel v).pulse3 = v.pulse3
      ∧ (startNote J midi vel v).blep1 = v.blep1 ∧ (startNote J midi vel v).blep2 = v.blep2
      ∧ (startNote J midi vel v).blep3 = v.blep3
      ∧ (startNote J midi vel v).subSine = v.subSine
      ∧ (startNote J midi vel v).subTri = v.subTri
      ∧ (startNote J midi vel v).subPulse = v.subPulse)
    ∧ ((startNote J midi vel v).lfo1 = v.lfo1 ∧ (startNote J midi vel v).lfo2 = v.lfo2
      ∧ (startNote J midi vel v).pwmLfo1 = v.pwmLfo1
      ∧ (startNote J midi vel v).pwmLfo2 = v.pwmLfo2
      ∧ (startNote J midi vel v).pwmLfo3 = v.pwmLfo3)
    ∧ ((startNote J midi vel v).filterL = v.filterL
      ∧ (startNote J midi vel v).filterR = v.filterR
      ∧ (startNote J midi vel v).noise = v.noise
      ∧ (startNote J midi vel v).temp = v.temp
      ∧ (startNote J midi vel v).sampleRate = v.sampleRate
      ∧ (startNote J midi vel v).noteActive = v.noteActive)
    ∧ ((startNote J midi vel v).ampEnv = v.ampEnv.noteOn
      ∧ (startNote J midi vel v).filtEnv = v.filtEnv.noteOn) := by
  have h01 : (0 : α) ≤ 1 := zero_le_one
  refine ⟨⟨hJ midi, ?_⟩, ⟨rfl, jlimit_ge vel h01, jlimit_le vel h01⟩, ⟨rfl, rfl, rfl⟩,
    ⟨rfl, rfl, rfl, rfl, rfl, rfl, rfl, rfl, rfl, rfl, rfl, rfl⟩, ⟨rfl, rfl, rfl, rfl, rfl⟩,
    ⟨rfl, rfl, rfl, rfl, rfl, rfl⟩, ⟨rfl, rfl⟩⟩
  show J.getMidiNoteInHertz 69 = 440
  rw [hJ 69]
  simp [hp]

end PanAndNote

end SynthVoice

/-- Witness of C21: the default spread 0.2. -/
theorem stereo_pan_law_witness :
    (0 : ℚ) ≤ defaultConsts.spread ∧ defaultConsts.spread ≤ 1
      ∧ 0 ≤ 1 / 2 - 1 / 2 * defaultConsts.spread
      ∧ 1 / 2 - 1 / 2 * defaultConsts.spread ≤ 1 / 2
      ∧ 1 / 2 ≤ 1 / 2 + 1 / 2 * defaultConsts.spread
      ∧ 1 / 2 + 1 / 2 * defaultConsts.spread ≤ 1 := by
  have h0 : (0 : ℚ) ≤ defaultConsts.spread := by
    show (0 : ℚ) ≤ 2 / 10
    norm_num
  have h1 : defaultConsts.spread ≤ 1 := by
    show (2 / 10 : ℚ) ≤ 1
    norm_num
  exact ⟨h0, h1,
    (SynthVoice.stereo_pan_law refLib defaultConsts ⟨0, 0, 1 / 2, 1 / 2, 1 / 2⟩ 0
      playingVoice).2.2.2.1 h0 h1⟩

theorem pow2Q_zero : pow2Q 0 = 1 := by
  norm_num [pow2Q]

/-- Witness of C24: note 69 at velocity 2 on the prepared voice, with the library `refLib`. -/
theorem startNote_effect_witness :
    (∀ n : Int, refLib.getMidiNoteInHertz n = 440 * refLib.pow2 (((n - 69 : Int) : ℚ) / 12))
      ∧ refLib.pow2 0 = 1
      ∧ (SynthVoice.startNote refLib 69 2 preparedVoice).baseFreqHz = 440
      ∧ (SynthVoice.startNote refLib 69 2 preparedVoice).curVelocity = jlimit 0 1 2 :=
  ⟨fun _ => rfl, pow2Q_zero,
    (SynthVoice.startNote_effect refLib 69 2 preparedVoice (fun _ => rfl) pow2Q_zero).1.2,
    (SynthVoice.startNote_effect refLib 69 2 preparedVoice (fun _ => rfl) pow2Q_zero).2.1.1⟩

end MiniSynth

namespace MiniSynth

section Noise

variable {α : Type} [LinearOrderedField α]

/-- The white draw is `2 u - 1` for the draw `u` of the generator, in `[-1, 1)`. -/
theorem white_mem (J : Lib α) (hJ : ∀ s, 0 ≤ (J.nextFloat s).1 ∧ (J.nextFloat s).1 < 1)
    (nb : NoiseBus α) :
    (nb.white J).1 = 2 * (J.nextFloat nb.rng).1 - 1
      ∧ -1 ≤ (nb.white J).1 ∧ (nb.white J).1 < 1 := by
  obtain ⟨h0, h1⟩ := hJ nb.rng
  have e : (nb.white J).1 = 2 * (J.nextFloat nb.rng).1 - 1 := by
    show (J.nextFloat nb.rng).1 * 2 - 1 = _
    ring
  rw [e]
  exact ⟨rfl, by linarith, by linarith⟩

theorem noise_step_inv (J : Lib α) (hJ : ∀ s, 0 ≤ (J.nextFloat s).1 ∧ (J.nextFloat s).1 < 1)
    (c : NoiseCall α) (nb : NoiseBus α)
    (hp : -1 ≤ nb.pinkState ∧ nb.pinkState ≤ 1) (hb : -1 ≤ nb.brownState ∧ nb.brownState ≤ 1) :
    ((-1 ≤ (c.apply J nb).2.pinkState ∧ (c.apply J nb).2.pinkState ≤ 1)
      ∧ (-1 ≤ (c.apply J nb).2.brownState ∧ (c.apply J nb).2.brownState ≤ 1))
    ∧ (c.isGenerator = true → -1 ≤ (c.apply J nb).1 ∧ (c.apply J nb).1 ≤ 1) := by
  obtain ⟨_, w0, w1⟩ := white_mem J hJ nb
  have h11 : (-1 : α) ≤ 1 := by norm_num
  cases c with
  | white => exact ⟨⟨hp, hb⟩, fun _ => ⟨w0, w1.le⟩⟩
  | pink =>
    have a : -1 ≤ 98 / 100 * nb.pinkState + 2 / 100 * (nb.white J).1 := by linarith [hp.1]
    have b : 98 / 100 * nb.pinkState + 2 / 100 * (nb.white J).1 ≤ 1 := by linarith [hp.2]
    exact ⟨⟨⟨a, b⟩, hb⟩, fun _ => ⟨a, b⟩⟩
  | brown =>
    exact ⟨⟨hp, ⟨jlimit_ge _ h11, jlimit_le _ h11⟩⟩, fun _ => ⟨jlimit_ge _ h11, jlimit_le _ h11⟩⟩
  | highpass x a => exact ⟨⟨hp, hb⟩, fun h => absurd h Bool.false_ne_true⟩

theorem noise_run_inv (J : Lib α) (hJ : ∀ s, 0 ≤ (J.nextFloat s).1 ∧ (J.nextFloat s).1 < 1)
    (cs : List (NoiseCall α)) :
    ∀ nb : NoiseBus α, (-1 ≤ nb.pinkState ∧ nb.pinkState ≤ 1) →
      (-1 ≤ nb.brownState ∧ nb.brownState ≤ 1) →
      ((-1 ≤ (NoiseBus.runCalls J cs nb).2.pinkState
          ∧ (NoiseBus.runCalls J cs nb).2.pinkState ≤ 1)
        ∧ (-1 ≤ (NoiseBus.runCalls J cs nb).2.brownState
          ∧ (NoiseBus.runCalls J cs nb).2.brownState ≤ 1))
      ∧ (∀ r ∈ (NoiseBus.runCalls J cs nb).1, r.1.isGenerator = true → -1 ≤ r.2 ∧ r.2 ≤ 1) := by
  induction cs with
  | nil =>
    intro nb hp hb
    exact ⟨⟨hp, hb⟩, fun r hr => absurd hr (List.not_mem_nil r)⟩
  | cons c cs ih =>
    intro nb hp hb
    obtain ⟨⟨hp', hb'⟩, hv⟩ := noise_step_inv J hJ c nb hp hb
    obtain ⟨hs, hr⟩ := ih (c.apply J nb).2 hp' hb'
    refine ⟨hs, ?_⟩
    intro r hmem
    have hmem' : r ∈ (c, (c.apply J nb).1) :: (NoiseBus.runCalls J cs (c.apply J nb).2).1 := hmem
    rcases List.mem_cons.mp hmem' with h | h
    · rw [h]; exact hv
    · exact hr r h

/-- C22: the recurrences and bounds of the noise bus.  For a random draw `u` in `[0, 1)`,
`white` returns `2 u - 1`, in `[-1, 1]`; `pink` sets and returns
`0.98 * pinkState + 0.02 * w` and `brown` sets and returns
`clamp (brownState + 0.02 * w, -1, 1)`, each with a fresh white draw `w`; from the initial
state (both 0), after every sequence of `white`, `pink`, `brown` and `highpass` calls both
states and every returned white, pink and brown value lie in `[-1, 1]`. -/
theorem noise_bounds (J : Lib α) (hJ : ∀ s, 0 ≤ (J.nextFloat s).1 ∧ (J.nextFloat s).1 < 1)
    (nb : NoiseBus α) (cs : List (NoiseCall α)) :
    ((nb.white J).1 = 2 * (J.nextFloat nb.rng).1 - 1
      ∧ -1 ≤ (nb.white J).1 ∧ (nb.white J).1 ≤ 1)
    ∧ ((nb.pink J).1 = 98 / 100 * nb.pinkState + 2 / 100 * (nb.white J).1
      ∧ (nb.pink J).2.pinkState = (nb.pink J).1
      ∧ (nb.pink J).2.rng = (nb.white J).2.rng)
    ∧ ((nb.brown J).1 = jlimit (-1) 1 (nb.brownState + 2 / 100 * (nb.white J).1)
      ∧ (nb.brown J).2.brownState = (nb.brown J).1
      ∧ (nb.brown J).2.rng = (nb.white J).2.rng)
    ∧ (nb.pinkState = 0 → nb.brownState = 0 →
        ((-1 ≤ (NoiseBus.runCalls J cs nb).2.pinkState
            ∧ (NoiseBus.runCalls J cs nb).2.pinkState ≤ 1)
          ∧ (-1 ≤ (NoiseBus.runCalls J cs nb).2.brownState
            ∧ (NoiseBus.runCalls J cs nb).2.brownState ≤ 1))
        ∧ (∀ r ∈ (NoiseBus.runCalls J cs nb).1, r.1.isGenerator = true →
            -1 ≤ r.2 ∧ r.2 ≤ 1)) := by
  obtain ⟨e, w0, w1⟩ := white_mem J hJ nb
  refine ⟨⟨e, w0, w1.le⟩, ⟨rfl, rfl, rfl⟩, ⟨rfl, rfl, rfl⟩, ?_⟩
  intro hp hb
  apply noise_run_inv J hJ cs nb
  · rw [hp]; constructor <;> norm_num
  · rw [hb]; constructor <;> norm_num

end Noise

theorem refLib_nextFloat_mem (s : Nat) :
    0 ≤ (refLib.nextFloat s).1 ∧ (refLib.nextFloat s).1 < 1 := by
  show 0 ≤ ((((s * 25214903917 + 11) % 2 ^ 48 / 2 ^ 16 : Nat) : ℚ) / 2 ^ 32)
    ∧ ((((s * 25214903917 + 11) % 2 ^ 48 / 2 ^ 16 : Nat) : ℚ) / 2 ^ 32) < 1
  have h : (s * 25214903917 + 11) % 2 ^ 48 / 2 ^ 16 < 2 ^ 32 := by
    have h1 : (s * 25214903917 + 11) % 2 ^ 48 < 2 ^ 48 := Nat.mod_lt _ (by norm_num)
    omega
  constructor
  · positivity
  · rw [div_lt_one (by norm_num)]
    exact_mod_cast h

/-- Witness of C22: the bus in its initial state, with the generator of `refLib`, under the
calls pink, brown, white. -/
theorem noise_bounds_witness :
    (∀ s, 0 ≤ (refLib.nextFloat s).1 ∧ (refLib.nextFloat s).1 < 1)
      ∧ ({} : NoiseBus ℚ).pinkState = 0 ∧ ({} : NoiseBus ℚ).brownState = 0
      ∧ (-1 ≤ (NoiseBus.runCalls refLib [NoiseCall.pink, NoiseCall.brown, NoiseCall.white]
            {}).2.pinkState
        ∧ (NoiseBus.runCalls refLib [NoiseCall.pink, NoiseCall.brown, NoiseCall.white]
            {}).2.pinkState ≤ 1) :=
  ⟨refLib_nextFloat_mem, rfl, rfl,
    ((noise_bounds refLib refLib_nextFloat_mem {}
      [NoiseCall.pink, NoiseCall.brown, NoiseCall.white]).2.2.2 rfl rfl).1.1⟩

end MiniSynth

namespace MiniSynth

section HighPass

variable {α : Type} [LinearOrderedField α]

theorem hpf_coefficient_mem (f sr : α) (hf : 0 ≤ f) (hsr : 0 < sr) :
    (0 ≤ f / (f + sr) ∧ f / (f + sr) < 1)
      ∧ 0 ≤ jlimit 0 (999 / 1000) (f / (f + sr))
      ∧ jlimit 0 (999 / 1000) (f / (f + sr)) < 1 := by
  have hpos : 0 < f + sr := by linarith
  have h9 : (0 : α) ≤ 999 / 1000 := by norm_num
  refine ⟨⟨div_nonneg hf hpos.le, ?_⟩, jlimit_ge _ h9, ?_⟩
  · rw [div_lt_one hpos]; linarith
  · exact lt_of_le_of_lt (jlimit_le _ h9) (by norm_num)

theorem highpass_iterate (x a : α) (k : Nat) :
    ∀ nb : NoiseBus α, nb.hpX = x →
      ((fun b : NoiseBus α => (b.highpass x a).2)^[k] nb).hpY = a ^ k * nb.hpY
      ∧ ((fun b : NoiseBus α => (b.highpass x a).2)^[k] nb).hpX = x := by
  induction k with
  | zero => intro nb h; simp [h]
  | succ k ih =>
    intro nb h
    rw [Function.iterate_succ_apply]
    have hx : (nb.highpass x a).2.hpX = x := rfl
    obtain ⟨e1, e2⟩ := ih (nb.highpass x a).2 hx
    refine ⟨?_, e2⟩
    rw [e1]
    show a ^ k * (a * (nb.hpY + x - nb.hpX)) = a ^ (k + 1) * nb.hpY
    rw [h]
    ring

/-- C23: the noise high-pass step.  `highpass (x, a)` returns `y = a * (y_prev + x - x_prev)`
and stores `x_prev := x`, `y_prev := y`, touching no other noise state; in the render loop,
when the noise HPF is on, `a = clamp (f / (f + sampleRate), 0, 0.999)` for the HPF frequency
parameter `f`, which lies in `[0, 1)` for `f ≥ 0` and a positive sample rate; for a constant
input every further call multiplies the output by `a`, so that after `k` further calls it is
`a^k` times the first one and it tends to 0. -/
theorem highpass_step [Archimedean α] (J : Lib α) (c : SynthVoice.BlockConsts α)
    (v : SynthVoice α) (nb : NoiseBus α) (x a : α) :
    ((nb.highpass x a).1 = a * (nb.hpY + x - nb.hpX)
      ∧ (nb.highpass x a).2.hpX = x
      ∧ (nb.highpass x a).2.hpY = a * (nb.hpY + x - nb.hpX)
      ∧ (nb.highpass x a).2.rng = nb.rng
      ∧ (nb.highpass x a).2.pinkState = nb.pinkState
      ∧ (nb.highpass x a).2.brownState = nb.brownState)
    ∧ (c.nHPFon = true →
        SynthVoice.noiseStage J c v
          = (((((v.noise.white J).2.pink J).2.brown J).2.highpass
                (c.nW * (v.noise.white J).1 + c.nP * ((v.noise.white J).2.pink J).1
                  + c.nB * (((v.noise.white J).2.pink J).2.brown J).1)
                (jlimit 0 (999 / 1000) (c.nHPFhz / (c.nHPFhz + v.sampleRate)))).1,
             { v with noise :=
                ((((v.noise.white J).2.pink J).2.brown J).2.highpass
                  (c.nW * (v.noise.white J).1 + c.nP * ((v.noise.white J).2.pink J).1
                    + c.nB * (((v.noise.white J).2.pink J).2.brown J).1)
                  (jlimit 0 (999 / 1000) (c.nHPFhz / (c.nHPFhz + v.sampleRate)))).2 }))
    ∧ (0 ≤ c.nHPFhz → 0 < v.sampleRate →
        0 ≤ jlimit 0 (999 / 1000) (c.nHPFhz / (c.nHPFhz + v.sampleRate))
        ∧ jlimit 0 (999 / 1000) (c.nHPFhz / (c.nHPFhz + v.sampleRate)) < 1)
    ∧ (nb.hpX = x →
        (nb.highpass x a).1 = a * nb.hpY
        ∧ (∀ k : Nat,
            ((fun b : NoiseBus α => (b.highpass x a).2)^[k] nb).hpY = a ^ k * nb.hpY)
        ∧ (0 ≤ a → a < 1 → ∀ ε : α, 0 < ε → ∃ N : Nat, ∀ k : Nat, N ≤ k →
            |((fun b : NoiseBus α => (b.highpass x a).2)^[k] nb).hpY| < ε)) := by
  refine ⟨⟨rfl, rfl, rfl, rfl, rfl, rfl⟩, ?_, ?_, ?_⟩
  · intro h
    unfold SynthVoice.noiseStage
    simp only [h, if_true]
  · intro hf hsr
    exact (hpf_coefficient_mem c.nHPFhz v.sampleRate hf hsr).2
  · intro hx
    refine ⟨?_, fun k => (highpass_iterate x a k nb hx).1, ?_⟩
    · show a * (nb.hpY + x - nb.hpX) = a * nb.hpY
      rw [hx]; ring
    · intro ha0 ha1 ε hε
      have hpos : 0 < ε / (|nb.hpY| + 1) := by positivity
      obtain ⟨N, hN⟩ := exists_pow_lt_of_lt_one hpos ha1
      refine ⟨N, fun k hk => ?_⟩
      rw [(highpass_iterate x a k nb hx).1, abs_mul, abs_of_nonneg (pow_nonneg ha0 k)]
      have h1 : a ^ k ≤ a ^ N := pow_le_pow_of_le_one ha0 ha1.le hk
      have h2 : a ^ k < ε / (|nb.hpY| + 1) := lt_of_le_of_lt h1 hN
      have h3 : a ^ k * (|nb.hpY| + 1) < ε := by
        rwa [lt_div_iff₀ (by positivity)] at h2
      have h4 : 0 ≤ a ^ k := pow_nonneg ha0 k
      nlinarith [abs_nonneg nb.hpY]

end HighPass

/-- Witness of C23: the default HPF frequency 120 Hz at 44100 Hz. -/
theorem highpass_step_witness :
    (0 : ℚ) ≤ defaultConsts.nHPFhz ∧ (0 : ℚ) < playingVoice.sampleRate
      ∧ 0 ≤ jlimit 0 (999 / 1000)
          (defaultConsts.nHPFhz / (defaultConsts.nHPFhz + playingVoice.sampleRate))
      ∧ jlimit 0 (999 / 1000)
          (defaultConsts.nHPFhz / (defaultConsts.nHPFhz + playingVoice.sampleRate)) < 1 := by
  have h0 : (0 : ℚ) ≤ defaultConsts.nHPFhz := by
    show (0 : ℚ) ≤ 120
    norm_num
  have h1 : (0 : ℚ) < playingVoice.sampleRate := by
    show (0 : ℚ) < 44100
    norm_num
  exact ⟨h0, h1,
    (highpass_step refLib defaultConsts playingVoice {} 0 (1 / 2)).2.2.1 h0 h1⟩

end MiniSynth

namespace MiniSynth

namespace SynthVoice

section Allocation

variable {α : Type} [LinearOrderedField α]

/-- The sample loop changes neither the dimensions nor the heap block of `temp`. -/
theorem sampleLoop_temp_size (J : Lib α) (c : BlockConsts α) (k : Nat) :
    ∀ (i : Nat) (v : SynthVoice α),
      (sampleLoop J c k i v).temp.allocatedBytes = v.temp.allocatedBytes
      ∧ (sampleLoop J c k i v).temp.numChannels = v.temp.numChannels
      ∧ (sampleLoop J c k i v).temp.numSamples = v.temp.numSamples := by
  induction k with
  | zero => intro i v; exact ⟨rfl, rfl, rfl⟩
  | succ k ih =>
    intro i v
    show (sampleLoop J c k (i + 1) _).temp.allocatedBytes = _
      ∧ (sampleLoop J c k (i + 1) _).temp.numChannels = _
      ∧ (sampleLoop J c k (i + 1) _).temp.numSamples = _
    obtain ⟨a, b, d⟩ := ih (i + 1)
      { (voiceSample J c v).2 with
        temp := ((voiceSample J c v).2.temp.addSample 0 i (voiceSample J c v).1.1).addSample 1 i
          (voiceSample J c v).1.2 }
    rw [a, b, d]
    have e := voiceSample_temp_eq J c v
    refine ⟨?_, ?_, ?_⟩
    · show (voiceSample J c v).2.temp.allocatedBytes = _
      rw [e]
    · show (voiceSample J c v).2.temp.numChannels = _
      rw [e]
    · show (voiceSample J c v).2.temp.numSamples = _
      rw [e]

/-- After a render call of an active voice the heap block of `temp` is the one left by
`setSize (2, n, false, false, true)`. -/
theorem renderNextBlock_temp_alloc (J : Lib α) (P : Params α) (output : AudioBuffer α)
    (start n : Nat) (v : SynthVoice α) (h : v.isVoiceActive = true) :
    (renderNextBlock J P output start n v).1.temp.allocatedBytes
      = (v.temp.setSize J 2 n).allocatedBytes := by
  rw [renderNextBlock_active J P output start n v h]
  show (sampleLoop J _ n 0 _).temp.allocatedBytes = _
  rw [(sampleLoop_temp_size J _ n 0 _).1]
  rfl

end Allocation

end SynthVoice

/-- C25 at the failing input.  The voice is prepared with 44100 Hz, a maximal block size of
512 and 2 channels, and a note is started: `temp` owns no memory (0 bytes, 0 channels,
0 samples), because `prepare` does not size it.  The first render call, of 64 samples, makes
`temp.setSize (2, 64, false, false, true)` allocate a block of 576 bytes. -/
theorem first_render_allocates :
    playingVoice.isVoiceActive = true
      ∧ playingVoice.temp.allocatedBytes = 0
      ∧ playingVoice.temp.numChannels = 0 ∧ playingVoice.temp.numSamples = 0
      ∧ (SynthVoice.renderNextBlock refLib defaultParams stereoOut 0 64
          playingVoice).1.temp.allocatedBytes = 576
      ∧ playingVoice.temp.allocatedBytes
          < (SynthVoice.renderNextBlock refLib defaultParams stereoOut 0 64
              playingVoice).1.temp.allocatedBytes := by
  have h : (SynthVoice.renderNextBlock refLib defaultParams stereoOut 0 64
      playingVoice).1.temp.allocatedBytes = 576 := by
    rw [SynthVoice.renderNextBlock_temp_alloc refLib defaultParams stereoOut 0 64 playingVoice
      rfl]
    decide
  refine ⟨rfl, rfl, rfl, rfl, h, ?_⟩
  rw [h]
  decide

end MiniSynth

namespace MiniSynth

/-- For an increment in `(0, 0.5]` the correction term is the difference of two squared
ramps cut off at 0, for every phase. -/
theorem polyBLEP_eq_max (p dt : ℝ) (hd0 : 0 < dt) (hd1 : dt ≤ 45 / 100) :
    PolyBLEPOsc.polyBLEP p dt
      = max 0 (1 + (p - 1) / dt) ^ 2 - max 0 (1 - p / dt) ^ 2 := by
  unfold PolyBLEPOsc.polyBLEP
  by_cases h1 : p < dt
  · have a : 0 ≤ 1 - p / dt := by
      rw [sub_nonneg, div_le_one hd0]; exact h1.le
    have b : 1 + (p - 1) / dt ≤ 0 := by
      have : (p - 1) / dt ≤ -1 := by
        rw [div_le_iff₀ hd0]; linarith
      linarith
    rw [if_pos h1, max_eq_right a, max_eq_left b]
    ring
  · rw [if_neg h1]
    have a : 1 - p / dt ≤ 0 := by
      rw [sub_nonpos, le_div_iff₀ hd0]; linarith
    by_cases h2 : p > 1 - dt
    · have b : 0 ≤ 1 + (p - 1) / dt := by
        have : -1 ≤ (p - 1) / dt := by
          rw [le_div_iff₀ hd0]; linarith
        linarith
      rw [if_pos h2, max_eq_left a, max_eq_right b]
      ring
    · have b : 1 + (p - 1) / dt ≤ 0 := by
        have : (p - 1) / dt ≤ -1 := by
          rw [div_le_iff₀ hd0]; linarith
        linarith
      rw [if_neg h2, max_eq_left a, max_eq_left b]
      norm_num

theorem sawUpValue_continuous (dt : ℝ) (hd0 : 0 < dt) (hd1 : dt ≤ 45 / 100) :
    Continuous (fun p : ℝ => PolyBLEPOsc.sawUpValue p dt) := by
  have e : (fun p : ℝ => PolyBLEPOsc.sawUpValue p dt)
      = fun p : ℝ => 2 * p - 1 - (max 0 (1 + (p - 1) / dt) ^ 2 - max 0 (1 - p / dt) ^ 2) := by
    funext p
    unfold PolyBLEPOsc.sawUpValue
    rw [polyBLEP_eq_max p dt hd0 hd1]
  rw [e]
  fun_prop

/-- C26: the polynomial correction removes the discontinuity of the rising saw.  For every
increment `dt` in `(0, 0.45]` the `SawUp` output, as a function of the phase `p` after the
increment, is continuous on `[0, 1)`; its value at `p = 0` is 0 and so is its limit as `p`
tends to 1 from below; and it is the raw ramp `2 p - 1` at `p = dt`, at `p = 1 - dt` and
everywhere in between.  The function is the value `processSample` returns in `SawUp` mode. -/
theorem sawUp_continuous (dt : ℝ) (hd0 : 0 < dt) (hd1 : dt ≤ 45 / 100) :
    ContinuousOn (fun p : ℝ => PolyBLEPOsc.sawUpValue p dt) (Set.Ico 0 1)
    ∧ PolyBLEPOsc.sawUpValue 0 dt = 0
    ∧ Filter.Tendsto (fun p : ℝ => PolyBLEPOsc.sawUpValue p dt)
        (nhdsWithin 1 (Set.Iio 1)) (nhds 0)
    ∧ PolyBLEPOsc.sawUpValue dt dt = 2 * dt - 1
    ∧ PolyBLEPOsc.sawUpValue (1 - dt) dt = 2 * (1 - dt) - 1
    ∧ (∀ p : ℝ, dt ≤ p → p ≤ 1 - dt → PolyBLEPOsc.sawUpValue p dt = 2 * p - 1)
    ∧ (∀ o : PolyBLEPOsc ℝ, o.mode = Mode.SawUp →
        o.processSample.1 = PolyBLEPOsc.sawUpValue (PolyBLEPOsc.advance o.phase o.incr) o.incr)
    := by
  have hc := sawUpValue_continuous dt hd0 hd1
  have hmid : ∀ p : ℝ, dt ≤ p → p ≤ 1 - dt → PolyBLEPOsc.sawUpValue p dt = 2 * p - 1 := by
    intro p h1 h2
    unfold PolyBLEPOsc.sawUpValue PolyBLEPOsc.polyBLEP
    rw [if_neg (not_lt.mpr h1), if_neg (not_lt.mpr h2), sub_zero]
  have h0 : PolyBLEPOsc.sawUpValue 0 dt = 0 := by
    unfold PolyBLEPOsc.sawUpValue PolyBLEPOsc.polyBLEP
    rw [if_pos hd0]
    simp
  have h1 : PolyBLEPOsc.sawUpValue 1 dt = 0 := by
    unfold PolyBLEPOsc.sawUpValue PolyBLEPOsc.polyBLEP
    rw [if_neg (by linarith), if_pos (by linarith)]
    simp
    norm_num
  refine ⟨hc.continuousOn, h0, ?_, hmid dt (le_refl _) (by linarith),
    hmid (1 - dt) (by linarith) (le_refl _), hmid, ?_⟩
  · have ht := (hc.tendsto 1).mono_left (nhdsWithin_le_nhds (s := Set.Iio 1))
    rw [h1] at ht
    exact ht
  · intro o hm
    unfold PolyBLEPOsc.processSample PolyBLEPOsc.sawUpValue
    simp only [hm, if_true]

/-- Witness of C26: the increment 1/4. -/
theorem sawUp_continuous_witness :
    (0 : ℝ) < 1 / 4 ∧ (1 / 4 : ℝ) ≤ 45 / 100
      ∧ ContinuousOn (fun p : ℝ => PolyBLEPOsc.sawUpValue p (1 / 4)) (Set.Ico 0 1)
      ∧ PolyBLEPOsc.sawUpValue 0 (1 / 4 : ℝ) = 0 :=
  ⟨by norm_num, by norm_num, (sawUp_continuous (1 / 4) (by norm_num) (by norm_num)).1,
    (sawUp_continuous (1 / 4) (by norm_num) (by norm_num)).2.1⟩

end MiniSynth

namespace MiniSynth

section PrimitivesMore

variable {α : Type} [LinearOrderedField α]

theorem polyBLEP_zero_dt {t : α} (ht0 : 0 ≤ t) (ht1 : t < 1) : PolyBLEPOsc.polyBLEP t 0 = 0 := by
  unfold PolyBLEPOsc.polyBLEP
  rw [if_neg (not_lt.mpr ht0), if_neg (by rw [sub_zero]; exact not_lt.mpr ht1.le)]

theorem divides_pos {t dt : α} (ht0 : 0 ≤ t) (ht1 : t < 1) (h : PolyBLEPOsc.divides t dt) :
    0 < dt := by
  rcases h with h | ⟨_, h⟩
  · exact lt_of_le_of_lt ht0 h
  · linarith

theorem secondArg_mem {p pw : α} (hp0 : 0 ≤ p) (hp1 : p < 1) (hw0 : 0 < pw) (hw1 : pw < 1) :
    0 ≤ PulseOsc.secondArg p pw ∧ PulseOsc.secondArg p pw < 1 := by
  unfold PulseOsc.secondArg
  simp only []
  split_ifs with h
  · constructor <;> linarith
  · constructor <;> linarith

theorem rawSample_eq (p pw dt : α) :
    PulseOsc.rawSample p pw dt
      = PulseOsc.rawPulse p pw + PulseOsc.polyBLEP p dt
          - PulseOsc.polyBLEP (PulseOsc.secondArg p pw) dt := rfl

theorem advance_zero (p : α) (hp1 : p < 1) : PolyBLEPOsc.advance p 0 = p := by
  unfold PolyBLEPOsc.advance
  simp only [add_zero]
  rw [if_neg (not_le.mpr hp1)]

/-- C27: neither oscillator primitive divides by zero.  For a phase in `[0, 1)`, an increment
`dt` in `[0, 0.45]` and a pulse width in `[0.01, 0.99]`: whenever `polyBLEP` takes one of its
two dividing branches `dt` is strictly positive (for the saw, and for both calls of the
pulse); the second argument `t2` of the pulse lies in `[0, 1)`; and with `dt = 0` the output
is the raw waveform (soft-clipped for a pulse with rounded edges). -/
theorem no_division_by_zero (o : PolyBLEPOsc α) (q : PulseOsc α) (tanh : α → α)
    (ho : o.Inv) (hq : q.Inv) (hw0 : 1 / 100 ≤ q.pw) (hw1 : q.pw ≤ 99 / 100) :
    (PolyBLEPOsc.divides (PolyBLEPOsc.advance o.phase o.incr) o.incr → 0 < o.incr)
    ∧ (PolyBLEPOsc.divides (PulseOsc.advance q.phase q.incr) q.incr → 0 < q.incr)
    ∧ (0 ≤ PulseOsc.secondArg (PulseOsc.advance q.phase q.incr) q.pw
        ∧ PulseOsc.secondArg (PulseOsc.advance q.phase q.incr) q.pw < 1)
    ∧ (PolyBLEPOsc.divides (PulseOsc.secondArg (PulseOsc.advance q.phase q.incr) q.pw) q.incr
        → 0 < q.incr)
    ∧ (o.incr = 0 →
        o.processSample.1 = if o.mode = Mode.SawUp then 2 * o.phase - 1 else 1 - 2 * o.phase)
    ∧ (q.incr = 0 →
        (q.processSample tanh).1
          = if q.roundedEdges then tanh (PulseOsc.rawPulse q.phase q.pw * (3 / 2))
            else PulseOsc.rawPulse q.phase q.pw) := by
  obtain ⟨o0, o1, o2, o3⟩ := ho
  obtain ⟨q0, q1, q2, q3⟩ := hq
  obtain ⟨a0, a1⟩ := advance_mem o0 o1 o2 o3
  obtain ⟨b0, b1⟩ := advance_mem q0 q1 q2 q3
  have hw0' : 0 < q.pw := lt_of_lt_of_le (by norm_num) hw0
  have hw1' : q.pw < 1 := lt_of_le_of_lt hw1 (by norm_num)
  obtain ⟨s0, s1⟩ := secondArg_mem (p := PolyBLEPOsc.advance q.phase q.incr) b0 b1 hw0' hw1'
  refine ⟨divides_pos a0 a1, divides_pos b0 b1, ⟨s0, s1⟩, divides_pos s0 s1, ?_, ?_⟩
  · intro hz
    unfold PolyBLEPOsc.processSample
    simp only [hz]
    rw [advance_zero _ o1, polyBLEP_zero_dt o0 o1, sub_zero]
  · intro hz
    obtain ⟨t0, t1⟩ := secondArg_mem (p := q.phase) q0 q1 hw0' hw1'
    unfold PulseOsc.processSample
    simp only [hz, pulse_advance_eq, rawSample_eq, pulse_polyBLEP_eq]
    rw [advance_zero _ q1, polyBLEP_zero_dt q0 q1, polyBLEP_zero_dt t0 t1, add_zero, sub_zero]

end PrimitivesMore

/-- Witness of C27: both oscillators right after `reset`, where the increment is 0. -/
theorem no_division_by_zero_witness :
    (sawDownInput.reset).Inv ∧ (({} : PulseOsc ℚ).reset).Inv
      ∧ (1 / 100 : ℚ) ≤ (({} : PulseOsc ℚ).reset).pw
      ∧ (({} : PulseOsc ℚ).reset).pw ≤ 99 / 100
      ∧ (sawDownInput.reset).processSample.1
          = if (sawDownInput.reset).mode = Mode.SawUp then 2 * (sawDownInput.reset).phase - 1
            else 1 - 2 * (sawDownInput.reset).phase := by
  have h1 : (sawDownInput.reset).Inv := by
    norm_num [PolyBLEPOsc.Inv, PolyBLEPOsc.reset, sawDownInput]
  have h2 : (({} : PulseOsc ℚ).reset).Inv := by norm_num [PulseOsc.Inv, PulseOsc.reset]
  have h3 : (1 / 100 : ℚ) ≤ (({} : PulseOsc ℚ).reset).pw := by norm_num [PulseOsc.reset]
  have h4 : (({} : PulseOsc ℚ).reset).pw ≤ 99 / 100 := by norm_num [PulseOsc.reset]
  exact ⟨h1, h2, h3, h4,
    (no_division_by_zero (sawDownInput.reset) (({} : PulseOsc ℚ).reset) refLib.tanh h1 h2 h3
      h4).2.2.2.2.1 rfl⟩

end MiniSynth

namespace MiniSynth

namespace SynthVoice

section Touch

variable {α : Type} [LinearOrderedField α]

theorem voiceSample_withTouch (J : Lib α) (c : BlockConsts α) (a b d : α) (v : SynthVoice α) :
    voiceSample J c (withTouch a b d v)
      = ((voiceSample J c v).1, withTouch a b d (voiceSample J c v).2) := by
  have h0 : ∀ w : SynthVoice α, modStage J c (withTouch a b d w)
      = ((modStage J c w).1, withTouch a b d (modStage J c w).2) := fun _ => rfl
  have h1 : ∀ (m : Mods α) (w : SynthVoice α), mainStage J c m (withTouch a b d w)
      = ((mainStage J c m w).1, withTouch a b d (mainStage J c m w).2) := fun _ _ => rfl
  have h2 : ∀ (m : Mods α) (s : α × α × α) (w : SynthVoice α),
      unisonStage J c m s (withTouch a b d w)
        = ((unisonStage J c m s w).1, withTouch a b d (unisonStage J c m s w).2) := by
    intro m s w; unfold unisonStage; split_ifs <;> rfl
  have h3 : ∀ w : SynthVoice α, subStage J c (withTouch a b d w)
      = ((subStage J c w).1, withTouch a b d (subStage J c w).2) := by
    intro w; unfold subStage; split_ifs <;> rfl
  have h4 : ∀ w : SynthVoice α, noiseStage J c (withTouch a b d w)
      = ((noiseStage J c w).1, withTouch a b d (noiseStage J c w).2) := by
    intro w; unfold noiseStage; split_ifs <;> rfl
  have h5 : ∀ (m : Mods α) (x : α) (w : SynthVoice α), outStage J c m x (withTouch a b d w)
      = ((outStage J c m x w).1, withTouch a b d (outStage J c m x w).2) := fun _ _ _ => rfl
  unfold voiceSample
  simp only [h0, h1, h2, h3, h4, h5]

theorem sampleLoop_withTouch (J : Lib α) (c : BlockConsts α) (a b d : α) (k : Nat) :
    ∀ (i : Nat) (v : SynthVoice α),
      sampleLoop J c k i (withTouch a b d v) = withTouch a b d (sampleLoop J c k i v) := by
  induction k with
  | zero => intro i v; rfl
  | succ k ih =>
    intro i v
    show sampleLoop J c k (i + 1) _ = withTouch a b d (sampleLoop J c k (i + 1) _)
    rw [← ih, voiceSample_withTouch]
    rfl

theorem renderNextBlock_withTouch (J : Lib α) (P : Params α) (output : AudioBuffer α)
    (start n : Nat) (a b d : α) (v : SynthVoice α) :
    renderNextBlock J P output start n (withTouch a b d v)
      = (withTouch a b d (renderNextBlock J P output start n v).1,
         (renderNextBlock J P output start n v).2) := by
  cases h : v.isVoiceActive
  · have h' : (withTouch a b d v).isVoiceActive = false := h
    rw [renderNextBlock_inactive J P output start n v h,
      renderNextBlock_inactive J P output start n _ h']
  · have h' : (withTouch a b d v).isVoiceActive = true := h
    rw [renderNextBlock_active J P output start n v h,
      renderNextBlock_active J P output start n _ h']
    have hb : beginBlock J P n (withTouch a b d v) = withTouch a b d (beginBlock J P n v) := rfl
    have hc : blockConsts J P (withTouch a b d (beginBlock J P n v))
        = blockConsts J P (beginBlock J P n v) := rfl
    rw [hb, hc, sampleLoop_withTouch]
    rfl

/-- C28: rendered audio does not depend on note velocity, aftertouch and channel pressure.
Two voices that differ only in `curVelocity`, `aftertouch` and `channelPressure`, rendered
with the same parameter snapshot, the same library (hence the same random draws) and the same
output buffer, produce the same output buffer, and their states after the call again differ
only in these three members, which the call leaves as they were. -/
theorem render_ignores_touch (J : Lib α) (P : Params α) (output : AudioBuffer α)
    (start n : Nat) (vel aft cp : α) (v : SynthVoice α) :
    (renderNextBlock J P output start n (withTouch vel aft cp v)).2
        = (renderNextBlock J P output start n v).2
    ∧ (renderNextBlock J P output start n (withTouch vel aft cp v)).1
        = withTouch vel aft cp (renderNextBlock J P output start n v).1
    ∧ ((renderNextBlock J P output start n v).1.curVelocity = v.curVelocity
      ∧ (renderNextBlock J P output start n v).1.aftertouch = v.aftertouch
      ∧ (renderNextBlock J P output start n v).1.channelPressure = v.channelPressure)
    ∧ (withTouch v.curVelocity v.aftertouch v.channelPressure v = v) := by
  have e := renderNextBlock_withTouch J P output start n vel aft cp v
  have e' := renderNextBlock_withTouch J P output start n v.curVelocity v.aftertouch
    v.channelPressure v
  have hv : withTouch v.curVelocity v.aftertouch v.channelPressure v = v := rfl
  rw [hv] at e'
  refine ⟨by rw [e], by rw [e], ⟨?_, ?_, ?_⟩, hv⟩
  · exact (congrArg (fun r : SynthVoice α × AudioBuffer α => r.1.curVelocity) e').trans rfl
  · exact (congrArg (fun r : SynthVoice α × AudioBuffer α => r.1.aftertouch) e').trans rfl
  · exact (congrArg (fun r : SynthVoice α × AudioBuffer α => r.1.channelPressure) e').trans rfl

end Touch

end SynthVoice

end MiniSynth

namespace MiniSynth

namespace SynthVoice

section LfoTarget

variable {α : Type} [LinearOrderedField α]

theorem lfoPitch_not1 (J : Lib α) (c : BlockConsts α) (a b f : α) (h : c.lfo1Tg ≠ 1) :
    lfoPitch J c a b f = if c.lfo2Tg = 1 then f * J.pow2 (5 / 100 * c.lfo2Dp * b) else f := by
  unfold lfoPitch
  simp only [if_neg h]

theorem lfoAmp_not1 (c : BlockConsts α) (a b amp : α) (h : c.lfo1Tg ≠ 2) :
    lfoAmp c a b amp
      = if c.lfo2Tg = 2 then amp * jlimit 0 2 (1 + c.lfo2Dp * (1 / 2) * b) else amp := by
  unfold lfoAmp
  simp only [if_neg h]

theorem lfoPitch_not2 (J : Lib α) (c : BlockConsts α) (a b f : α) (h : c.lfo2Tg ≠ 1) :
    lfoPitch J c a b f = if c.lfo1Tg = 1 then f * J.pow2 (1 / 10 * c.lfo1Dp * a) else f := by
  unfold lfoPitch
  simp only [if_neg h]

theorem lfoAmp_not2 (c : BlockConsts α) (a b amp : α) (h : c.lfo2Tg ≠ 2) :
    lfoAmp c a b amp
      = if c.lfo1Tg = 2 then amp * jlimit 0 2 (1 + c.lfo1Dp * (1 / 2) * a) else amp := by
  unfold lfoAmp
  simp only [if_neg h]

theorem mainFreq_withLfo1 (J : Lib α) (c : BlockConsts α) (d x det : α) (o : Oscillator α)
    (m : Mods α) (w : SynthVoice α) (h : c.lfo1Tg ≠ 1) :
    mainFreq J (c.withLfo1Dp d) (withLfo1 o w) (m.withLfo1v x) det = mainFreq J c w m det := by
  have h' : (c.withLfo1Dp d).lfo1Tg ≠ 1 := h
  unfold mainFreq
  rw [lfoPitch_not1 J _ _ _ _ h', lfoPitch_not1 J _ _ _ _ h]
  rfl

theorem mainFreq_withLfo2 (J : Lib α) (c : BlockConsts α) (d x det : α) (o : Oscillator α)
    (m : Mods α) (w : SynthVoice α) (h : c.lfo2Tg ≠ 1) :
    mainFreq J (c.withLfo2Dp d) (withLfo2 o w) (m.withLfo2v x) det = mainFreq J c w m det := by
  have h' : (c.withLfo2Dp d).lfo2Tg ≠ 1 := h
  unfold mainFreq
  rw [lfoPitch_not2 J _ _ _ _ h', lfoPitch_not2 J _ _ _ _ h]
  rfl

theorem voiceSample_withLfo1 (J : Lib α) (c : BlockConsts α) (d : α) (o : Oscillator α)
    (v : SynthVoice α) (h1 : c.lfo1Tg ≠ 1) (h2 : c.lfo1Tg ≠ 2) :
    voiceSample J (c.withLfo1Dp d) (withLfo1 o v)
      = ((voiceSample J c v).1,
         withLfo1 (o.processSample J Generator.sine).2 (voiceSample J c v).2) := by
  have h0 : modStage J (c.withLfo1Dp d) (withLfo1 o v)
      = ((modStage J c v).1.withLfo1v (o.processSample J Generator.sine).1,
         withLfo1 (o.processSample J Generator.sine).2 (modStage J c v).2) := rfl
  have hm : ∀ (x : α) (q : Oscillator α) (m : Mods α) (w : SynthVoice α),
      mainStage J (c.withLfo1Dp d) (m.withLfo1v x) (withLfo1 q w)
        = ((mainStage J c m w).1, withLfo1 q (mainStage J c m w).2) := by
    intro x q m w
    unfold mainStage
    simp only [mainFreq_withLfo1 J c d x _ q m w h1]
    rfl
  have hu : ∀ (x : α) (q : Oscillator α) (m : Mods α) (s : α × α × α) (w : SynthVoice α),
      unisonStage J (c.withLfo1Dp d) (m.withLfo1v x) s (withLfo1 q w)
        = ((unisonStage J c m s w).1, withLfo1 q (unisonStage J c m s w).2) := by
    intro x q m s w
    have e : (c.withLfo1Dp d).uniOn = c.uniOn := rfl
    unfold unisonStage
    rw [e]
    simp only [mainFreq_withLfo1 J c d x _ q m w h1]
    split_ifs <;> rfl
  have hs : ∀ (q : Oscillator α) (w : SynthVoice α),
      subStage J (c.withLfo1Dp d) (withLfo1 q w)
        = ((subStage J c w).1, withLfo1 q (subStage J c w).2) := by
    intro q w
    have e : subStage J (c.withLfo1Dp d) (withLfo1 q w) = subStage J c (withLfo1 q w) := rfl
    rw [e]
    unfold subStage; split_ifs <;> rfl
  have hn : ∀ (q : Oscillator α) (w : SynthVoice α),
      noiseStage J (c.withLfo1Dp d) (withLfo1 q w)
        = ((noiseStage J c w).1, withLfo1 q (noiseStage J c w).2) := by
    intro q w
    have e : noiseStage J (c.withLfo1Dp d) (withLfo1 q w) = noiseStage J c (withLfo1 q w) :=
      rfl
    rw [e]
    unfold noiseStage; split_ifs <;> rfl
  have ho : ∀ (x : α) (q : Oscillator α) (m : Mods α) (dry : α) (w : SynthVoice α),
      outStage J (c.withLfo1Dp d) (m.withLfo1v x) dry (withLfo1 q w)
        = ((outStage J c m dry w).1, withLfo1 q (outStage J c m dry w).2) := by
    intro x q m dry w
    have h2' : (c.withLfo1Dp d).lfo1Tg ≠ 2 := h2
    have e : ∀ a : α, lfoAmp (c.withLfo1Dp d) (m.withLfo1v x).lfo1v (m.withLfo1v x).lfo2v a
        = lfoAmp c m.lfo1v m.lfo2v a := by
      intro a
      rw [lfoAmp_not1 _ _ _ _ h2', lfoAmp_not1 _ _ _ _ h2]
      rfl
    unfold outStage
    simp only [e]
    rfl
  unfold voiceSample
  simp only [h0, hm, hu, hs, hn, ho]
  rfl

theorem voiceSample_withLfo2 (J : Lib α) (c : BlockConsts α) (d : α) (o : Oscillator α)
    (v : SynthVoice α) (h1 : c.lfo2Tg ≠ 1) (h2 : c.lfo2Tg ≠ 2) :
    voiceSample J (c.withLfo2Dp d) (withLfo2 o v)
      = ((voiceSample J c v).1,
         withLfo2 (o.processSample J Generator.sine).2 (voiceSample J c v).2) := by
  have h0 : modStage J (c.withLfo2Dp d) (withLfo2 o v)
      = ((modStage J c v).1.withLfo2v (o.processSample J Generator.sine).1,
         withLfo2 (o.processSample J Generator.sine).2 (modStage J c v).2) := rfl
  have hm : ∀ (x : α) (q : Oscillator α) (m : Mods α) (w : SynthVoice α),
      mainStage J (c.withLfo2Dp d) (m.withLfo2v x) (withLfo2 q w)
        = ((mainStage J c m w).1, withLfo2 q (mainStage J c m w).2) := by
    intro x q m w
    unfold mainStage
    simp only [mainFreq_withLfo2 J c d x _ q m w h1]
    rfl
  have hu : ∀ (x : α) (q : Oscillator α) (m : Mods α) (s : α × α × α) (w : SynthVoice α),
      unisonStage J (c.withLfo2Dp d) (m.withLfo2v x) s (withLfo2 q w)
        = ((unisonStage J c m s w).1, withLfo2 q (unisonStage J c m s w).2) := by
    intro x q m s w
    have e : (c.withLfo2Dp d).uniOn = c.uniOn := rfl
    unfold unisonStage
    rw [e]
    simp only [mainFreq_withLfo2 J c d x _ q m w h1]
    split_ifs <;> rfl
  have hs : ∀ (q : Oscillator α) (w : SynthVoice α),
      subStage J (c.withLfo2Dp d) (withLfo2 q w)
        = ((subStage J c w).1, withLfo2 q (subStage J c w).2) := by
    intro q w
    have e : subStage J (c.withLfo2Dp d) (withLfo2 q w) = subStage J c (withLfo2 q w) := rfl
    rw [e]
    unfold subStage; split_ifs <;> rfl
  have hn : ∀ (q : Oscillator α) (w : SynthVoice α),
      noiseStage J (c.withLfo2Dp d) (withLfo2 q w)
        = ((noiseStage J c w).1, withLfo2 q (noiseStage J c w).2) := by
    intro q w
    have e : noiseStage J (c.withLfo2Dp d) (withLfo2 q w) = noiseStage J c (withLfo2 q w) :=
      rfl
    rw [e]
    unfold noiseStage; split_ifs <;> rfl
  have ho : ∀ (x : α) (q : Oscillator α) (m : Mods α) (dry : α) (w : SynthVoice α),
      outStage J (c.withLfo2Dp d) (m.withLfo2v x) dry (withLfo2 q w)
        = ((outStage J c m dry w).1, withLfo2 q (outStage J c m dry w).2) := by
    intro x q m dry w
    have h2' : (c.withLfo2Dp d).lfo2Tg ≠ 2 := h2
    have e : ∀ a : α, lfoAmp (c.withLfo2Dp d) (m.withLfo2v x).lfo1v (m.withLfo2v x).lfo2v a
        = lfoAmp c m.lfo1v m.lfo2v a := by
      intro a
      rw [lfoAmp_not2 _ _ _ _ h2', lfoAmp_not2 _ _ _ _ h2]
      rfl
    unfold outStage
    simp only [e]
    rfl
  unfold voiceSample
  simp only [h0, hm, hu, hs, hn, ho]
  rfl


theorem sampleLoop_withLfo1 (J : Lib α) (c : BlockConsts α) (d : α) (h1 : c.lfo1Tg ≠ 1)
    (h2 : c.lfo1Tg ≠ 2) (k : Nat) :
    ∀ (i : Nat) (o : Oscillator α) (v : SynthVoice α),
      sampleLoop J (c.withLfo1Dp d) k i (withLfo1 o v)
        = withLfo1 ((fun q : Oscillator α => (q.processSample J Generator.sine).2)^[k] o)
            (sampleLoop J c k i v) := by
  induction k with
  | zero => intro i o v; rfl
  | succ k ih =>
    intro i o v
    show sampleLoop J (c.withLfo1Dp d) k (i + 1) _ = _
    rw [voiceSample_withLfo1 J c d o v h1 h2, Function.iterate_succ_apply]
    exact ih (i + 1) (o.processSample J Generator.sine).2
      { (voiceSample J c v).2 with
        temp := ((voiceSample J c v).2.temp.addSample 0 i (voiceSample J c v).1.1).addSample 1 i
          (voiceSample J c v).1.2 }

theorem sampleLoop_withLfo2 (J : Lib α) (c : BlockConsts α) (d : α) (h1 : c.lfo2Tg ≠ 1)
    (h2 : c.lfo2Tg ≠ 2) (k : Nat) :
    ∀ (i : Nat) (o : Oscillator α) (v : SynthVoice α),
      sampleLoop J (c.withLfo2Dp d) k i (withLfo2 o v)
        = withLfo2 ((fun q : Oscillator α => (q.processSample J Generator.sine).2)^[k] o)
            (sampleLoop J c k i v) := by
  induction k with
  | zero => intro i o v; rfl
  | succ k ih =>
    intro i o v
    show sampleLoop J (c.withLfo2Dp d) k (i + 1) _ = _
    rw [voiceSample_withLfo2 J c d o v h1 h2, Function.iterate_succ_apply]
    exact ih (i + 1) (o.processSample J Generator.sine).2
      { (voiceSample J c v).2 with
        temp := ((voiceSample J c v).2.temp.addSample 0 i (voiceSample J c v).1.1).addSample 1 i
          (voiceSample J c v).1.2 }

theorem renderNextBlock_withLfo1 (J : Lib α) (P : Params α) (output : AudioBuffer α)
    (start n : Nat) (d r : α) (o : Oscillator α) (v : SynthVoice α)
    (h1 : J.toInt P.lfoTarget ≠ 1) (h2 : J.toInt P.lfoTarget ≠ 2) :
    ∃ q : Oscillator α,
      renderNextBlock J (P.withLfo1 d r) output start n (withLfo1 o v)
        = (withLfo1 q (renderNextBlock J P output start n v).1,
           (renderNextBlock J P output start n v).2) := by
  cases h : v.isVoiceActive
  · have h' : (withLfo1 o v).isVoiceActive = false := h
    rw [renderNextBlock_inactive J P output start n v h,
      renderNextBlock_inactive J _ output start n _ h']
    exact ⟨o, rfl⟩
  · have h' : (withLfo1 o v).isVoiceActive = true := h
    rw [renderNextBlock_active J P output start n v h,
      renderNextBlock_active J _ output start n _ h']
    have hb : beginBlock J (P.withLfo1 d r) n (withLfo1 o v)
        = withLfo1 (o.setFrequency r) (beginBlock J P n v) := rfl
    have hc : blockConsts J (P.withLfo1 d r) (withLfo1 (o.setFrequency r) (beginBlock J P n v))
        = (blockConsts J P (beginBlock J P n v)).withLfo1Dp d := rfl
    rw [hb, hc, sampleLoop_withLfo1 J _ d h1 h2]
    exact ⟨_, rfl⟩

theorem renderNextBlock_withLfo2 (J : Lib α) (P : Params α) (output : AudioBuffer α)
    (start n : Nat) (d r : α) (o : Oscillator α) (v : SynthVoice α)
    (h1 : J.toInt P.lfo2Target ≠ 1) (h2 : J.toInt P.lfo2Target ≠ 2) :
    ∃ q : Oscillator α,
      renderNextBlock J (P.withLfo2 d r) output start n (withLfo2 o v)
        = (withLfo2 q (renderNextBlock J P output start n v).1,
           (renderNextBlock J P output start n v).2) := by
  cases h : v.isVoiceActive
  · have h' : (withLfo2 o v).isVoiceActive = false := h
    rw [renderNextBlock_inactive J P output start n v h,
      renderNextBlock_inactive J _ output start n _ h']
    exact ⟨o, rfl⟩
  · have h' : (withLfo2 o v).isVoiceActive = true := h
    rw [renderNextBlock_active J P output start n v h,
      renderNextBlock_active J _ output start n _ h']
    have hb : beginBlock J (P.withLfo2 d r) n (withLfo2 o v)
        = withLfo2 (o.setFrequency r) (beginBlock J P n v) := rfl
    have hc : blockConsts J (P.withLfo2 d r) (withLfo2 (o.setFrequency r) (beginBlock J P n v))
        = (blockConsts J P (beginBlock J P n v)).withLfo2Dp d := rfl
    rw [hb, hc, sampleLoop_withLfo2 J _ d h1 h2]
    exact ⟨_, rfl⟩

theorem voiceSample_pwmLfos (J : Lib α) (c : BlockConsts α) (v : SynthVoice α) :
    (voiceSample J c v).2.pwmLfo1 = (v.pwmLfo1.processSample J Generator.sine).2
      ∧ (voiceSample J c v).2.pwmLfo2 = (v.pwmLfo2.processSample J Generator.sine).2
      ∧ (voiceSample J c v).2.pwmLfo3 = (v.pwmLfo3.processSample J Generator.sine).2 := by
  have h1 : ∀ w : SynthVoice α, (subStage J c w).2.pwmLfo1 = w.pwmLfo1
      ∧ (subStage J c w).2.pwmLfo2 = w.pwmLfo2 ∧ (subStage J c w).2.pwmLfo3 = w.pwmLfo3 := by
    intro w; unfold subStage; split_ifs <;> exact ⟨rfl, rfl, rfl⟩
  have h2 : ∀ w : SynthVoice α, (noiseStage J c w).2.pwmLfo1 = w.pwmLfo1
      ∧ (noiseStage J c w).2.pwmLfo2 = w.pwmLfo2 ∧ (noiseStage J c w).2.pwmLfo3 = w.pwmLfo3 := by
    intro w; unfold noiseStage; split_ifs <;> exact ⟨rfl, rfl, rfl⟩
  have h3 : ∀ (m : Mods α) (s : α × α × α) (w : SynthVoice α),
      (unisonStage J c m s w).2.pwmLfo1 = w.pwmLfo1
      ∧ (unisonStage J c m s w).2.pwmLfo2 = w.pwmLfo2
      ∧ (unisonStage J c m s w).2.pwmLfo3 = w.pwmLfo3 := by
    intro m s w; unfold unisonStage; split_ifs <;> exact ⟨rfl, rfl, rfl⟩
  unfold voiceSample
  refine ⟨?_, ?_, ?_⟩
  · show (noiseStage J c _).2.pwmLfo1 = _
    rw [(h2 _).1, (h1 _).1, (h3 _ _ _).1]
    rfl
  · show (noiseStage J c _).2.pwmLfo2 = _
    rw [(h2 _).2.1, (h1 _).2.1, (h3 _ _ _).2.1]
    rfl
  · show (noiseStage J c _).2.pwmLfo3 = _
    rw [(h2 _).2.2, (h1 _).2.2, (h3 _ _ _).2.2]
    rfl

/-- The filter envelope and the three PWM oscillators after `k` samples depend on their own
state at the start only. -/
theorem voiceAfter_modSources (J : Lib α) (c c2 : BlockConsts α) (v v2 : SynthVoice α)
    (he : v2.filtEnv = v.filtEnv) (hp1 : v2.pwmLfo1 = v.pwmLfo1)
    (hp2 : v2.pwmLfo2 = v.pwmLfo2) (hp3 : v2.pwmLfo3 = v.pwmLfo3) (k : Nat) :
    (voiceAfter J c2 v2 k).filtEnv = (voiceAfter J c v k).filtEnv
      ∧ (voiceAfter J c2 v2 k).pwmLfo1 = (voiceAfter J c v k).pwmLfo1
      ∧ (voiceAfter J c2 v2 k).pwmLfo2 = (voiceAfter J c v k).pwmLfo2
      ∧ (voiceAfter J c2 v2 k).pwmLfo3 = (voiceAfter J c v k).pwmLfo3 := by
  induction k with
  | zero => exact ⟨he, hp1, hp2, hp3⟩
  | succ k ih =>
    obtain ⟨a, b1, b2, b3⟩ := ih
    obtain ⟨p1, p2, p3⟩ := voiceSample_pwmLfos J c (voiceAfter J c v k)
    obtain ⟨q1, q2, q3⟩ := voiceSample_pwmLfos J c2 (voiceAfter J c2 v2 k)
    refine ⟨?_, ?_, ?_, ?_⟩
    · show (voiceSample J c2 _).2.filtEnv = (voiceSample J c _).2.filtEnv
      rw [voiceSample_filtEnv, voiceSample_filtEnv, a]
    · show (voiceSample J c2 _).2.pwmLfo1 = (voiceSample J c _).2.pwmLfo1
      rw [p1, q1, b1]
    · show (voiceSample J c2 _).2.pwmLfo2 = (voiceSample J c _).2.pwmLfo2
      rw [p2, q2, b2]
    · show (voiceSample J c2 _).2.pwmLfo3 = (voiceSample J c _).2.pwmLfo3
      rw [p3, q3, b3]

/-- C29: an LFO whose target index is neither 1 (Pitch) nor 2 (Amp) has no effect on the
sound.  If the target of LFO 1 in the snapshot `P` is neither 1 nor 2, a render call with the
depth and the rate of LFO 1 replaced by any `d` and `r`, on a voice whose LFO 1 oscillator
(phase included) is replaced by any `o`, writes the same output buffer as the render call
with `P` on `v`, and leaves the same voice up to the LFO 1 oscillator; the same holds for
LFO 2.  For every target and depth of the two LFOs and every state of their oscillators, the
three pulse widths of sample `k` of the loop and the cutoff given to both filters in sample
`k` are the same. -/
theorem lfo_other_target_no_effect (J : Lib α) (P : Params α) (output : AudioBuffer α)
    (start n : Nat) (d r : α) (o : Oscillator α) (v : SynthVoice α) :
    (J.toInt P.lfoTarget ≠ 1 → J.toInt P.lfoTarget ≠ 2 →
      (renderNextBlock J (P.withLfo1 d r) output start n (withLfo1 o v)).2
          = (renderNextBlock J P output start n v).2
        ∧ ∃ q : Oscillator α,
            (renderNextBlock J (P.withLfo1 d r) output start n (withLfo1 o v)).1
              = withLfo1 q (renderNextBlock J P output start n v).1)
    ∧ (J.toInt P.lfo2Target ≠ 1 → J.toInt P.lfo2Target ≠ 2 →
      (renderNextBlock J (P.withLfo2 d r) output start n (withLfo2 o v)).2
          = (renderNextBlock J P output start n v).2
        ∧ ∃ q : Oscillator α,
            (renderNextBlock J (P.withLfo2 d r) output start n (withLfo2 o v)).1
              = withLfo2 q (renderNextBlock J P output start n v).1)
    ∧ (∀ (c : BlockConsts α) (t1 t2 : Int) (d1 d2 : α) (o1 o2 : Oscillator α) (k : Nat),
        (modStage J (c.withLfos t1 d1 t2 d2)
            (voiceAfter J (c.withLfos t1 d1 t2 d2) (withLfos o1 o2 v) k)).1.pw1
          = (modStage J c (voiceAfter J c v k)).1.pw1
        ∧ (modStage J (c.withLfos t1 d1 t2 d2)
            (voiceAfter J (c.withLfos t1 d1 t2 d2) (withLfos o1 o2 v) k)).1.pw2
          = (modStage J c (voiceAfter J c v k)).1.pw2
        ∧ (modStage J (c.withLfos t1 d1 t2 d2)
            (voiceAfter J (c.withLfos t1 d1 t2 d2) (withLfos o1 o2 v) k)).1.pw3
          = (modStage J c (voiceAfter J c v k)).1.pw3
        ∧ (voiceAfter J (c.withLfos t1 d1 t2 d2) (withLfos o1 o2 v) (k + 1)).filterL.cutoffFrequency
          = (voiceAfter J c v (k + 1)).filterL.cutoffFrequency
        ∧ (voiceAfter J (c.withLfos t1 d1 t2 d2) (withLfos o1 o2 v) (k + 1)).filterR.cutoffFrequency
          = (voiceAfter J c v (k + 1)).filterR.cutoffFrequency) := by
  refine ⟨?_, ?_, ?_⟩
  · intro h1 h2
    obtain ⟨q, e⟩ := renderNextBlock_withLfo1 J P output start n d r o v h1 h2
    exact ⟨by rw [e], q, by rw [e]⟩
  · intro h1 h2
    obtain ⟨q, e⟩ := renderNextBlock_withLfo2 J P output start n d r o v h1 h2
    exact ⟨by rw [e], q, by rw [e]⟩
  · intro c t1 t2 d1 d2 o1 o2 k
    obtain ⟨a, b1, b2, b3⟩ := voiceAfter_modSources J c (c.withLfos t1 d1 t2 d2) v
      (withLfos o1 o2 v) rfl rfl rfl rfl k
    obtain ⟨fl, fr, _, _⟩ := voiceSample_filter_settings J c (voiceAfter J c v k)
    obtain ⟨gl, gr, _, _⟩ := voiceSample_filter_settings J (c.withLfos t1 d1 t2 d2)
      (voiceAfter J (c.withLfos t1 d1 t2 d2) (withLfos o1 o2 v) k)
    refine ⟨?_, ?_, ?_, ?_, ?_⟩
    · show jlimit (5 / 100) (95 / 100) (c.pwm1B + c.pwmD1 * (Oscillator.processSample J
          Generator.sine (voiceAfter J (c.withLfos t1 d1 t2 d2) (withLfos o1 o2 v) k).pwmLfo1).1)
        = _
      rw [b1]; rfl
    · show jlimit (5 / 100) (95 / 100) (c.pwm2B + c.pwmD2 * (Oscillator.processSample J
          Generator.sine (voiceAfter J (c.withLfos t1 d1 t2 d2) (withLfos o1 o2 v) k).pwmLfo2).1)
        = _
      rw [b2]; rfl
    · show jlimit (5 / 100) (95 / 100) (c.pwm3B + c.pwmD3 * (Oscillator.processSample J
          Generator.sine (voiceAfter J (c.withLfos t1 d1 t2 d2) (withLfos o1 o2 v) k).pwmLfo3).1)
        = _
      rw [b3]; rfl
    · show (voiceSample J _ _).2.filterL.cutoffFrequency
        = (voiceSample J c _).2.filterL.cutoffFrequency
      rw [fl, gl, a]; rfl
    · show (voiceSample J _ _).2.filterR.cutoffFrequency
        = (voiceSample J c _).2.filterR.cutoffFrequency
      rw [fr, gr, a]; rfl

end LfoTarget

end SynthVoice

/-- Witness of C29: LFO 1 aimed at the cutoff (3) and LFO 2 at the pulse width (4); depth 1,
rate 7 Hz and an oscillator at phase 1/3 change nothing in the output of a render call of 8
samples. -/
theorem lfo_other_target_no_effect_witness :
    (refLib.toInt cutoffLfoParams.lfoTarget ≠ 1 ∧ refLib.toInt cutoffLfoParams.lfoTarget ≠ 2
      ∧ refLib.toInt cutoffLfoParams.lfo2Target ≠ 1
      ∧ refLib.toInt cutoffLfoParams.lfo2Target ≠ 2)
    ∧ (SynthVoice.renderNextBlock refLib (cutoffLfoParams.withLfo1 1 7) stereoOut 0 8
          (SynthVoice.withLfo1 { sampleRate := 44100, frequency := 7, phase := 1 / 3 }
            playingVoice)).2
        = (SynthVoice.renderNextBlock refLib cutoffLfoParams stereoOut 0 8 playingVoice).2
    ∧ (SynthVoice.renderNextBlock refLib (cutoffLfoParams.withLfo2 1 7) stereoOut 0 8
          (SynthVoice.withLfo2 { sampleRate := 44100, frequency := 7, phase := 1 / 3 }
            playingVoice)).2
        = (SynthVoice.renderNextBlock refLib cutoffLfoParams stereoOut 0 8 playingVoice).2 := by
  have a1 : refLib.toInt cutoffLfoParams.lfoTarget ≠ 1 := by
    show (if (0 : ℚ) ≤ 3 then ⌊(3 : ℚ)⌋ else ⌈(3 : ℚ)⌉) ≠ 1
    norm_num
  have a2 : refLib.toInt cutoffLfoParams.lfoTarget ≠ 2 := by
    show (if (0 : ℚ) ≤ 3 then ⌊(3 : ℚ)⌋ else ⌈(3 : ℚ)⌉) ≠ 2
    norm_num
  have b1 : refLib.toInt cutoffLfoParams.lfo2Target ≠ 1 := by
    show (if (0 : ℚ) ≤ 4 then ⌊(4 : ℚ)⌋ else ⌈(4 : ℚ)⌉) ≠ 1
    norm_num
  have b2 : refLib.toInt cutoffLfoParams.lfo2Target ≠ 2 := by
    show (if (0 : ℚ) ≤ 4 then ⌊(4 : ℚ)⌋ else ⌈(4 : ℚ)⌉) ≠ 2
    norm_num
  have t := SynthVoice.lfo_other_target_no_effect refLib cutoffLfoParams stereoOut 0 8 1 7
    { sampleRate := 44100, frequency := 7, phase := 1 / 3 } playingVoice
  exact ⟨⟨a1, a2, b1, b2⟩, (t.1 a1 a2).1, (t.2.1 b1 b2).1⟩

end MiniSynth

namespace MiniSynth

namespace SynthVoice

section Filters

variable {α : Type} [LinearOrderedField α]

theorem outStage_filters (J : Lib α) (c : BlockConsts α) (m : Mods α) (dry : α)
    (w : SynthVoice α) (hs : w.filterL.sampleRate = w.filterR.sampleRate)
    (ht : w.filterL.filterType = w.filterR.filterType)
    (hm : w.filterL.mem 0 = w.filterR.mem 1) :
    (((w.filterL.setCutoffFrequency (jlimit 20 20000
          (c.cutoff * J.pow2 (c.fAmt * (w.filtEnv.getNextSample.1 - 1 / 2))))).setResonance
          c.q).processSample J 0 dry).1
      = (((w.filterR.setCutoffFrequency (jlimit 20 20000
          (c.cutoff * J.pow2 (c.fAmt * (w.filtEnv.getNextSample.1 - 1 / 2))))).setResonance
          c.q).processSample J 1 dry).1
    ∧ (outStage J c m dry w).1.1 * (1 / 2 + 1 / 2 * c.spread)
        = (outStage J c m dry w).1.2 * (1 / 2 - 1 / 2 * c.spread)
    ∧ FiltersAgree (outStage J c m dry w).2 := by
  have key : J.svf w.filterL.filterType w.filterL.sampleRate
        (jlimit 20 20000 (c.cutoff * J.pow2 (c.fAmt * (w.filtEnv.getNextSample.1 - 1 / 2))))
        c.q (w.filterL.mem 0) dry
      = J.svf w.filterR.filterType w.filterR.sampleRate
        (jlimit 20 20000 (c.cutoff * J.pow2 (c.fAmt * (w.filtEnv.getNextSample.1 - 1 / 2))))
        c.q (w.filterR.mem 1) dry := by
    rw [hs, ht, hm]
  have out : (((w.filterL.setCutoffFrequency (jlimit 20 20000
          (c.cutoff * J.pow2 (c.fAmt * (w.filtEnv.getNextSample.1 - 1 / 2))))).setResonance
          c.q).processSample J 0 dry).1
      = (((w.filterR.setCutoffFrequency (jlimit 20 20000
          (c.cutoff * J.pow2 (c.fAmt * (w.filtEnv.getNextSample.1 - 1 / 2))))).setResonance
          c.q).processSample J 1 dry).1 := by
    show (J.svf w.filterL.filterType w.filterL.sampleRate
        (jlimit 20 20000 (c.cutoff * J.pow2 (c.fAmt * (w.filtEnv.getNextSample.1 - 1 / 2))))
        c.q (w.filterL.mem 0) dry).1
      = (J.svf w.filterR.filterType w.filterR.sampleRate
        (jlimit 20 20000 (c.cutoff * J.pow2 (c.fAmt * (w.filtEnv.getNextSample.1 - 1 / 2))))
        c.q (w.filterR.mem 1) dry).1
    rw [key]
  refine ⟨out, ?_, hs, ht, rfl, rfl, ?_⟩
  · show (((w.filterL.setCutoffFrequency (jlimit 20 20000
          (c.cutoff * J.pow2 (c.fAmt * (w.filtEnv.getNextSample.1 - 1 / 2))))).setResonance
          c.q).processSample J 0 dry).1 * lfoAmp c m.lfo1v m.lfo2v w.ampEnv.getNextSample.1
          * (1 / 2 - 1 / 2 * c.spread) * c.gLin * (1 / 2 + 1 / 2 * c.spread)
      = (((w.filterR.setCutoffFrequency (jlimit 20 20000
          (c.cutoff * J.pow2 (c.fAmt * (w.filtEnv.getNextSample.1 - 1 / 2))))).setResonance
          c.q).processSample J 1 dry).1 * lfoAmp c m.lfo1v m.lfo2v w.ampEnv.getNextSample.1
          * (1 / 2 + 1 / 2 * c.spread) * c.gLin * (1 / 2 - 1 / 2 * c.spread)
    rw [out]
    ring
  · show Function.update w.filterL.mem 0 _ 0 = Function.update w.filterR.mem 1 _ 1
    rw [Function.update_same, Function.update_same]
    exact congrArg Prod.snd key

/-- One sample of the loop on a voice whose filters agree in sample rate, type and state: the
two filters receive the same dry input and return the same output, the pair `(l, r)` is this
output times the amplitude, the pan factor of the side and the gain, and afterwards the
filters agree in every setting and in their state. -/
theorem voiceSample_filters (J : Lib α) (c : BlockConsts α) (v : SynthVoice α)
    (hs : v.filterL.sampleRate = v.filterR.sampleRate)
    (ht : v.filterL.filterType = v.filterR.filterType)
    (hm : v.filterL.mem 0 = v.filterR.mem 1) :
    (∃ dry : α,
      (((v.filterL.setCutoffFrequency (jlimit 20 20000
            (c.cutoff * J.pow2 (c.fAmt * (v.filtEnv.getNextSample.1 - 1 / 2))))).setResonance
            c.q).processSample J 0 dry).1
        = (((v.filterR.setCutoffFrequency (jlimit 20 20000
            (c.cutoff * J.pow2 (c.fAmt * (v.filtEnv.getNextSample.1 - 1 / 2))))).setResonance
            c.q).processSample J 1 dry).1
      ∧ (voiceSample J c v).1
        = ((((v.filterL.setCutoffFrequency (jlimit 20 20000
              (c.cutoff * J.pow2 (c.fAmt * (v.filtEnv.getNextSample.1 - 1 / 2))))).setResonance
              c.q).processSample J 0 dry).1
            * lfoAmp c (modStage J c v).1.lfo1v (modStage J c v).1.lfo2v
                v.ampEnv.getNextSample.1
            * (1 / 2 - 1 / 2 * c.spread) * c.gLin,
           (((v.filterR.setCutoffFrequency (jlimit 20 20000
              (c.cutoff * J.pow2 (c.fAmt * (v.filtEnv.getNextSample.1 - 1 / 2))))).setResonance
              c.q).processSample J 1 dry).1
            * lfoAmp c (modStage J c v).1.lfo1v (modStage J c v).1.lfo2v
                v.ampEnv.getNextSample.1
            * (1 / 2 + 1 / 2 * c.spread) * c.gLin))
    ∧ (voiceSample J c v).1.1 * (1 / 2 + 1 / 2 * c.spread)
        = (voiceSample J c v).1.2 * (1 / 2 - 1 / 2 * c.spread)
    ∧ FiltersAgree (voiceSample J c v).2 := by
  obtain ⟨dry, w, e, ha, hf, hl, hr⟩ := voiceSample_eq_outStage J c v
  have hs' : w.filterL.sampleRate = w.filterR.sampleRate := by rw [hl, hr]; exact hs
  have ht' : w.filterL.filterType = w.filterR.filterType := by rw [hl, hr]; exact ht
  have hm' : w.filterL.mem 0 = w.filterR.mem 1 := by rw [hl, hr]; exact hm
  obtain ⟨o1, o2, o3⟩ := outStage_filters J c (modStage J c v).1 dry w hs' ht' hm'
  rw [hl, hr, hf] at o1
  refine ⟨⟨dry, o1, ?_⟩, ?_, ?_⟩
  · rw [e, ← hl, ← hr, ← hf, ← ha]
    rfl
  · rw [e]; exact o2
  · rw [e]; exact o3

theorem FiltersAgree.memAgree {v : SynthVoice α} (h : FiltersAgree v) : FilterMemAgree v :=
  ⟨h.1, h.2.2.2.2⟩

theorem sampleLoop_filters (J : Lib α) (c : BlockConsts α) (k : Nat) :
    ∀ (i : Nat) (v : SynthVoice α), FilterMemAgree v →
      v.filterL.filterType = v.filterR.filterType →
      FilterMemAgree (sampleLoop J c k i v)
        ∧ (sampleLoop J c k i v).filterL.filterType = (sampleLoop J c k i v).filterR.filterType
        ∧ (FiltersAgree v → FiltersAgree (sampleLoop J c k i v)) := by
  induction k with
  | zero => intro i v h ht; exact ⟨h, ht, fun a => a⟩
  | succ k ih =>
    intro i v h ht
    obtain ⟨_, _, a⟩ := voiceSample_filters J c v h.1 ht h.2
    have a' : FiltersAgree
        { (voiceSample J c v).2 with
          temp := ((voiceSample J c v).2.temp.addSample 0 i (voiceSample J c v).1.1).addSample
            1 i (voiceSample J c v).1.2 } := a
    obtain ⟨r1, r2, r3⟩ := ih (i + 1) _ a'.memAgree a'.2.1
    exact ⟨r1, r2, fun _ => r3 a'⟩

theorem beginBlock_filters (J : Lib α) (P : Params α) (n : Nat) (v : SynthVoice α) :
    (FilterMemAgree v → FilterMemAgree (beginBlock J P n v))
      ∧ (beginBlock J P n v).filterL.filterType = (beginBlock J P n v).filterR.filterType
      ∧ (FiltersAgree v → FiltersAgree (beginBlock J P n v)) :=
  ⟨fun h => h, rfl, fun h => ⟨h.1, rfl, h.2.2.1, h.2.2.2.1, h.2.2.2.2⟩⟩

theorem renderNextBlock_filters (J : Lib α) (P : Params α) (output : AudioBuffer α)
    (start n : Nat) (v : SynthVoice α) :
    (FilterMemAgree v → FilterMemAgree (renderNextBlock J P output start n v).1)
      ∧ (FiltersAgree v → FiltersAgree (renderNextBlock J P output start n v).1) := by
  cases h : v.isVoiceActive
  · rw [renderNextBlock_inactive J P output start n v h]
    exact ⟨fun a => a, fun a => a⟩
  · rw [renderNextBlock_active J P output start n v h]
    obtain ⟨b1, b2, b3⟩ := beginBlock_filters J P n v
    constructor
    · intro a
      exact (sampleLoop_filters J _ n 0 _ (b1 a) b2).1
    · intro a
      exact (sampleLoop_filters J _ n 0 _ (b1 a.memAgree) b2).2.2 (b3 a)

theorem prepare_filters (P : Params α) (sr : α) (spb numCh : Nat) (v : SynthVoice α) :
    FilterMemAgree (prepare P sr spb numCh v)
      ∧ (FiltersAgree v → FiltersAgree (prepare P sr spb numCh v)) :=
  ⟨⟨rfl, rfl⟩, fun h => ⟨rfl, h.2.1, h.2.2.1, h.2.2.2.1, rfl⟩⟩

theorem stopNote_filters (tail : Bool) (v : SynthVoice α) :
    (stopNote tail v).filterL = v.filterL ∧ (stopNote tail v).filterR = v.filterR := by
  unfold stopNote
  show SynthVoice.filterL (if (!tail || !v.ampEnv.noteOff.isActive) = true then _ else _) = _
    ∧ SynthVoice.filterR (if (!tail || !v.ampEnv.noteOff.isActive) = true then _ else _) = _
  split_ifs <;> exact ⟨rfl, rfl⟩

theorem apply_filters (J : Lib α) (c : Call α) (v : SynthVoice α) :
    (FilterMemAgree v → FilterMemAgree (c.apply J v).1)
      ∧ (FiltersAgree v → FiltersAgree (c.apply J v).1) := by
  cases c with
  | prepare P sr spb numCh =>
    exact ⟨fun _ => (prepare_filters P sr spb numCh v).1, (prepare_filters P sr spb numCh v).2⟩
  | startNote midi vel => exact ⟨fun a => a, fun a => a⟩
  | stopNote tail =>
    obtain ⟨e1, e2⟩ := stopNote_filters tail v
    constructor
    · intro a
      show (stopNote tail v).filterL.sampleRate = (stopNote tail v).filterR.sampleRate
        ∧ (stopNote tail v).filterL.mem 0 = (stopNote tail v).filterR.mem 1
      rw [e1, e2]; exact a
    · intro a
      show (stopNote tail v).filterL.sampleRate = (stopNote tail v).filterR.sampleRate
        ∧ (stopNote tail v).filterL.filterType = (stopNote tail v).filterR.filterType
        ∧ (stopNote tail v).filterL.cutoffFrequency = (stopNote tail v).filterR.cutoffFrequency
        ∧ (stopNote tail v).filterL.resonance = (stopNote tail v).filterR.resonance
        ∧ (stopNote tail v).filterL.mem 0 = (stopNote tail v).filterR.mem 1
      rw [e1, e2]; exact a
  | pitchWheelMoved P value => exact ⟨fun a => a, fun a => a⟩
  | channelPressureChanged value => exact ⟨fun a => a, fun a => a⟩
  | aftertouchChanged value => exact ⟨fun a => a, fun a => a⟩
  | controllerMoved a b => exact ⟨fun a => a, fun a => a⟩
  | renderNextBlock P output start n => exact renderNextBlock_filters J P output start n v

theorem run_filters (J : Lib α) (cs : List (Call α)) :
    ∀ v : SynthVoice α,
      (FilterMemAgree v → FilterMemAgree (run J cs v).1)
        ∧ (FiltersAgree v → FiltersAgree (run J cs v).1) := by
  induction cs with
  | nil => intro v; exact ⟨fun a => a, fun a => a⟩
  | cons c cs ih =>
    intro v
    obtain ⟨a1, a2⟩ := apply_filters J c v
    obtain ⟨r1, r2⟩ := ih (c.apply J v).1
    exact ⟨fun a => r1 (a1 a), fun a => r2 (a2 a)⟩

theorem voiceAfter_filters (J : Lib α) (c : BlockConsts α) (v : SynthVoice α)
    (h : FilterMemAgree v) (ht : v.filterL.filterType = v.filterR.filterType) (k : Nat) :
    FilterMemAgree (voiceAfter J c v k)
      ∧ (voiceAfter J c v k).filterL.filterType = (voiceAfter J c v k).filterR.filterType := by
  induction k with
  | zero => exact ⟨h, ht⟩
  | succ k ih =>
    obtain ⟨_, _, a⟩ := voiceSample_filters J c (voiceAfter J c v k) ih.1.1 ih.2 ih.1.2
    exact ⟨a.memAgree, a.2.1⟩

/-- The sample body ends with `outStage`, run on the dry signal of the sample and on a voice
whose envelopes and filters are those of the voice at the start of the body. -/
theorem voiceSample_eq_dry (J : Lib α) (c : BlockConsts α) (v : SynthVoice α) :
    ∃ w : SynthVoice α,
      voiceSample J c v = outStage J c (modStage J c v).1 (drySignal J c v) w
        ∧ w.ampEnv = v.ampEnv ∧ w.filtEnv = v.filtEnv
        ∧ w.filterL = v.filterL ∧ w.filterR = v.filterR := by
  have h1 : ∀ w : SynthVoice α, (subStage J c w).2.ampEnv = w.ampEnv
      ∧ (subStage J c w).2.filtEnv = w.filtEnv ∧ (subStage J c w).2.filterL = w.filterL
      ∧ (subStage J c w).2.filterR = w.filterR := by
    intro w; unfold subStage; split_ifs <;> exact ⟨rfl, rfl, rfl, rfl⟩
  have h2 : ∀ w : SynthVoice α, (noiseStage J c w).2.ampEnv = w.ampEnv
      ∧ (noiseStage J c w).2.filtEnv = w.filtEnv ∧ (noiseStage J c w).2.filterL = w.filterL
      ∧ (noiseStage J c w).2.filterR = w.filterR := by
    intro w; unfold noiseStage; split_ifs <;> exact ⟨rfl, rfl, rfl, rfl⟩
  have h3 : ∀ (m : Mods α) (s : α × α × α) (w : SynthVoice α),
      (unisonStage J c m s w).2.ampEnv = w.ampEnv
      ∧ (unisonStage J c m s w).2.filtEnv = w.filtEnv
      ∧ (unisonStage J c m s w).2.filterL = w.filterL
      ∧ (unisonStage J c m s w).2.filterR = w.filterR := by
    intro m s w; unfold unisonStage; split_ifs <;> exact ⟨rfl, rfl, rfl, rfl⟩
  refine ⟨_, rfl, ?_, ?_, ?_, ?_⟩
  · rw [(h2 _).1, (h1 _).1, (h3 _ _ _).1]; rfl
  · rw [(h2 _).2.1, (h1 _).2.1, (h3 _ _ _).2.1]; rfl
  · rw [(h2 _).2.2.1, (h1 _).2.2.1, (h3 _ _ _).2.2.1]; rfl
  · rw [(h2 _).2.2.2, (h1 _).2.2.2, (h3 _ _ _).2.2.2]; rfl

/-- One sample of the loop on a voice whose filters agree in sample rate, type and state,
with the dry signal and the amplitude of the sample spelled out: both filters are run on the
dry signal of the sample and return the same value, and `(l, r)` is the value of the filter
of the side times the amplitude, the pan factor of the side and the gain. -/
theorem voiceSample_frame (J : Lib α) (c : BlockConsts α) (v : SynthVoice α)
    (hs : v.filterL.sampleRate = v.filterR.sampleRate)
    (ht : v.filterL.filterType = v.filterR.filterType)
    (hm : v.filterL.mem 0 = v.filterR.mem 1) :
    (((v.filterL.setCutoffFrequency (jlimit 20 20000
          (c.cutoff * J.pow2 (c.fAmt * (v.filtEnv.getNextSample.1 - 1 / 2))))).setResonance
          c.q).processSample J 0 (drySignal J c v)).1
      = (((v.filterR.setCutoffFrequency (jlimit 20 20000
          (c.cutoff * J.pow2 (c.fAmt * (v.filtEnv.getNextSample.1 - 1 / 2))))).setResonance
          c.q).processSample J 1 (drySignal J c v)).1
    ∧ (voiceSample J c v).1
      = ((((v.filterL.setCutoffFrequency (jlimit 20 20000
            (c.cutoff * J.pow2 (c.fAmt * (v.filtEnv.getNextSample.1 - 1 / 2))))).setResonance
            c.q).processSample J 0 (drySignal J c v)).1
          * ampSignal J c v * (1 / 2 - 1 / 2 * c.spread) * c.gLin,
         (((v.filterR.setCutoffFrequency (jlimit 20 20000
            (c.cutoff * J.pow2 (c.fAmt * (v.filtEnv.getNextSample.1 - 1 / 2))))).setResonance
            c.q).processSample J 1 (drySignal J c v)).1
          * ampSignal J c v * (1 / 2 + 1 / 2 * c.spread) * c.gLin) := by
  obtain ⟨w, e, ha, hf, hl, hr⟩ := voiceSample_eq_dry J c v
  have hs' : w.filterL.sampleRate = w.filterR.sampleRate := by rw [hl, hr]; exact hs
  have ht' : w.filterL.filterType = w.filterR.filterType := by rw [hl, hr]; exact ht
  have hm' : w.filterL.mem 0 = w.filterR.mem 1 := by rw [hl, hr]; exact hm
  obtain ⟨o1, _, _⟩ := outStage_filters J c (modStage J c v).1 (drySignal J c v) w hs' ht' hm'
  rw [hl, hr, hf] at o1
  refine ⟨o1, ?_⟩
  rw [e, ← hl, ← hr, ← hf]
  unfold ampSignal
  rw [← ha]
  rfl

theorem atSample_filters (J : Lib α) (P : Params α) (n i : Nat) (v : SynthVoice α)
    (h : FilterMemAgree v) :
    ((sampleFilterL J P (atSample J P n v i)).sampleRate
          = (sampleFilterR J P (atSample J P n v i)).sampleRate
      ∧ (sampleFilterL J P (atSample J P n v i)).filterType
          = (sampleFilterR J P (atSample J P n v i)).filterType
      ∧ (sampleFilterL J P (atSample J P n v i)).cutoffFrequency
          = (sampleFilterR J P (atSample J P n v i)).cutoffFrequency
      ∧ (sampleFilterL J P (atSample J P n v i)).resonance
          = (sampleFilterR J P (atSample J P n v i)).resonance
      ∧ (sampleFilterL J P (atSample J P n v i)).mem 0
          = (sampleFilterR J P (atSample J P n v i)).mem 1)
    ∧ (SVFilter.processSample J 0 (sampleDry J P n v i)
          (sampleFilterL J P (atSample J P n v i))).1
        = (SVFilter.processSample J 1 (sampleDry J P n v i)
          (sampleFilterR J P (atSample J P n v i))).1
    ∧ renderFrame J P n v i
        = ((SVFilter.processSample J 0 (sampleDry J P n v i)
              (sampleFilterL J P (atSample J P n v i))).1
            * sampleAmp J P n v i * (1 / 2 - 1 / 2 * P.stereoSpread) * J.decibelsToGain P.gain,
           (SVFilter.processSample J 1 (sampleDry J P n v i)
              (sampleFilterR J P (atSample J P n v i))).1
            * sampleAmp J P n v i * (1 / 2 + 1 / 2 * P.stereoSpread) * J.decibelsToGain P.gain)
    ∧ (renderFrame J P n v i).1 * (1 / 2 + 1 / 2 * P.stereoSpread)
        = (renderFrame J P n v i).2 * (1 / 2 - 1 / 2 * P.stereoSpread)
    ∧ FiltersAgree (atSample J P n v (i + 1)) := by
  obtain ⟨b1, b2, _⟩ := beginBlock_filters J P n v
  obtain ⟨w1, w2⟩ := voiceAfter_filters J (blockConsts J P (beginBlock J P n v))
    (beginBlock J P n v) (b1 h) b2 i
  obtain ⟨_, o3, o4⟩ := voiceSample_filters J
    (blockConsts J P (beginBlock J P n v)) (atSample J P n v i) w1.1 w2 w1.2
  obtain ⟨f1, f2⟩ := voiceSample_frame J
    (blockConsts J P (beginBlock J P n v)) (atSample J P n v i) w1.1 w2 w1.2
  exact ⟨⟨w1.1, w2, rfl, rfl, w1.2⟩, f1, f2, o3, o4⟩

/-- C30, amended: after `prepare` the left and the right filter stay in step, not in
identical states.  The left filter is run on channel 0 and the right filter on channel 1, so
each keeps its state values at another channel index.  Let `v` be the voice after `prepare`
(on any voice `v0`) followed by any sequence of calls.  The two filters of `v` have the same
sample rate, and the state of channel 0 of the left filter equals the state of channel 1 of
the right filter; if `v0` is the constructed voice they also have the same type, cutoff and
resonance.  In every iteration `i` of the sample loop of a render call on `v`, the two
filters as set up for the sample have the same sample rate, type, cutoff and resonance and
corresponding state; both are run on the dry signal of the iteration and return the same
value; the pair `(l, r)` is the value of the filter of the side times the amplitude of the
iteration, the pan factor of the side and the gain; `l * panR = r * panL`; and after the
iteration the filters agree in type, cutoff, resonance, sample rate and corresponding
state. -/
theorem filters_stay_in_step (J : Lib α) (P0 : Params α) (sr : α) (spb numCh : Nat)
    (v0 : SynthVoice α) (cs : List (Call α)) (P : Params α) (n i : Nat) :
    FilterMemAgree (run J cs (prepare P0 sr spb numCh v0)).1
    ∧ FiltersAgree (run J cs (prepare P0 sr spb numCh ({} : SynthVoice α))).1
    ∧ ((sampleFilterL J P
            (atSample J P n (run J cs (prepare P0 sr spb numCh v0)).1 i)).sampleRate
          = (sampleFilterR J P
              (atSample J P n (run J cs (prepare P0 sr spb numCh v0)).1 i)).sampleRate
      ∧ (sampleFilterL J P
            (atSample J P n (run J cs (prepare P0 sr spb numCh v0)).1 i)).filterType
          = (sampleFilterR J P
              (atSample J P n (run J cs (prepare P0 sr spb numCh v0)).1 i)).filterType
      ∧ (sampleFilterL J P
            (atSample J P n (run J cs (prepare P0 sr spb numCh v0)).1 i)).cutoffFrequency
          = (sampleFilterR J P
              (atSample J P n (run J cs (prepare P0 sr spb numCh v0)).1 i)).cutoffFrequency
      ∧ (sampleFilterL J P
            (atSample J P n (run J cs (prepare P0 sr spb numCh v0)).1 i)).resonance
          = (sampleFilterR J P
              (atSample J P n (run J cs (prepare P0 sr spb numCh v0)).1 i)).resonance
      ∧ (sampleFilterL J P
            (atSample J P n (run J cs (prepare P0 sr spb numCh v0)).1 i)).mem 0
          = (sampleFilterR J P
              (atSample J P n (run J cs (prepare P0 sr spb numCh v0)).1 i)).mem 1)
    ∧ (SVFilter.processSample J 0
          (sampleDry J P n (run J cs (prepare P0 sr spb numCh v0)).1 i)
          (sampleFilterL J P (atSample J P n (run J cs (prepare P0 sr spb numCh v0)).1 i))).1
        = (SVFilter.processSample J 1
          (sampleDry J P n (run J cs (prepare P0 sr spb numCh v0)).1 i)
          (sampleFilterR J P (atSample J P n (run J cs (prepare P0 sr spb numCh v0)).1 i))).1
    ∧ renderFrame J P n (run J cs (prepare P0 sr spb numCh v0)).1 i
        = ((SVFilter.processSample J 0
              (sampleDry J P n (run J cs (prepare P0 sr spb numCh v0)).1 i)
              (sampleFilterL J P
                (atSample J P n (run J cs (prepare P0 sr spb numCh v0)).1 i))).1
            * sampleAmp J P n (run J cs (prepare P0 sr spb numCh v0)).1 i
            * (1 / 2 - 1 / 2 * P.stereoSpread) * J.decibelsToGain P.gain,
           (SVFilter.processSample J 1
              (sampleDry J P n (run J cs (prepare P0 sr spb numCh v0)).1 i)
              (sampleFilterR J P
                (atSample J P n (run J cs (prepare P0 sr spb numCh v0)).1 i))).1
            * sampleAmp J P n (run J cs (prepare P0 sr spb numCh v0)).1 i
            * (1 / 2 + 1 / 2 * P.stereoSpread) * J.decibelsToGain P.gain)
    ∧ (renderFrame J P n (run J cs (prepare P0 sr spb numCh v0)).1 i).1
          * (1 / 2 + 1 / 2 * P.stereoSpread)
        = (renderFrame J P n (run J cs (prepare P0 sr spb numCh v0)).1 i).2
          * (1 / 2 - 1 / 2 * P.stereoSpread)
    ∧ FiltersAgree (atSample J P n (run J cs (prepare P0 sr spb numCh v0)).1 (i + 1)) := by
  have hv : FilterMemAgree (run J cs (prepare P0 sr spb numCh v0)).1 :=
    (run_filters J cs _).1 (prepare_filters P0 sr spb numCh v0).1
  have h0 : FiltersAgree ({} : SynthVoice α) := ⟨rfl, rfl, rfl, rfl, rfl⟩
  have hc : FiltersAgree (run J cs (prepare P0 sr spb numCh ({} : SynthVoice α))).1 :=
    (run_filters J cs _).2 ((prepare_filters P0 sr spb numCh _).2 h0)
  exact ⟨hv, hc, atSample_filters J P n i _ hv⟩

/-- The state values both filters hold after one sample. -/
theorem voiceSample_filter_mem (J : Lib α) (c : BlockConsts α) (v : SynthVoice α) :
    (voiceSample J c v).2.filterL.mem
        = Function.update v.filterL.mem 0
            (J.svf v.filterL.filterType v.filterL.sampleRate
              (jlimit 20 20000 (c.cutoff * J.pow2 (c.fAmt * (v.filtEnv.getNextSample.1 - 1 / 2))))
              c.q (v.filterL.mem 0) (drySignal J c v)).2
    ∧ (voiceSample J c v).2.filterR.mem
        = Function.update v.filterR.mem 1
            (J.svf v.filterR.filterType v.filterR.sampleRate
              (jlimit 20 20000 (c.cutoff * J.pow2 (c.fAmt * (v.filtEnv.getNextSample.1 - 1 / 2))))
              c.q (v.filterR.mem 1) (drySignal J c v)).2 := by
  obtain ⟨w, e, _, hf, hl, hr⟩ := voiceSample_eq_dry J c v
  rw [e, ← hl, ← hr, ← hf]
  exact ⟨rfl, rfl⟩

theorem oscSample_one (J : Lib α) (freq pw : α) (r : OscRefs α) :
    oscSample J 1 freq pw r
      = ((((r.blep.setMode Mode.SawUp).setFrequency freq).processSample).1,
         { r with blep := (((r.blep.setMode Mode.SawUp).setFrequency freq).processSample).2 }) := by
  unfold oscSample
  rw [if_neg (by decide), if_pos rfl]

/-- With waveform selector 1 (Saw+) the first main sample is the sample of `blep1[0]` in
`SawUp` mode at the frequency of the slot. -/
theorem mainStage_saw (J : Lib α) (c : BlockConsts α) (m : Mods α) (v : SynthVoice α)
    (h1 : c.wave1i = 1) :
    (mainStage J c m v).1.1
      = (((v.blep1.1.setMode Mode.SawUp).setFrequency
          (mainFreq J c v m c.det1)).processSample).1 := by
  unfold mainStage slot1Main
  rw [h1]
  simp only [oscSample_one]

theorem unisonStage_off (J : Lib α) (c : BlockConsts α) (m : Mods α) (s : α × α × α)
    (v : SynthVoice α) (h : c.uniOn = false) : unisonStage J c m s v = (s, v) := by
  unfold unisonStage
  rw [h]
  rfl

theorem subStage_off (J : Lib α) (c : BlockConsts α) (v : SynthVoice α)
    (h : c.subOn = false) : subStage J c v = (0, v) := by
  unfold subStage
  rw [h]
  rfl

theorem noiseStage_silent (J : Lib α) (c : BlockConsts α) (v : SynthVoice α)
    (hw : c.nW = 0) (hp : c.nP = 0) (hb : c.nB = 0) (hh : c.nHPFon = false) :
    (noiseStage J c v).1 = 0 := by
  unfold noiseStage
  rw [hh, hw, hp, hb]
  show 0 * _ + 0 * _ + 0 * _ = (0 : α)
  rw [zero_mul, zero_mul, zero_mul, add_zero, add_zero]

/-- The dry signal of a patch in which only the first main oscillator, set to Saw+, is in the
mix. -/
theorem drySignal_saw (J : Lib α) (c : BlockConsts α) (v : SynthVoice α)
    (h1 : c.wave1i = 1) (h2 : c.mix2v = 0) (h3 : c.mix3v = 0) (hu : c.uniOn = false)
    (hs : c.subOn = false) (hw : c.nW = 0) (hp : c.nP = 0) (hb : c.nB = 0)
    (hh : c.nHPFon = false) :
    drySignal J c v
      = c.mix1v * (((v.blep1.1.setMode Mode.SawUp).setFrequency
          (mainFreq J c (modStage J c v).2 (modStage J c v).1 c.det1)).processSample).1 := by
  unfold drySignal
  simp only [unisonStage_off J c _ _ _ hu, subStage_off J c _ hs,
    noiseStage_silent J c _ hw hp hb hh, mainStage_saw J c _ _ h1, h2, h3, zero_mul, mul_zero,
    add_zero]
  rfl

end Filters

end SynthVoice

/-- C30 as stated fails: the two filters do not stay in identical states.  With a filter
that has memory (`integratorLib`), the playing voice, whose two filters are identical after
`prepare`, renders one sample of a patch with only the rising saw of oscillator 1 in the mix:
at 440 Hz and 44100 Hz the saw sample is `2 * (440 / 44100) - 1` and the dry signal is 0.7
times this, `-2161/3150`; the left filter stores its new state in channel 0 and leaves
channel 1 as it was, the right filter stores the same new state in channel 1 and leaves
channel 0 as it was, so the two filter objects differ. -/
theorem filters_not_identical :
    playingVoice.filterL = playingVoice.filterR
    ∧ (SynthVoice.renderNextBlock integratorLib sawPatchParams stereoOut 0 1
        playingVoice).1.filterL.mem 0 = (-2161 / 3150, 0)
    ∧ (SynthVoice.renderNextBlock integratorLib sawPatchParams stereoOut 0 1
        playingVoice).1.filterL.mem 1 = (0, 0)
    ∧ (SynthVoice.renderNextBlock integratorLib sawPatchParams stereoOut 0 1
        playingVoice).1.filterR.mem 0 = (0, 0)
    ∧ (SynthVoice.renderNextBlock integratorLib sawPatchParams stereoOut 0 1
        playingVoice).1.filterR.mem 1 = (-2161 / 3150, 0)
    ∧ (SynthVoice.renderNextBlock integratorLib sawPatchParams stereoOut 0 1
        playingVoice).1.filterL
      ≠ (SynthVoice.renderNextBlock integratorLib sawPatchParams stereoOut 0 1
        playingVoice).1.filterR := by
  have ha : playingVoice.isVoiceActive = true := rfl
  have h1 : (SynthVoice.blockConsts integratorLib sawPatchParams
      (SynthVoice.beginBlock integratorLib sawPatchParams 1 playingVoice)).wave1i = 1 := by
    show (if (0 : ℚ) ≤ 1 then ⌊(1 : ℚ)⌋ else ⌈(1 : ℚ)⌉) = 1
    norm_num
  have t0 : (if (0 : ℚ) ≤ 0 then ⌊(0 : ℚ)⌋ else ⌈(0 : ℚ)⌉) ≠ 1 := by norm_num
  have hu : decide ((0 : ℚ) > 1 / 2) = false := by norm_num
  have hf : SynthVoice.mainFreq integratorLib
      (SynthVoice.blockConsts integratorLib sawPatchParams
        (SynthVoice.beginBlock integratorLib sawPatchParams 1 playingVoice))
      (SynthVoice.modStage integratorLib
        (SynthVoice.blockConsts integratorLib sawPatchParams
          (SynthVoice.beginBlock integratorLib sawPatchParams 1 playingVoice))
        (SynthVoice.beginBlock integratorLib sawPatchParams 1 playingVoice)).2
      (SynthVoice.modStage integratorLib
        (SynthVoice.blockConsts integratorLib sawPatchParams
          (SynthVoice.beginBlock integratorLib sawPatchParams 1 playingVoice))
        (SynthVoice.beginBlock integratorLib sawPatchParams 1 playingVoice)).1
      (SynthVoice.blockConsts integratorLib sawPatchParams
        (SynthVoice.beginBlock integratorLib sawPatchParams 1 playingVoice)).det1 = 440 := by
    unfold SynthVoice.mainFreq
    rw [SynthVoice.lfoPitch_not1 _ _ _ _ _ t0]
    show (if (if (0 : ℚ) ≤ 0 then ⌊(0 : ℚ)⌋ else ⌈(0 : ℚ)⌉) = 1 then _ else
      440 * pow2Q (((69 - 69 : Int) : ℚ) / 12) * pow2Q (0 / 12) * pow2Q (0 / 12)) = 440
    rw [if_neg t0]
    norm_num [pow2Q_zero]
  have hd : SynthVoice.drySignal integratorLib
      (SynthVoice.blockConsts integratorLib sawPatchParams
        (SynthVoice.beginBlock integratorLib sawPatchParams 1 playingVoice))
      (SynthVoice.beginBlock integratorLib sawPatchParams 1 playingVoice) = -2161 / 3150 := by
    rw [SynthVoice.drySignal_saw _ _ _ h1 rfl rfl hu hu rfl rfl rfl hu, hf]
    show (7 / 10 : ℚ) * (PolyBLEPOsc.processSample
      (PolyBLEPOsc.setFrequency 440
        (PolyBLEPOsc.setMode Mode.SawUp (PolyBLEPOsc.prepare 44100 {})))).1 = -2161 / 3150
    norm_num [PolyBLEPOsc.processSample, PolyBLEPOsc.setFrequency, PolyBLEPOsc.setMode,
      PolyBLEPOsc.prepare, PolyBLEPOsc.reset, PolyBLEPOsc.advance, PolyBLEPOsc.polyBLEP, jlimit]
  obtain ⟨ml, mr⟩ := SynthVoice.voiceSample_filter_mem integratorLib
    (SynthVoice.blockConsts integratorLib sawPatchParams
      (SynthVoice.beginBlock integratorLib sawPatchParams 1 playingVoice))
    (SynthVoice.beginBlock integratorLib sawPatchParams 1 playingVoice)
  rw [hd] at ml mr
  have el : (SynthVoice.renderNextBlock integratorLib sawPatchParams stereoOut 0 1
      playingVoice).1.filterL.mem
      = Function.update (fun _ => ((0 : ℚ), (0 : ℚ))) 0 ((0 : ℚ) + -2161 / 3150, (0 : ℚ)) := by
    rw [SynthVoice.renderNextBlock_active _ _ _ _ _ _ ha]
    exact ml
  have er : (SynthVoice.renderNextBlock integratorLib sawPatchParams stereoOut 0 1
      playingVoice).1.filterR.mem
      = Function.update (fun _ => ((0 : ℚ), (0 : ℚ))) 1 ((0 : ℚ) + -2161 / 3150, (0 : ℚ)) := by
    rw [SynthVoice.renderNextBlock_active _ _ _ _ _ _ ha]
    exact mr
  have l0 : (SynthVoice.renderNextBlock integratorLib sawPatchParams stereoOut 0 1
      playingVoice).1.filterL.mem 0 = (-2161 / 3150, 0) := by
    rw [el, Function.update_same]; norm_num
  have r0 : (SynthVoice.renderNextBlock integratorLib sawPatchParams stereoOut 0 1
      playingVoice).1.filterR.mem 0 = (0, 0) := by
    rw [er, Function.update_noteq (by decide)]
  refine ⟨rfl, l0, ?_, r0, ?_, ?_⟩
  · rw [el, Function.update_noteq (by decide)]
  · rw [er, Function.update_same]; norm_num
  · intro h
    have h' := congrArg (fun f : SVFilter ℚ => (f.mem 0).1) h
    simp only [l0, r0] at h'
    norm_num at h'

end MiniSynth
